import Mathlib

/-!
goexpert-get-clima: the Gateway (service-a) and Enrichment (service-b) handlers

A shallow embedding of `service-a/main.go` and `service-b/main.go`.

* A Go `string` is a Lean `String`; `len(s)` is the number of bytes of its
  UTF-8 encoding, `String.utf8ByteSize`.  Every string the two handlers pass to
  `validateCEP` comes out of `encoding/json`, which only produces valid UTF-8.
* A `float64` is modelled exactly: every operation rounds the exact result to
  the nearest binary64, ties to even.
* A handler is a function from the world (environment, collaborators) and the
  request to its response, threading a state: the log of what the run does and
  the generator of trace and span identifiers.
* Calls into the standard library and into OpenTelemetry are modelled by their
  documented behaviour; each such definition says which call it stands for.
* The body of a response is the value handed to `json.NewEncoder(w).Encode`, or
  the text handed to `http.Error`, together with how far the writing got: the
  encoder writes nothing when it returns an error, which the handlers drop.
* A JSON text is kept as the JSON value it denotes; a JSON string is kept as the
  Unicode text it denotes, so texts with an escaped lone surrogate are outside
  the model.
-/

namespace GetClima

/-! ## Strings and the postal-code pattern -/

/-- Go `len(s)` for a string: its length in bytes. -/
def len (s : String) : Nat := s.utf8ByteSize

/-- The Perl class `\d` of Go `regexp` (RE2 syntax): the ASCII digits only. -/
def isPerlDigit (c : Char) : Bool := decide (48 ≤ c.toNat) && decide (c.toNat ≤ 57)

/-- Matching `\d{n}$` against the rest of the text: `n` digit runes and then
the end of the text (`$` without the `m` flag is the end of the text). -/
def matchDigitsThenEnd : Nat → List Char → Bool
  | 0, [] => true
  | 0, _ :: _ => false
  | _ + 1, [] => false
  | n + 1, c :: cs => isPerlDigit c && matchDigitsThenEnd n cs

/-- The value `matched` of ``regexp.MatchString(`^\d{8}$`, s)``.  The pattern
compiles, so the error is nil; `^` pins the only candidate match to offset 0. -/
def regexpMatchEightDigits (s : String) : Bool := matchDigitsThenEnd 8 s.data

namespace ServiceA

/-- Function `validateCEP` of service-a/main.go, lines 63-72. -/
def validateCEP (cep : String) : Bool :=
  if len cep != 8 then false
  else regexpMatchEightDigits cep

end ServiceA

namespace ServiceB

/-- Function `validateCEP` of service-b/main.go, lines 90-96. -/
def validateCEP (cep : String) : Bool :=
  if len cep != 8 then false
  else regexpMatchEightDigits cep

end ServiceB

/-! ## float64

A finite binary64 value is an integer multiple of `2^-1074` (the smallest
subnormal), so it is kept as that integer.  The sign of zero is not tracked.
Every operation yields the exact result rounded to the nearest binary64, ties
to even, as IEEE 754 prescribes and Go implements. -/

/-- A Go `float64`. `fin k` is the finite value `k * 2^-1074`. -/
inductive Float64
  | fin (k : Int)
  | inf (neg : Bool)
  | nan
deriving DecidableEq, Repr

/-- The integer nearest to `n / d`, a tie going to the even neighbour. -/
def roundHalfEven (n d : Nat) : Nat :=
  let q := n / d
  let r := n % d
  if 2 * r < d then q
  else if d < 2 * r then q + 1
  else if q % 2 = 0 then q else q + 1

/-- Helper of `bitLen`, by halving. -/
def bitLenAux : Nat → Nat → Nat
  | 0, _ => 0
  | fuel + 1, n => if n = 0 then 0 else bitLenAux fuel (n / 2) + 1

/-- Helper of `bitLen`: 64 binary digits at a time while there are more than 64,
then one at a time. -/
def bitLenChunks : Nat → Nat → Nat
  | 0, _ => 0
  | fuel + 1, n =>
    if n < 2 ^ 64 then bitLenAux 64 n else bitLenChunks fuel (n / 2 ^ 64) + 64

/-- Number of binary digits of `n`. -/
def bitLen (n : Nat) : Nat := bitLenChunks n n

/-- The magnitude `n / d` rounded to 53 significant bits (fewer in the
subnormal range), in units of `2^-1074`. -/
def roundMag (n d : Nat) : Nat :=
  let x := n * 2 ^ 1074
  let sh := bitLen (x / d) - 53
  roundHalfEven x (d * 2 ^ sh) * 2 ^ sh

/-- The binary64 nearest to `± n / d`; a magnitude that rounds to `2^1024` or
more overflows to an infinity. -/
def Float64.ofRat (neg : Bool) (n d : Nat) : Float64 :=
  let k := roundMag n d
  if 2 ^ 2098 ≤ k then .inf neg
  else .fin (if neg then - (k : Int) else k)

/-- The binary64 nearest to `n / d` for an integer `n`; this is also the value of
a Go constant such as `1.8` (`ofInt 18 10`) converted to `float64`. -/
def Float64.ofInt (n : Int) (d : Nat) : Float64 :=
  Float64.ofRat (decide (n < 0)) n.natAbs d

/-- Go `x * y` on `float64`. -/
def Float64.mul : Float64 → Float64 → Float64
  | .nan, _ => .nan
  | _, .nan => .nan
  | .inf s, .inf t => .inf (s != t)
  | .inf s, .fin b => if b = 0 then .nan else .inf (s != decide (b < 0))
  | .fin a, .inf t => if a = 0 then .nan else .inf (decide (a < 0) != t)
  | .fin a, .fin b => Float64.ofInt (a * b) (2 ^ 2148)

/-- Go `x + y` on `float64`. -/
def Float64.add : Float64 → Float64 → Float64
  | .nan, _ => .nan
  | _, .nan => .nan
  | .inf s, .inf t => if s = t then .inf s else .nan
  | .inf s, .fin _ => .inf s
  | .fin _, .inf t => .inf t
  | .fin a, .fin b => Float64.ofInt (a + b) (2 ^ 1074)

/-- The fused `x * y + z`: the exact value rounded once.  The Go specification
lets an implementation fuse `x*y + z`; the compiler does so on arm64, ppc64,
riscv64 and s390x, and does not on amd64. -/
def Float64.fma : Float64 → Float64 → Float64 → Float64
  | .fin a, .fin b, .fin c => Float64.ofInt (a * b + c * Int.ofNat (2 ^ 1074)) (2 ^ 2148)
  | x, y, z => (x.mul y).add z

/-- Whether a `float64` is finite, which is what `encoding/json` asks of a value
it encodes: "json: unsupported value" for an infinity or a NaN. -/
def Float64.isFinite : Float64 → Bool
  | .fin _ => true
  | _ => false

/-! ### What rounding to nearest, ties to even, means

The definitions of this part state the rounding of IEEE 754 without computing
it; the theorems below prove that `roundMag` and the operations built on it
satisfy them. -/

/-- The magnitudes that a significand of 53 binary digits can hold, in units of
`2^-1074` and with no bound on the exponent. -/
def OnGrid (k : Nat) : Prop := ∃ m e : Nat, m < 2 ^ 53 ∧ k = m * 2 ^ e

/-- Those of them whose significand is even. -/
def EvenOnGrid (k : Nat) : Prop := ∃ m e : Nat, m < 2 ^ 52 ∧ k = m * 2 ^ (e + 1)

/-- The distance between two natural numbers. -/
def absDiff (a b : Nat) : Nat := (a - b) + (b - a)

/-- The multiple `k * d` is nearest to `x` among those of the magnitudes of the
grid, and `k` has an even significand when another one is as near: `k` is
`x / d` rounded to nearest, ties to even. -/
def NearestEven (x d k : Nat) : Prop :=
  OnGrid k ∧ ∀ j, OnGrid j → j ≠ k →
    absDiff x (k * d) ≤ absDiff x (j * d) ∧
    (absDiff x (k * d) = absDiff x (j * d) → EvenOnGrid k)

/-- The float64 `f` is the rational `± n / d` rounded to nearest, ties to even,
an infinity standing for a rounded magnitude of `2^1024` or more. -/
def Float64.IsNearest (neg : Bool) (n d : Nat) (f : Float64) : Prop :=
  ∃ k, NearestEven (n * 2 ^ 1074) d k ∧
    f = if 2 ^ 2098 ≤ k then .inf neg else .fin (if neg then - (k : Int) else k)

/-- The integer `q` is nearest to `n / d`, and even when `n / d` lies half way
between two integers. -/
def IsHalfEven (n d q : Nat) : Prop :=
  2 * absDiff n (q * d) ≤ d ∧ (2 * absDiff n (q * d) = d → q % 2 = 0)

/-- The text produced by `fmt.Sprintf("%.1f", v)`: for a finite `v` the digits
`[-]d...d.d`, kept as the sign and the number of tenths; otherwise `+Inf`,
`-Inf` or `NaN`. -/
inductive Formatted
  | decimal (neg : Bool) (tenths : Nat)
  | inf (neg : Bool)
  | nan
deriving DecidableEq, Repr

/-- Call `fmt.Sprintf("%.1f", v)`: the exact value of `v` rounded to one digit
after the point, a tie going to the even digit. -/
def sprintf1f : Float64 → Formatted
  | .fin k => .decimal (decide (k < 0)) (roundHalfEven (k.natAbs * 10) (2 ^ 1074))
  | .inf s => .inf s
  | .nan => .nan

/-- Call `strconv.ParseFloat(s, 64)` on a text of `sprintf1f`; such a text always
parses, to the nearest binary64. -/
def strconvParseFloat : Formatted → Float64
  | .decimal neg tenths => Float64.ofRat neg tenths 10
  | .inf s => .inf s
  | .nan => .nan

/-! ## JSON as `encoding/json` reads and writes it

A JSON text is kept as the value it denotes.  Decoding into an `interface{}`
turns every number into a `float64`, and encoding writes a `float64` as the
shortest decimal that reads back as it. -/

/-- A JSON number: the decimal `± mant * 10^exp`. -/
structure Decimal where
  neg : Bool
  mant : Nat
  exp : Int
deriving DecidableEq, Repr

/-- Numerator of the magnitude of a decimal. -/
def Decimal.num (x : Decimal) : Nat :=
  if 0 ≤ x.exp then x.mant * 10 ^ x.exp.toNat else x.mant

/-- Denominator of the magnitude of a decimal. -/
def Decimal.den (x : Decimal) : Nat :=
  if 0 ≤ x.exp then 1 else 10 ^ (- x.exp).toNat

/-- Call `strconv.ParseFloat(s, 64)` on a decimal: the nearest binary64, an
infinity (with a range error) when the decimal lies beyond the largest one. -/
def Decimal.toFloat64 (x : Decimal) : Float64 :=
  Float64.ofRat x.neg x.num x.den

/-- Whether the decimal `mant * 10^exp` reads as the float64 of magnitude `k`
units of `2^-1074`. -/
def readsAs (k : Nat) (mant : Nat) (exp : Int) : Bool :=
  roundMag (Decimal.num { neg := false, mant := mant, exp := exp })
    (Decimal.den { neg := false, mant := mant, exp := exp }) == k

/-- The integer part of `k * 2^-1074 / 10^s`. -/
def floorAt (k : Nat) (s : Int) : Nat :=
  if 0 ≤ s then k / (2 ^ 1074 * 10 ^ s.toNat) else k * 10 ^ (- s).toNat / 2 ^ 1074

/-- Whether `k * 2^-1074 / 10^s` lies nearer to the integer after its integer
part than to that part, or half way with an odd integer part. -/
def nearerUp (k : Nat) (s : Int) : Bool :=
  let num := if 0 ≤ s then k else k * 10 ^ (- s).toNat
  let den := if 0 ≤ s then 2 ^ 1074 * 10 ^ s.toNat else 2 ^ 1074
  let q := num / den
  let r := num % den
  decide (den < 2 * r) || (decide (den = 2 * r) && q % 2 == 1)

/-- The decimal exponent of the first digit of `k * 2^-1074`, searched downwards
from `s`. -/
def topScale (k : Nat) : Nat → Int → Int
  | 0, s => s
  | fuel + 1, s => if 1 ≤ floorAt k s then s else topScale k fuel (s - 1)

/-- The two decimals whose last digit has the weight `10^s` around
`k * 2^-1074`, the nearer one first. -/
def around (k : Nat) (s : Int) : List (Nat × Int) :=
  if nearerUp k s then [(floorAt k s + 1, s), (floorAt k s, s)]
  else [(floorAt k s, s), (floorAt k s + 1, s)]

/-- The decimals of 1 to `n` digits around `k * 2^-1074`, fewer digits first;
`top` is the decimal exponent of its first digit. -/
def candidates (k : Nat) (top : Int) : Nat → List (Nat × Int)
  | 0 => []
  | n + 1 => candidates k top n ++ around k (top - n)

/-- The digits and exponent that `strconv.AppendFloat(b, f, fmt, -1, 64)` writes
for the positive float64 of magnitude `k`: the decimal of fewest digits that
reads back as `f`, the nearest to `f` when there are two.  17 digits always
suffice; the exact decimal expansion stands for the case that they do not. -/
def shortest (k : Nat) : Nat × Int :=
  ((candidates k (topScale k 700 308) 17).find? (fun c => readsAs k c.1 c.2)).getD
    (k * 5 ^ 1074, -1074)

/-- The number that the encoder writes for the finite float64 `k * 2^-1074`. -/
def formatFloat (k : Int) : Decimal :=
  if k = 0 then { neg := false, mant := 0, exp := 0 }
  else { neg := decide (k < 0), mant := (shortest k.natAbs).1, exp := (shortest k.natAbs).2 }

/-- A JSON value, as a JSON text (RFC 8259) denotes it.  An object is the list
of its members, in the order of the text. -/
inductive JSON
  | null
  | bool (b : Bool)
  | num (x : Decimal)
  | str (s : String)
  | arr (xs : List JSON)
  | obj (ms : List (String × JSON))
deriving Repr

/-- A value that `encoding/json` stores into an `interface{}`: nil, `bool`,
`float64` (finite: `k * 2^-1074`), `string`, `[]interface{}` or
`map[string]interface{}` (its entries, with distinct keys). -/
inductive GoValue
  | nil
  | bool (b : Bool)
  | float64 (k : Int)
  | string (s : String)
  | slice (xs : List GoValue)
  | map (ms : List (String × GoValue))
deriving Repr

/-- Statement `m[key] = value` on a map. -/
def mapSet (m : List (String × GoValue)) (key : String) (value : GoValue) :
    List (String × GoValue) :=
  match m with
  | [] => [(key, value)]
  | (k, v) :: rest => if k = key then (key, value) :: rest else (k, v) :: mapSet rest key value

/-- Method `convertNumber` of the decoder and the store that follows: a number
outside the range of float64 leaves nil in its place, the error being saved for
the end of the decoding. -/
def convertNumber (x : Decimal) : GoValue :=
  match x.toFloat64 with
  | .fin k => .float64 k
  | _ => .nil

mutual
/-- Decoding a JSON value into an `interface{}` (method `valueInterface`). -/
def unmarshal : JSON → GoValue
  | .null => .nil
  | .bool b => .bool b
  | .num x => convertNumber x
  | .str s => .string s
  | .arr xs => .slice (unmarshalList xs)
  | .obj ms => .map (unmarshalMembers ms [])
/-- The elements of an array, in order (method `arrayInterface`). -/
def unmarshalList : List JSON → List GoValue
  | [] => []
  | x :: xs => unmarshal x :: unmarshalList xs
/-- The members of an object, stored one after the other into the map (method
`objectInterface`): a later member replaces an earlier one of the same name. -/
def unmarshalMembers : List (String × JSON) → List (String × GoValue) → List (String × GoValue)
  | [], m => m
  | (key, v) :: ms, m => unmarshalMembers ms (mapSet m key (unmarshal v))
end

/-- Go `a < b` on strings, given by their characters: the order of the bytes of
UTF-8 is the order of the code points. -/
def stringLess : List Char → List Char → Bool
  | [], [] => false
  | [], _ :: _ => true
  | _ :: _, [] => false
  | x :: xs, y :: ys =>
    if x.toNat < y.toNat then true
    else if y.toNat < x.toNat then false
    else stringLess xs ys

/-- Insertion of a member before the first one whose name is not smaller. -/
def insertMember (p : String × JSON) : List (String × JSON) → List (String × JSON)
  | [] => [p]
  | q :: rest =>
    if stringLess q.1.data p.1.data then q :: insertMember p rest else p :: q :: rest

/-- Members sorted by name, as the encoder writes the entries of a map. -/
def sortMembers : List (String × JSON) → List (String × JSON)
  | [] => []
  | p :: rest => insertMember p (sortMembers rest)

mutual
/-- The JSON value of the text that `json.NewEncoder(w).Encode` writes for a
decoded value. -/
def marshal : GoValue → JSON
  | .nil => .null
  | .bool b => .bool b
  | .float64 k => .num (formatFloat k)
  | .string s => .str s
  | .slice xs => .arr (marshalList xs)
  | .map ms => .obj (sortMembers (marshalMembers ms))
/-- The elements of a slice, in order. -/
def marshalList : List GoValue → List JSON
  | [] => []
  | x :: xs => marshal x :: marshalList xs
/-- The entries of a map. -/
def marshalMembers : List (String × GoValue) → List (String × JSON)
  | [] => []
  | (key, v) :: ms => (key, marshal v) :: marshalMembers ms
end

mutual
/-- How deep arrays and objects are nested in a value. -/
def JSON.depth : JSON → Nat
  | .arr xs => JSON.depthList xs + 1
  | .obj ms => JSON.depthMembers ms + 1
  | _ => 0
/-- The largest depth of the elements of an array. -/
def JSON.depthList : List JSON → Nat
  | [] => 0
  | x :: xs => max x.depth (JSON.depthList xs)
/-- The largest depth of the members of an object. -/
def JSON.depthMembers : List (String × JSON) → Nat
  | [] => 0
  | (_, v) :: ms => max v.depth (JSON.depthMembers ms)
end

/-- Constant `maxNestingDepth` of the scanner of `encoding/json`: a text nested
deeper is an error. -/
def maxNestingDepth : Nat := 10000

/-- The body of a downstream response, by what a JSON decoder finds in it. -/
inductive JSONText
  /-- a JSON text, for the value `v` -/
  | valid (v : JSON)
  /-- not a JSON text; `lead` is the JSON value it starts with, if it starts
  with one (the decoder reads one value and leaves the rest unread) -/
  | invalid (lead : Option JSON)

/-- Statement `json.NewDecoder(resp.Body).Decode(&responseBody)` on the nil
`responseBody`, the error dropped: the value left in `responseBody`.  A text
that the scanner rejects leaves it nil. -/
def decodeInterface (body : JSONText) : GoValue :=
  match body with
  | .valid v => if v.depth ≤ maxNestingDepth then unmarshal v else .nil
  | .invalid (some v) => if v.depth ≤ maxNestingDepth then unmarshal v else .nil
  | .invalid none => .nil

/-! ### JSON values compared

The definitions of this part state when two JSON values are the same, exactly or
up to a relation between their numbers; they follow RFC 8259 and not the
code. -/

/-- The value of a name in an object: that of its last member of that name. -/
def JSON.member (key : String) : List (String × JSON) → Option JSON
  | [] => none
  | (k, v) :: ms =>
    match JSON.member key ms with
    | some v2 => some v2
    | none => if k = key then some v else none

/-- Two JSON values that are the same up to the relation `R` between their
numbers: the same null, boolean or string, arrays of the same length with
related elements, objects with the same names and related values. -/
inductive JSON.Rel (R : Decimal → Decimal → Prop) : JSON → JSON → Prop
  | null : JSON.Rel R .null .null
  | bool (b : Bool) : JSON.Rel R (.bool b) (.bool b)
  | num (x y : Decimal) : R x y → JSON.Rel R (.num x) (.num y)
  | str (s : String) : JSON.Rel R (.str s) (.str s)
  | arr (xs ys : List JSON) : xs.length = ys.length →
      (∀ (i : Nat) (x y : JSON), xs[i]? = some x → ys[i]? = some y → JSON.Rel R x y) →
      JSON.Rel R (.arr xs) (.arr ys)
  | obj (ms ns : List (String × JSON)) :
      (∀ key, (JSON.member key ms).isSome = (JSON.member key ns).isSome) →
      (∀ key v v2, JSON.member key ms = some v → JSON.member key ns = some v2 →
        JSON.Rel R v v2) →
      JSON.Rel R (.obj ms) (.obj ns)

/-- Two decimals of the same value. -/
def Decimal.sameValue (x y : Decimal) : Prop :=
  (x.mant = 0 ∧ y.mant = 0) ∨
    (x.neg = y.neg ∧ x.mant * 10 ^ (x.exp - min x.exp y.exp).toNat =
      y.mant * 10 ^ (y.exp - min x.exp y.exp).toNat)

instance Decimal.decideSameValue (x y : Decimal) : Decidable (x.sameValue y) := by
  unfold Decimal.sameValue
  infer_instance

/-- Two JSON texts that denote the same JSON value. -/
def JSON.Same (a b : JSON) : Prop := JSON.Rel Decimal.sameValue a b

/-- The decimal lies within the range of float64: it reads as a finite one. -/
def Decimal.inRange (x : Decimal) : Prop := x.toFloat64.isFinite = true

instance Decimal.decideInRange (x : Decimal) : Decidable x.inRange := by
  unfold Decimal.inRange
  infer_instance

mutual
/-- Every number of the value satisfies `P`. -/
def JSON.AllNum (P : Decimal → Prop) : JSON → Prop
  | .num x => P x
  | .arr xs => JSON.AllNumList P xs
  | .obj ms => JSON.AllNumMembers P ms
  | _ => True
/-- Every number of the elements satisfies `P`. -/
def JSON.AllNumList (P : Decimal → Prop) : List JSON → Prop
  | [] => True
  | x :: xs => x.AllNum P ∧ JSON.AllNumList P xs
/-- Every number of the members satisfies `P`. -/
def JSON.AllNumMembers (P : Decimal → Prop) : List (String × JSON) → Prop
  | [] => True
  | (_, v) :: ms => v.AllNum P ∧ JSON.AllNumMembers P ms
end

/-- Go `m[key]` on a decoded map. -/
def mapIndex (key : String) : List (String × GoValue) → Option GoValue
  | [] => none
  | (k, v) :: rest => if k = key then some v else mapIndex key rest

/-- The first member of a name in a list of members. -/
def JSON.first (key : String) : List (String × JSON) → Option JSON
  | [] => none
  | (k, v) :: rest => if k = key then some v else JSON.first key rest

/-- The names of a list of members or entries. -/
def names {α : Type} (l : List (String × α)) : List String := l.map Prod.fst

/-- Decoding into an `interface{}`, then encoding. -/
def reencode (v : JSON) : JSON := marshal (unmarshal v)

/-! ## Messages, tracing and the world outside the handlers -/

/-- Struct `CEPRequest` (both services). -/
structure CEPRequest where
  CEP : String
deriving DecidableEq, Repr

/-- Struct `ErrorResponse` (both services). -/
structure ErrorResponse where
  Message : String
deriving DecidableEq, Repr

/-- Struct `ViaCEPResponse` of service-b. -/
structure ViaCEPResponse where
  CEP : String
  Logradouro : String
  Complemento : String
  Bairro : String
  Localidade : String
  UF : String
  IBGE : String
  GIA : String
  DDD : String
  SIAFI : String
  Erro : Bool
deriving DecidableEq, Repr

/-- The anonymous struct of the field `Current` of `WeatherAPIResponse`. -/
structure WeatherCurrent where
  TempC : Float64
deriving DecidableEq, Repr

/-- Struct `WeatherAPIResponse` of service-b. -/
structure WeatherAPIResponse where
  Current : WeatherCurrent
deriving DecidableEq, Repr

/-- Struct `WeatherResponse` of service-b. -/
structure WeatherResponse where
  City : String
  TempC : Float64
  TempF : Float64
  TempK : Float64
deriving DecidableEq, Repr

/-- An OpenTelemetry span context: the identity of a span within its trace.
The zero identifiers are the invalid ones. -/
structure SpanContext where
  traceID : Nat
  spanID : Nat
deriving DecidableEq, Repr

/-- Method `SpanContext.IsValid`. -/
def SpanContext.IsValid (sc : SpanContext) : Bool :=
  sc.traceID != 0 && sc.spanID != 0

/-- A `context.Context`, as far as tracing reads it: the span context that
`trace.SpanContextFromContext` returns (the zero one when there is no span). -/
structure Context where
  spanContext : SpanContext
deriving DecidableEq, Repr

/-- HTTP header fields. -/
abbrev Header := List (String × String)

/-- Method `Header.Set`: the field replaces any earlier one of that name. -/
def Header.Set (h : Header) (key value : String) : Header :=
  (key, value) :: h.filter (fun kv => kv.1 != key)

/-- Method `Header.Get`. -/
def Header.Get (h : Header) (key : String) : Option String :=
  (h.find? (fun kv => kv.1 == key)).map (fun kv => kv.2)

/-- An outbound request built by `http.NewRequestWithContext`; `body` is the
`CEPRequest` whose JSON encoding is sent, if any. -/
structure HttpRequest where
  method : String
  url : String
  header : Header
  body : Option CEPRequest
deriving DecidableEq, Repr

/-- An inbound request as a handler sees it.  `body` is the outcome of
`json.NewDecoder(r.Body).Decode(&req)`: `none` when it returns an error. -/
structure Request where
  ctx : Context
  method : String
  header : Header
  body : Option CEPRequest
deriving DecidableEq, Repr

/-- A Go `error` value, by where it comes from. -/
inductive GoError
  | newRequest (url : String)
  | clientDo (url : String)
  | jsonDecode
  | errorf (msg : String)
deriving DecidableEq, Repr

/-- What a run does, in order: spans started and ended, errors recorded on spans,
entries into the collaborator functions `fetchCEPData` and `fetchWeatherData`
(`call`), requests put on the wire (`httpDo`) and the writing of the response
status (`respond`). -/
inductive Event
  | spanStart (name : String) (sc parent : SpanContext)
  | recordError (span : SpanContext) (err : GoError)
  | spanEnd (span : SpanContext)
  | call (fn arg : String)
  | httpDo (req : HttpRequest)
  | respond (status : Nat)
deriving DecidableEq, Repr

/-- The run of one request: the events so far and the state of the generator
of trace and span identifiers (each new identifier is fresh). -/
structure St where
  events : List Event
  nextID : Nat
deriving DecidableEq, Repr

/-- Append an event. -/
def St.emit (st : St) (e : Event) : St :=
  { st with events := st.events ++ [e] }

/-- Consume one identifier. -/
def St.bump (st : St) : St :=
  { st with nextID := st.nextID + 1 }

/-- Outcome of `client.Do` followed by `json.NewDecoder(resp.Body).Decode`. -/
inductive Fetched (α : Type)
  | doError
  | decodeError
  | decoded (a : α)
deriving DecidableEq, Repr

/-- The response that service-a gets back from `client.Do`: that of the last hop
when the client follows redirects. -/
structure DownstreamResponse where
  StatusCode : Nat
  Body : JSONText

/-- Everything the handlers depend on besides the request. -/
structure World where
  /-- the process environment; `none` is an unset variable -/
  env : String → Option String
  /-- whether the spans of this request are recording (sampled) -/
  recording : Bool
  /-- whether the target fuses `x*y + z` -/
  fusedMulAdd : Bool
  /-- URLs that `net/url` rejects for another reason than a control character -/
  urlRejected : String → Bool
  /-- the `traceparent` text that `propagation.TraceContext` writes -/
  encodeTraceparent : SpanContext → String
  /-- the span context that `propagation.TraceContext` reads from such a text -/
  decodeTraceparent : String → SpanContext
  /-- function `url.QueryEscape` -/
  queryEscape : String → String
  /-- the directory service, by URL -/
  viaCEP : String → Fetched ViaCEPResponse
  /-- the weather service, by URL -/
  weatherAPI : String → Fetched WeatherAPIResponse
  /-- the Enrichment stage as service-a reaches it: what `client.Do` returns for
  the request put on the wire; `none` is an error of `client.Do` -/
  serviceB : HttpRequest → Option DownstreamResponse

/-- Call `os.Getenv`: the empty string for an unset variable. -/
def osGetenv (w : World) (key : String) : String :=
  (w.env key).getD ""

/-- Function `stringContainsCTLByte` of `net/url`. -/
def stringContainsCTLByte (s : String) : Bool :=
  s.data.any (fun c => decide (c.toNat < 32) || c.toNat == 127)

/-- Whether `http.NewRequestWithContext(ctx, method, url, body)` returns an error
for a valid method: it does when `url.Parse` fails, which it always does on a
URL containing an ASCII control character. -/
def newRequestFails (w : World) (url : String) : Bool :=
  stringContainsCTLByte url || w.urlRejected url

/-- Method `Tracer.Start`: a new span, child of the span of `ctx`.  It joins the
trace of a valid parent and otherwise starts a trace.  Returns the context
carrying the new span, and the span. -/
def tracerStart (ctx : Context) (name : String) (st : St) : Context × SpanContext × St :=
  let parent := ctx.spanContext
  let st1 := if parent.IsValid then st else st.bump
  let tid := if parent.IsValid then parent.traceID else st.nextID + 1
  let sc : SpanContext := { traceID := tid, spanID := st1.nextID + 1 }
  ({ spanContext := sc }, sc, (st1.bump).emit (.spanStart name sc parent))

/-- Method `Span.RecordError`: nothing happens on a span that is not recording. -/
def recordError (w : World) (span : SpanContext) (err : GoError) (st : St) : St :=
  if w.recording then st.emit (.recordError span err) else st

/-- Method `TraceContext.Inject` on a `HeaderCarrier`. -/
def inject (w : World) (ctx : Context) (h : Header) : Header :=
  if ctx.spanContext.IsValid then h.Set "traceparent" (w.encodeTraceparent ctx.spanContext)
  else h

/-- Method `TraceContext.Extract` on a `HeaderCarrier`: the context with the
remote span context of the header, or `ctx` itself without a valid one. -/
def extract (w : World) (ctx : Context) (h : Header) : Context :=
  match h.Get "traceparent" with
  | none => ctx
  | some v =>
    if (w.decodeTraceparent v).IsValid then { spanContext := w.decodeTraceparent v }
    else ctx

/-- The round trip of `otelhttp.NewTransport(http.DefaultTransport)`, which
"wraps the provided http.RoundTripper with one that starts a span, injects the
span context into the outbound request headers": the request that goes on the
wire is a clone carrying the context of that client span.  What the transport
does to its own span afterwards (errors, end) is not logged. -/
def otelRoundTrip (w : World) (ctx : Context) (req : HttpRequest) (st : St) : HttpRequest × St :=
  let started := tracerStart ctx ("HTTP " ++ req.method) st
  let wire := { req with header := inject w started.1 req.header }
  (wire, started.2.2.emit (.httpDo wire))

/-- The body of a response. -/
inductive Body
  /-- plain text written by `http.Error` -/
  | text (msg : String)
  /-- the value handed to `json.NewEncoder(w).Encode` -/
  | error (e : ErrorResponse)
  /-- the value handed to `json.NewEncoder(w).Encode` -/
  | weather (r : WeatherResponse)
  /-- the decoded `interface{}` handed to `json.NewEncoder(w).Encode` -/
  | relay (v : GoValue)
  /-- nothing was handed to a writer -/
  | nothing

/-- How far the writing of a response got. -/
inductive Written
  /-- status line, header and body -/
  | full
  /-- status line and header only: the write of the body returned an error,
  which the handlers drop -/
  | headOnly
  /-- nothing: the handler panicked before the status line, and `net/http`
  closes the connection -/
  | nothing
deriving DecidableEq, Repr

/-- What a handler did to its `http.ResponseWriter`: the status and header it
set, the body it handed to the writer, and how far the writing got. -/
structure Response where
  status : Nat
  contentType : String
  body : Body
  written : Written := .full

/-- Function `checkWriteHeaderCode` of `net/http`: `WriteHeader` panics on a code
that does not have three digits. -/
def writeHeaderPanics (code : Nat) : Bool :=
  decide (code < 100) || decide (999 < code)

/-- The status of the response after `w.WriteHeader(code)` and a write: a 1xx
code other than 101 only sends an interim response, and the write that follows
sends the status 200.  (`client.Do` itself never returns such a code.) -/
def statusAfterWriteHeader (code : Nat) : Nat :=
  if 100 ≤ code ∧ code ≤ 199 ∧ code ≠ 101 then 200 else code

/-- Function `bodyAllowedForStatus` of `net/http`: a write to a response of one
of these statuses returns `http.ErrBodyNotAllowed`. -/
def bodyAllowedForStatus (status : Nat) : Bool :=
  if 100 ≤ status ∧ status ≤ 199 then false
  else if status = 204 then false
  else if status = 304 then false
  else true

/-- What reading `resp.Body` yields: `net/http` hands over the response of a
status that allows no body with an empty body, whatever the server sent. -/
def DownstreamResponse.read (resp : DownstreamResponse) : JSONText :=
  if bodyAllowedForStatus resp.StatusCode then resp.Body else .invalid none

/-- Whether `json.NewEncoder(w).Encode` can encode a `WeatherResponse`: it
returns an `UnsupportedValueError`, having written nothing, when a temperature
is an infinity or a NaN. -/
def WeatherResponse.encodable (r : WeatherResponse) : Bool :=
  r.TempC.isFinite && r.TempF.isFinite && r.TempK.isFinite

/-- The JSON value of the text that the encoder writes for a `WeatherResponse`,
by the tags of its fields; nothing when it cannot be encoded. -/
def WeatherResponse.toJSON (r : WeatherResponse) : Option JSON :=
  match r.TempC, r.TempF, r.TempK with
  | .fin c, .fin f, .fin k =>
    some (.obj [("city", .str r.City), ("temp_C", .num (formatFloat c)),
      ("temp_F", .num (formatFloat f)), ("temp_K", .num (formatFloat k))])
  | _, _, _ => none

/-- The JSON value of the text that the encoder writes for an `ErrorResponse`. -/
def ErrorResponse.toJSON (e : ErrorResponse) : JSON :=
  .obj [("message", .str e.Message)]

/-- The JSON value of the body that reached the client, when one did and it is
JSON. -/
def Response.json (resp : Response) : Option JSON :=
  match resp.written with
  | .full =>
    match resp.body with
    | .error e => some e.toJSON
    | .weather r => r.toJSON
    | .relay v => some (marshal v)
    | _ => none
  | _ => none

/-- Call `http.Error(w, msg, code)`. -/
def httpError (msg : String) (code : Nat) : Response :=
  { status := code, contentType := "text/plain; charset=utf-8", body := .text msg }

/-- The three statements that write an `ErrorResponse` as JSON. -/
def jsonError (code : Nat) (msg : String) : Response :=
  { status := code, contentType := "application/json", body := .error { Message := msg } }

/-! ## service-b: the Enrichment stage -/

namespace ServiceB

/-- Function `fetchCEPData` of service-b/main.go, lines 98-132. -/
def fetchCEPData (w : World) (ctx : Context) (cep : String) (st : St) :
    Except GoError ViaCEPResponse × St :=
  -- the entry into the function, logged with its argument
  let st := st.emit (.call "fetchCEPData" cep)
  -- lines 99-101; the deferred `span.End()` is the last event of every branch
  let started := tracerStart ctx "fetch-cep-data" st
  let ctx := started.1
  let span := started.2.1
  let st := started.2.2
  -- line 107
  let url := "https://viacep.com.br/ws/" ++ cep ++ "/json/"
  -- lines 108-112
  if newRequestFails w url then
    (.error (.newRequest url), (recordError w span (.newRequest url) st).emit (.spanEnd span))
  else
    -- lines 114-125: `client.Do` through the instrumented transport, then the decoding
    let sent := otelRoundTrip w ctx { method := "GET", url := url, header := [], body := none } st
    let st := sent.2
    match w.viaCEP url with
    | .doError =>
      (.error (.clientDo url), (recordError w span (.clientDo url) st).emit (.spanEnd span))
    | .decodeError =>
      (.error .jsonDecode, (recordError w span .jsonDecode st).emit (.spanEnd span))
    | .decoded cepData =>
      -- lines 127-131
      if cepData.Erro then
        (.error (.errorf "CEP not found"), st.emit (.spanEnd span))
      else
        (.ok cepData, st.emit (.spanEnd span))

/-- Function `fetchWeatherData` of service-b/main.go, lines 134-178. -/
def fetchWeatherData (w : World) (ctx : Context) (city : String) (st : St) :
    Except GoError WeatherAPIResponse × St :=
  -- the entry into the function, logged with its argument
  let st := st.emit (.call "fetchWeatherData" city)
  -- lines 135-137
  let started := tracerStart ctx "fetch-weather-data" st
  let ctx := started.1
  let span := started.2.1
  let st := started.2.2
  -- lines 139-149: without a key, the simulated reading `25.0`
  let apiKey := osGetenv w "WEATHER_API_KEY"
  if apiKey == "" then
    (.ok { Current := { TempC := Float64.ofInt 25 1 } }, st.emit (.spanEnd span))
  else
    -- lines 155-177
    let encodedCity := w.queryEscape city
    let weatherURL :=
      "http://api.weatherapi.com/v1/current.json?key=" ++ apiKey ++ "&q=" ++ encodedCity
    if newRequestFails w weatherURL then
      (.error (.newRequest weatherURL),
        (recordError w span (.newRequest weatherURL) st).emit (.spanEnd span))
    else
      let sent :=
        otelRoundTrip w ctx { method := "GET", url := weatherURL, header := [], body := none } st
      let st := sent.2
      match w.weatherAPI weatherURL with
      | .doError =>
        (.error (.clientDo weatherURL),
          (recordError w span (.clientDo weatherURL) st).emit (.spanEnd span))
      | .decodeError =>
        (.error .jsonDecode, (recordError w span .jsonDecode st).emit (.spanEnd span))
      | .decoded weatherData =>
        (.ok weatherData, st.emit (.spanEnd span))

/-- Function `celsiusToFahrenheit` of service-b/main.go: `celsius*1.8 + 32`. -/
def celsiusToFahrenheit (w : World) (celsius : Float64) : Float64 :=
  if w.fusedMulAdd then celsius.fma (Float64.ofInt 18 10) (Float64.ofInt 32 1)
  else (celsius.mul (Float64.ofInt 18 10)).add (Float64.ofInt 32 1)

/-- Function `celsiusToKelvin` of service-b/main.go: `celsius + 273.15`. -/
def celsiusToKelvin (celsius : Float64) : Float64 :=
  celsius.add (Float64.ofInt 27315 100)

/-- The loop of `parseFloat` that computes `multiplier`, a value the function
never reads; `multiplier` starts at `1.0`. -/
def parseFloatMultiplier : Nat → Float64 → Float64
  | 0, multiplier => multiplier
  | n + 1, multiplier => parseFloatMultiplier n (multiplier.mul (Float64.ofInt 10 1))

/-- Function `parseFloat` of service-b/main.go, lines 256-263.  The format is
the fixed `"%.1f"`, whatever `precision` is. -/
def parseFloat (value : Float64) (precision : Nat) : Float64 :=
  let _multiplier := parseFloatMultiplier precision (Float64.ofInt 1 1)
  strconvParseFloat (sprintf1f value)

/-- Function `handleWeather` of service-b/main.go, lines 188-254. -/
def handleWeather (w : World) (r : Request) (st : St) : Response × St :=
  -- lines 189-195; the deferred `span.End()` is the last event of every branch
  let ctx := extract w r.ctx r.header
  let started := tracerStart ctx "handle-weather-request" st
  let ctx := started.1
  let span := started.2.1
  let st := started.2.2
  -- lines 197-200
  if r.method != "POST" then
    (httpError "Method not allowed" 405, (st.emit (.respond 405)).emit (.spanEnd span))
  else
    -- lines 202-209
    match r.body with
    | none =>
      let st := recordError w span .jsonDecode st
      (jsonError 400 "invalid request body", (st.emit (.respond 400)).emit (.spanEnd span))
    | some req =>
      -- lines 212-217: no `RecordError` here
      if !validateCEP req.CEP then
        (jsonError 422 "invalid zipcode", (st.emit (.respond 422)).emit (.spanEnd span))
      else
        -- lines 220-227
        let looked := fetchCEPData w ctx req.CEP st
        match looked.1 with
        | .error err =>
          let st := recordError w span err looked.2
          (jsonError 404 "can not find zipcode", (st.emit (.respond 404)).emit (.spanEnd span))
        | .ok cepData =>
          -- lines 230-237
          let fetched := fetchWeatherData w ctx cepData.Localidade looked.2
          match fetched.1 with
          | .error err =>
            let st := recordError w span err fetched.2
            (jsonError 500 "failed to fetch weather data",
              (st.emit (.respond 500)).emit (.spanEnd span))
          | .ok weatherData =>
            -- lines 240-253
            let tempC := weatherData.Current.TempC
            let tempF := celsiusToFahrenheit w tempC
            let tempK := celsiusToKelvin tempC
            let response : WeatherResponse :=
              { City := cepData.Localidade
                TempC := parseFloat tempC 1
                TempF := parseFloat tempF 1
                TempK := parseFloat tempK 1 }
            ({ status := 200, contentType := "application/json", body := .weather response,
               written := if response.encodable then .full else .headOnly },
              (fetched.2.emit (.respond 200)).emit (.spanEnd span))

end ServiceB

/-! ## service-a: the Gateway stage -/

namespace ServiceA

/-- Lines 143-148 of `handleCEP`: the downstream response relayed.
`w.WriteHeader(resp.StatusCode)` panics on a code that does not have three
digits; otherwise the body is decoded into the nil `responseBody`, the error
dropped, and `responseBody` is encoded, which writes nothing when the status
allows no body. -/
def relayResponse (resp : DownstreamResponse) : Response :=
  if writeHeaderPanics resp.StatusCode then
    { status := 0, contentType := "", body := .nothing, written := .nothing }
  else
    let status := statusAfterWriteHeader resp.StatusCode
    let responseBody := decodeInterface resp.read
    { status := status, contentType := "application/json", body := .relay responseBody,
      written := if bodyAllowedForStatus status then .full else .headOnly }

/-- The entry of the log for the relayed response: the writing of its status,
unless `WriteHeader` panicked. -/
def logRelayed (response : Response) (st : St) : St :=
  if response.written = .nothing then st else st.emit (.respond response.status)

/-- Function `handleCEP` of service-a/main.go, lines 74-149. -/
def handleCEP (w : World) (r : Request) (st : St) : Response × St :=
  -- lines 75-79; the deferred `span.End()` is the last event of every branch
  let started := tracerStart r.ctx "handle-cep-request" st
  let ctx := started.1
  let span := started.2.1
  let st := started.2.2
  -- lines 81-84
  if r.method != "POST" then
    (httpError "Method not allowed" 405, (st.emit (.respond 405)).emit (.spanEnd span))
  else
    -- lines 86-93
    match r.body with
    | none =>
      let st := recordError w span .jsonDecode st
      (jsonError 400 "invalid request body", (st.emit (.respond 400)).emit (.spanEnd span))
    | some req =>
      -- lines 96-105; `ctx` is from now on the context of the span "validate-cep"
      let startedV := tracerStart ctx "validate-cep" st
      let ctx := startedV.1
      let validateSpan := startedV.2.1
      let st := startedV.2.2
      if !validateCEP req.CEP then
        let st := recordError w validateSpan (.errorf ("invalid zipcode: " ++ req.CEP)) st
        let st := st.emit (.spanEnd validateSpan)
        (jsonError 422 "invalid zipcode", (st.emit (.respond 422)).emit (.spanEnd span))
      else
        let st := st.emit (.spanEnd validateSpan)
        -- lines 108-109; the deferred `callServiceBSpan.End()` runs before `span.End()`
        let startedB := tracerStart ctx "call-service-b" st
        let ctx := startedB.1
        let callServiceBSpan := startedB.2.1
        let st := startedB.2.2
        -- lines 111-114
        let serviceBURL :=
          if osGetenv w "SERVICE_B_URL" == "" then "http://localhost:8081"
          else osGetenv w "SERVICE_B_URL"
        -- lines 116-122
        let url := serviceBURL ++ "/weather"
        if newRequestFails w url then
          let st := recordError w callServiceBSpan (.newRequest url) st
          (httpError "Internal server error" 500,
            ((st.emit (.respond 500)).emit (.spanEnd callServiceBSpan)).emit (.spanEnd span))
        else
          let httpReq : HttpRequest :=
            { method := "POST", url := url, header := [], body := some req }
          -- line 124
          let httpReq :=
            { httpReq with header := httpReq.header.Set "Content-Type" "application/json" }
          -- line 127
          let httpReq := { httpReq with header := inject w ctx httpReq.header }
          -- lines 129-139: `client.Do` through the instrumented transport; the log keeps
          -- its first round trip, and `w.serviceB` is what `client.Do` returns in the end
          let sent := otelRoundTrip w ctx httpReq st
          let st := sent.2
          match w.serviceB sent.1 with
          | none =>
            let st := recordError w callServiceBSpan (.clientDo url) st
            (httpError "Failed to call service B" 500,
              ((st.emit (.respond 500)).emit (.spanEnd callServiceBSpan)).emit (.spanEnd span))
          | some resp =>
            -- lines 143-148; the deferred calls run after a panic too
            let response := relayResponse resp
            (response,
              ((logRelayed response st).emit (.spanEnd callServiceBSpan)).emit (.spanEnd span))

end ServiceA

/-! ## Reading the log of a run -/

/-- A run starts with an empty log. -/
def St.init (n : Nat) : St :=
  { events := [], nextID := n }

/-- The events that a step appended to the log. -/
def newEvents (before after : St) : List Event :=
  after.events.drop before.events.length

/-- The requests that went out on the wire, in order. -/
def outboundCalls (events : List Event) : List HttpRequest :=
  events.filterMap (fun e => match e with
    | .httpDo req => some req
    | _ => none)

/-- The collaborator functions entered, with their argument, in order. -/
def invocations (events : List Event) : List (String × String) :=
  events.filterMap (fun e => match e with
    | .call fn arg => some (fn, arg)
    | _ => none)

/-- Whether the event is the writing of the response. -/
def Event.isRespond : Event → Bool
  | .respond _ => true
  | _ => false

/-- Whether the event is an error recorded on a span. -/
def Event.isRecordError : Event → Bool
  | .recordError _ _ => true
  | _ => false

/-- The events that come before the response is written. -/
def beforeResponse (events : List Event) : List Event :=
  events.takeWhile (fun e => !e.isRespond)

/-- Whether an error is recorded on a span before the response is written. -/
def recordsErrorBeforeResponding (events : List Event) : Bool :=
  (beforeResponse events).any Event.isRecordError

/-- The error that `handleWeather` or `handleCEP` records on its own span in a
run in which spans are recording; nothing otherwise. -/
def recorded (w : World) (sc : SpanContext) (err : GoError) : List Event :=
  if w.recording then [.recordError sc err] else []

/-- The entry that `logRelayed` appends to the log for a response. -/
def relayedEvents (response : Response) : List Event :=
  if response.written = .nothing then [] else [.respond response.status]

/-- The first span started under a name in a log: its context and that of its
parent. -/
def findSpan (name : String) (events : List Event) : Option (SpanContext × SpanContext) :=
  events.findSome? (fun e => match e with
    | .spanStart n sc parent => if n == name then some (sc, parent) else none
    | _ => none)

/-! ## Lookups and responses as functions of the world

The results of the lookups and the responses of the handlers do not depend on
the log; these definitions state them without it, and the theorems below prove
that the handlers compute them. -/

/-- URL that `fetchCEPData` requests for a code. -/
def viaCEPURL (cep : String) : String :=
  "https://viacep.com.br/ws/" ++ cep ++ "/json/"

/-- URL that `fetchWeatherData` requests for a locality, with a credential. -/
def weatherURL (w : World) (city : String) : String :=
  "http://api.weatherapi.com/v1/current.json?key=" ++ osGetenv w "WEATHER_API_KEY" ++ "&q=" ++
    w.queryEscape city

/-- URL of the Enrichment stage as `handleCEP` computes it. -/
def gatewayURL (w : World) : String :=
  (if osGetenv w "SERVICE_B_URL" == "" then "http://localhost:8081"
    else osGetenv w "SERVICE_B_URL") ++ "/weather"

/-- The record the directory lookup yields for a code, if it succeeds: the
request is built, the call and the decoding succeed and the payload does not
carry `erro: true`. -/
def directoryRecord (w : World) (cep : String) : Option ViaCEPResponse :=
  if newRequestFails w (viaCEPURL cep) then none
  else
    match w.viaCEP (viaCEPURL cep) with
    | .doError => none
    | .decodeError => none
    | .decoded d => if d.Erro then none else some d

/-- The reading the weather lookup yields for a locality, if it succeeds:
the simulated 25.0 without a credential, else the decoded reading of the
weather service. -/
def weatherReading (w : World) (city : String) : Option WeatherAPIResponse :=
  if osGetenv w "WEATHER_API_KEY" == "" then some { Current := { TempC := Float64.ofInt 25 1 } }
  else if newRequestFails w (weatherURL w city) then none
  else
    match w.weatherAPI (weatherURL w city) with
    | .doError => none
    | .decodeError => none
    | .decoded d => some d

/-- The Celsius reading that the weather lookup returns for a request: that of
the locality of the record found for its code. -/
def celsiusReading (w : World) (r : Request) : Option Float64 :=
  match r.body with
  | none => none
  | some req =>
    match directoryRecord w req.CEP with
    | none => none
    | some d => (weatherReading w d.Localidade).map (fun t => t.Current.TempC)

/-- The message of a JSON error body. -/
def Body.message : Body → Option String
  | .error e => some e.Message
  | _ => none

/-- Whether the body is the relayed downstream body. -/
def Body.isRelay : Body → Bool
  | .relay _ => true
  | _ => false

/-- The `WeatherResponse` that the handler handed to the encoder, if it handed
one. -/
def Response.weather (resp : Response) : Option WeatherResponse :=
  match resp.body with
  | .weather r => some r
  | _ => none

/-- Field `TempC` of the `WeatherResponse` handed to the encoder. -/
def Response.tempC (resp : Response) : Option Float64 :=
  resp.weather.map (fun r => r.TempC)

/-- Field `TempF` of the `WeatherResponse` handed to the encoder. -/
def Response.tempF (resp : Response) : Option Float64 :=
  resp.weather.map (fun r => r.TempF)

/-- Field `TempK` of the `WeatherResponse` handed to the encoder. -/
def Response.tempK (resp : Response) : Option Float64 :=
  resp.weather.map (fun r => r.TempK)

/-- The response of `handleWeather` as a function of the world and the request
alone, the log and the identifiers left out. -/
def weatherResponse (w : World) (r : Request) : Response :=
  if r.method != "POST" then httpError "Method not allowed" 405
  else
    match r.body with
    | none => jsonError 400 "invalid request body"
    | some req =>
      if !ServiceB.validateCEP req.CEP then jsonError 422 "invalid zipcode"
      else
        match directoryRecord w req.CEP with
        | none => jsonError 404 "can not find zipcode"
        | some d =>
          match weatherReading w d.Localidade with
          | none => jsonError 500 "failed to fetch weather data"
          | some t =>
            let response : WeatherResponse :=
              { City := d.Localidade
                TempC := ServiceB.parseFloat t.Current.TempC 1
                TempF := ServiceB.parseFloat (ServiceB.celsiusToFahrenheit w t.Current.TempC) 1
                TempK := ServiceB.parseFloat (ServiceB.celsiusToKelvin t.Current.TempC) 1 }
            { status := 200, contentType := "application/json", body := .weather response,
              written := if response.encodable then .full else .headOnly }

/-- The state of `handleCEP` once its span "call-service-b" is started, for a
request that got that far: the context carrying that span, the span, and
the log. -/
def callServiceBStarted (r : Request) (st : St) : Context × SpanContext × St :=
  let started := tracerStart r.ctx "handle-cep-request" st
  let startedV := tracerStart started.1 "validate-cep" started.2.2
  tracerStart startedV.1 "call-service-b" (startedV.2.2.emit (.spanEnd startedV.2.1))

/-- The client span that the instrumented transport starts for the outbound
call of `handleCEP`. -/
def transportStarted (r : Request) (st : St) : Context × SpanContext × St :=
  tracerStart (callServiceBStarted r st).1 "HTTP POST" (callServiceBStarted r st).2.2

/-- The request that `handleCEP` hands to `client.Do`, with the trace context it
injected itself. -/
def gatewayRequest (w : World) (r : Request) (req : CEPRequest) (st : St) : HttpRequest :=
  { method := "POST"
    url := gatewayURL w
    header := inject w (callServiceBStarted r st).1
      (Header.Set [] "Content-Type" "application/json")
    body := some req }

/-- The request that leaves `handleCEP` on the wire. -/
def gatewayWire (w : World) (r : Request) (req : CEPRequest) (st : St) : HttpRequest :=
  (otelRoundTrip w (callServiceBStarted r st).1 (gatewayRequest w r req st)
    (callServiceBStarted r st).2.2).1

/-- The response of `handleCEP` as a function of the world, the request and the
state of the identifier generator, the log left out. -/
def gatewayResponse (w : World) (r : Request) (st : St) : Response :=
  if r.method != "POST" then httpError "Method not allowed" 405
  else
    match r.body with
    | none => jsonError 400 "invalid request body"
    | some req =>
      if !ServiceA.validateCEP req.CEP then jsonError 422 "invalid zipcode"
      else if newRequestFails w (gatewayURL w) then httpError "Internal server error" 500
      else
        match w.serviceB (gatewayWire w r req st) with
        | none => httpError "Failed to call service B" 500
        | some resp => ServiceA.relayResponse resp

/-! ## The outcomes named by the specification -/

/-- The status and error message that the error taxonomy of the specification
gives a request to the Enrichment stage: those of the first step that fails. -/
def specWeatherOutcome (w : World) (r : Request) : Nat × Option String :=
  if r.method != "POST" then (405, none)
  else
    match r.body with
    | none => (400, some "invalid request body")
    | some req =>
      if !ServiceB.validateCEP req.CEP then (422, some "invalid zipcode")
      else
        match directoryRecord w req.CEP with
        | none => (404, some "can not find zipcode")
        | some d =>
          match weatherReading w d.Localidade with
          | none => (500, some "failed to fetch weather data")
          | some _ => (200, none)

/-- The collaborator functions that the specification lets `handleWeather`
enter: none before the code is validated, the directory lookup with the
validated code, and the weather lookup with the locality of the record only
once the directory lookup has succeeded. -/
def specInvocations (w : World) (r : Request) : List (String × String) :=
  if r.method != "POST" then []
  else
    match r.body with
    | none => []
    | some req =>
      if !ServiceB.validateCEP req.CEP then []
      else
        match directoryRecord w req.CEP with
        | none => [("fetchCEPData", req.CEP)]
        | some d => [("fetchCEPData", req.CEP), ("fetchWeatherData", d.Localidade)]

/-! ## Worlds and requests used as instances -/

/-- A world with nothing configured, whose collaborators cannot be reached. -/
def emptyWorld : World :=
  { env := fun _ => none
    recording := true
    fusedMulAdd := false
    urlRejected := fun _ => false
    encodeTraceparent := fun sc =>
      String.mk (List.replicate sc.traceID 't' ++ List.replicate sc.spanID 's')
    decodeTraceparent := fun v => { traceID := v.data.count 't', spanID := v.data.count 's' }
    queryEscape := fun x => x
    viaCEP := fun _ => .doError
    weatherAPI := fun _ => .doError
    serviceB := fun _ => none }

/-- A world in which `SERVICE_B_URL` ends in a line feed. -/
def badURLWorld : World :=
  { emptyWorld with
    env := fun k => if k == "SERVICE_B_URL" then some "http://localhost:8081\n" else none }

/-- A world whose Enrichment stage answers with the status `code` and a body. -/
def relayWorld (code : Nat) (body : JSONText) : World :=
  { emptyWorld with serviceB := fun _ => some { StatusCode := code, Body := body } }

/-- The body with which the Enrichment stage answers 200 for the reading 25.0:
`\x7b"city":"São Paulo","temp_C":25,"temp_F":77,"temp_K":298.1\x7d`. -/
def enrichedBody : JSON :=
  .obj [("city", .str "São Paulo"),
    ("temp_C", .num { neg := false, mant := 25, exp := 0 }),
    ("temp_F", .num { neg := false, mant := 77, exp := 0 }),
    ("temp_K", .num { neg := false, mant := 2981, exp := -1 })]

/-- The body with which the Enrichment stage answers 404. -/
def notFoundBody : JSON :=
  .obj [("message", .str "can not find zipcode")]

/-- Arrays nested `n` deep around `null`: `n` opening brackets, `null` and `n`
closing brackets. -/
def nested : Nat → JSON
  | 0 => .null
  | n + 1 => .arr [nested n]

/-- The JSON text `1e400`. -/
def hugeNumber : JSON :=
  .num { neg := false, mant := 1, exp := 400 }

/-- The record of the directory service for "01310100". -/
def paulista : ViaCEPResponse :=
  { CEP := "01310-100", Logradouro := "Avenida Paulista", Complemento := "de 612 a 1510 - lado par",
    Bairro := "Bela Vista", Localidade := "São Paulo", UF := "SP", IBGE := "3550308",
    GIA := "1004", DDD := "11", SIAFI := "7107", Erro := false }

/-- A world without weather credential whose directory service knows
"01310100". -/
def okWorld : World :=
  { emptyWorld with viaCEP := fun _ => .decoded paulista }

/-- A world with a weather credential, whose directory service knows
"01310100" and whose weather service reports the reading `c`. -/
def weatherWorld (fused : Bool) (c : Float64) : World :=
  { okWorld with
    env := fun k => if k == "WEATHER_API_KEY" then some "key" else none
    fusedMulAdd := fused
    weatherAPI := fun _ => .decoded { Current := { TempC := c } } }

/-- A POST request whose body decodes to the code "01310100". -/
def postRequest : Request :=
  { ctx := { spanContext := { traceID := 0, spanID := 0 } }
    method := "POST"
    header := []
    body := some { CEP := "01310100" } }

/-- A GET request. -/
def getRequest : Request :=
  { postRequest with method := "GET" }

/-- A POST request whose body decodes to the code "123". -/
def shortCodeRequest : Request :=
  { postRequest with body := some { CEP := "123" } }

/-- A POST request whose body does not decode. -/
def undecodableRequest : Request :=
  { postRequest with body := none }

/-- The request that `handleCEP` puts on the wire for `postRequest` when the run
starts with the identifier generator at 0. -/
def postWire : HttpRequest :=
  { method := "POST"
    url := "http://localhost:8081/weather"
    header := [("traceparent", "tsssss"), ("Content-Type", "application/json")]
    body := some { CEP := "01310100" } }

/-- The request that the Enrichment stage receives when the Gateway's request
`wire` reaches it. -/
def forwarded (wire : HttpRequest) : Request :=
  { ctx := { spanContext := { traceID := 0, spanID := 0 } }
    method := wire.method
    header := wire.header
    body := wire.body }

/-! ## The validator -/

theorem isPerlDigit_iff (c : Char) : isPerlDigit c = true ↔ '0' ≤ c ∧ c ≤ '9' := by
  simp only [isPerlDigit, Bool.and_eq_true, decide_eq_true_eq, Char.le_def, Char.toNat,
      UInt32.le_def, Fin.le_def]
  exact Iff.rfl

theorem utf8Size_of_isPerlDigit (c : Char) (h : isPerlDigit c = true) : c.utf8Size = 1 := by
  simp only [isPerlDigit, Bool.and_eq_true, decide_eq_true_eq, Char.toNat] at h
  have h2 : c.val ≤ UInt32.ofNatCore 127 (by decide) := by
    show c.val.toNat ≤ 127
    omega
  unfold Char.utf8Size
  exact if_pos h2

theorem matchDigitsThenEnd_iff (n : Nat) (l : List Char) :
    matchDigitsThenEnd n l = true ↔ l.length = n ∧ ∀ c ∈ l, isPerlDigit c = true := by
  induction n generalizing l with
  | zero => cases l <;> simp [matchDigitsThenEnd]
  | succ n ih =>
    cases l with
    | nil => simp [matchDigitsThenEnd]
    | cons c cs =>
      simp only [matchDigitsThenEnd, Bool.and_eq_true, ih, List.length_cons, List.mem_cons,
          forall_eq_or_imp]
      constructor
      · rintro ⟨hc, hl, hall⟩
        exact ⟨by omega, hc, hall⟩
      · rintro ⟨hl, hc, hall⟩
        exact ⟨hc, by omega, hall⟩

theorem utf8ByteSize_go_of_digits (l : List Char) (h : ∀ c ∈ l, isPerlDigit c = true) :
    String.utf8ByteSize.go l = l.length := by
  induction l with
  | nil => rfl
  | cons c cs ih =>
    have hc := utf8Size_of_isPerlDigit c (h c (List.mem_cons_self c cs))
    have hcs := ih (fun d hd => h d (List.mem_cons_of_mem c hd))
    simp only [String.utf8ByteSize.go, List.length_cons, hc, hcs]

theorem len_of_digits (s : String) (h : ∀ c ∈ s.data, isPerlDigit c = true) :
    len s = s.length := by
  cases s with
  | mk l => exact utf8ByteSize_go_of_digits l h

theorem validate_iff_aux (s : String) :
    (if len s != 8 then false else regexpMatchEightDigits s) = true ↔
      s.length = 8 ∧ ∀ c ∈ s.data, '0' ≤ c ∧ c ≤ '9' := by
  have hd : (∀ c ∈ s.data, '0' ≤ c ∧ c ≤ '9') ↔ ∀ c ∈ s.data, isPerlDigit c = true :=
    forall₂_congr (fun c _ => (isPerlDigit_iff c).symm)
  rw [hd]
  by_cases hlen : len s = 8
  · simp only [hlen, bne_self_eq_false, Bool.false_eq_true, if_false, regexpMatchEightDigits,
      matchDigitsThenEnd_iff]
    exact Iff.rfl
  · have hne : (len s != 8) = true := by simpa using hlen
    simp only [hne, if_true, Bool.false_eq_true, false_iff, not_and]
    intro h8 hall
    exact hlen (by rw [len_of_digits s hall]; exact h8)

/-- C1: `validateCEP` of service-a and of service-b both return true exactly on
the strings of exactly 8 characters that are all decimal digits `0`..`9`, with
no normalisation: "01310100" is accepted; "123", "abcdefgh", "0131010a" and
"01310-100" are rejected. -/
theorem validateCEP_iff_eight_digits (s : String) :
    (ServiceA.validateCEP s = true ↔ s.length = 8 ∧ ∀ c ∈ s.data, '0' ≤ c ∧ c ≤ '9') ∧
    (ServiceB.validateCEP s = true ↔ s.length = 8 ∧ ∀ c ∈ s.data, '0' ≤ c ∧ c ≤ '9') ∧
    (ServiceA.validateCEP "01310100" = true ∧ ServiceB.validateCEP "01310100" = true) ∧
    (ServiceA.validateCEP "123" = false ∧ ServiceB.validateCEP "123" = false) ∧
    (ServiceA.validateCEP "abcdefgh" = false ∧ ServiceB.validateCEP "abcdefgh" = false) ∧
    (ServiceA.validateCEP "0131010a" = false ∧ ServiceB.validateCEP "0131010a" = false) ∧
    (ServiceA.validateCEP "01310-100" = false ∧ ServiceB.validateCEP "01310-100" = false) := by
  refine ⟨validate_iff_aux s, validate_iff_aux s, ?_, ?_, ?_, ?_, ?_⟩ <;> decide

/-- Witness for C1: "01310100" has 8 characters, all digits. -/
theorem validateCEP_iff_eight_digits_witness : ServiceA.validateCEP "01310100" = true :=
  (validateCEP_iff_eight_digits "01310100").1.mpr ⟨by decide, by decide⟩

/-! ## float64: rounding to nearest, ties to even -/

theorem bitLenAux_spec (fuel : Nat) : ∀ n, n < 2 ^ fuel →
    n < 2 ^ bitLenAux fuel n ∧ (n ≠ 0 → 2 ^ (bitLenAux fuel n - 1) ≤ n) := by
  induction fuel with
  | zero =>
    intro n hn
    have : n = 0 := by simpa using hn
    subst this
    simp [bitLenAux]
  | succ fuel ih =>
    intro n hn
    unfold bitLenAux
    by_cases h0 : n = 0
    · subst h0; simp
    · rw [if_neg h0]
      have hhalf : n / 2 < 2 ^ fuel := by
        rw [Nat.pow_succ] at hn; omega
      obtain ⟨h1, h2⟩ := ih (n / 2) hhalf
      constructor
      · rw [Nat.pow_succ]; omega
      · intro _
        rw [Nat.add_sub_cancel]
        by_cases hz : n / 2 = 0
        · have hb : bitLenAux fuel (n / 2) = 0 := by
            rw [hz]; cases fuel <;> simp [bitLenAux]
          rw [hb]; simp; omega
        · have h3 := h2 hz
          have hb : bitLenAux fuel (n / 2) ≠ 0 := by
            intro hb; rw [hb] at h1; simp at h1; exact hz h1
          have : 2 ^ bitLenAux fuel (n / 2) = 2 * 2 ^ (bitLenAux fuel (n / 2) - 1) := by
            rw [← Nat.pow_succ']
            congr 1; omega
          rw [this]; omega

theorem bitLenChunks_spec (fuel : Nat) : ∀ n, n ≤ fuel →
    n < 2 ^ bitLenChunks fuel n ∧ (n ≠ 0 → 2 ^ (bitLenChunks fuel n - 1) ≤ n) := by
  induction fuel with
  | zero =>
    intro n hn
    have : n = 0 := by omega
    subst this
    simp [bitLenChunks]
  | succ fuel ih =>
    intro n hn
    unfold bitLenChunks
    by_cases hsmall : n < 2 ^ 64
    · rw [if_pos hsmall]
      exact bitLenAux_spec 64 n hsmall
    · rw [if_neg hsmall]
      have hm : n / 2 ^ 64 ≤ fuel := by omega
      have hm0 : n / 2 ^ 64 ≠ 0 := by omega
      obtain ⟨h1, h2⟩ := ih (n / 2 ^ 64) hm
      have h3 := h2 hm0
      have hb : bitLenChunks fuel (n / 2 ^ 64) ≠ 0 := by
        intro hb; rw [hb] at h1; simp at h1; exact hm0 h1
      constructor
      · rw [Nat.pow_add]
        generalize 2 ^ bitLenChunks fuel (n / 2 ^ 64) = p at *
        omega
      · intro _
        have : bitLenChunks fuel (n / 2 ^ 64) + 64 - 1 =
            (bitLenChunks fuel (n / 2 ^ 64) - 1) + 64 := by
          omega
        rw [this, Nat.pow_add]
        generalize 2 ^ (bitLenChunks fuel (n / 2 ^ 64) - 1) = p at *
        omega

theorem bitLen_lt (n : Nat) : n < 2 ^ bitLen n := (bitLenChunks_spec n n (Nat.le_refl n)).1

theorem bitLen_ge (n : Nat) (h : n ≠ 0) : 2 ^ (bitLen n - 1) ≤ n :=
  (bitLenChunks_spec n n (Nat.le_refl n)).2 h

/-- The integer `roundHalfEven n d` is a nearest one to `n / d`, and the even
one of the two when `n / d` lies half way. -/
theorem roundHalfEven_nearest (n d : Nat) (hd : 0 < d) :
    2 * n ≤ 2 * (roundHalfEven n d * d) + d ∧ 2 * (roundHalfEven n d * d) ≤ 2 * n + d ∧
      ((2 * n = 2 * (roundHalfEven n d * d) + d ∨ 2 * (roundHalfEven n d * d) = 2 * n + d) →
        roundHalfEven n d % 2 = 0) := by
  have hdiv : d * (n / d) + n % d = n := Nat.div_add_mod n d
  have hmod : n % d < d := Nat.mod_lt n hd
  have hq : n / d * d = d * (n / d) := Nat.mul_comm _ _
  have hq1 : (n / d + 1) * d = d * (n / d) + d := by rw [Nat.add_mul, hq, Nat.one_mul]
  unfold roundHalfEven
  simp only []
  by_cases h1 : 2 * (n % d) < d
  · rw [if_pos h1, hq]
    refine ⟨by omega, by omega, ?_⟩
    intro h; omega
  · rw [if_neg h1]
    by_cases h2 : d < 2 * (n % d)
    · rw [if_pos h2, hq1]
      refine ⟨by omega, by omega, ?_⟩
      intro h; omega
    · rw [if_neg h2]
      by_cases h3 : n / d % 2 = 0
      · rw [if_pos h3, hq]
        exact ⟨by omega, by omega, fun _ => h3⟩
      · rw [if_neg h3, hq1]
        refine ⟨by omega, by omega, fun _ => ?_⟩
        omega

/-- Among all multiples of `d`, the one `roundHalfEven` picks is nearest to `n`,
and it is an even multiple when another one is as near. -/
theorem roundHalfEven_best (n d : Nat) (hd : 0 < d) (j : Nat) (hj : j ≠ roundHalfEven n d) :
    absDiff n (roundHalfEven n d * d) ≤ absDiff n (j * d) ∧
      (absDiff n (roundHalfEven n d * d) = absDiff n (j * d) → roundHalfEven n d % 2 = 0) := by
  obtain ⟨h1, h2, h3⟩ := roundHalfEven_nearest n d hd
  generalize roundHalfEven n d = q at *
  have hgap : j * d + d ≤ q * d ∨ q * d + d ≤ j * d := by
    rcases Nat.lt_or_gt_of_ne hj with h | h
    · left
      have : (j + 1) * d ≤ q * d := Nat.mul_le_mul_right d h
      rw [Nat.add_mul, Nat.one_mul] at this; exact this
    · right
      have : (q + 1) * d ≤ j * d := Nat.mul_le_mul_right d h
      rw [Nat.add_mul, Nat.one_mul] at this; exact this
  unfold absDiff
  constructor
  · omega
  · intro he
    apply h3
    omega

theorem roundHalfEven_ge (n d : Nat) : n / d ≤ roundHalfEven n d := by
  unfold roundHalfEven; simp only []
  split
  · exact Nat.le_refl _
  · split
    · omega
    · split <;> omega

theorem roundHalfEven_le (n d : Nat) : roundHalfEven n d ≤ n / d + 1 := by
  unfold roundHalfEven; simp only []
  split
  · omega
  · split
    · omega
    · split <;> omega


theorem onGrid_of_le (q sh : Nat) (hq : q ≤ 2 ^ 53) : OnGrid (q * 2 ^ sh) := by
  by_cases h : q < 2 ^ 53
  · exact ⟨q, sh, h, rfl⟩
  · have hq2 : q = 2 ^ 53 := by omega
    refine ⟨2 ^ 52, sh + 1, by decide, ?_⟩
    rw [hq2, Nat.pow_succ 2 sh]
    have : (2 : Nat) ^ 53 = 2 ^ 52 * 2 := by decide
    rw [this, Nat.mul_assoc, Nat.mul_comm 2 (2 ^ sh)]

theorem evenOnGrid_of_even (q sh : Nat) (hq : q ≤ 2 ^ 53) (he : q % 2 = 0) :
    EvenOnGrid (q * 2 ^ sh) := by
  by_cases h : q < 2 ^ 53
  · refine ⟨q / 2, sh, by omega, ?_⟩
    have hq2 : q = q / 2 * 2 := by omega
    rw [Nat.pow_succ 2 sh, Nat.mul_comm (2 ^ sh) 2, ← Nat.mul_assoc, ← hq2]
  · have hq2 : q = 2 ^ 53 := by omega
    refine ⟨2 ^ 51, sh + 1, by decide, ?_⟩
    rw [hq2, Nat.pow_succ 2 (sh + 1), Nat.pow_succ 2 sh]
    have : (2 : Nat) ^ 53 = 2 ^ 51 * 2 * 2 := by decide
    rw [this]
    simp only [Nat.mul_assoc, Nat.mul_comm, Nat.mul_left_comm]

/-- Rounding to 53 significant bits picks the nearest grid point, the even one on a tie. -/
theorem round53_nearest (x d : Nat) (hd : 0 < d) :
    NearestEven x d
      (roundHalfEven x (d * 2 ^ (bitLen (x / d) - 53)) * 2 ^ (bitLen (x / d) - 53)) := by
  have hb1 := bitLen_lt (x / d)
  generalize hsh : bitLen (x / d) - 53 = sh
  have hD : 0 < d * 2 ^ sh := Nat.mul_pos hd (Nat.two_pow_pos sh)
  have hdiv : x / (d * 2 ^ sh) = x / d / 2 ^ sh := (Nat.div_div_eq_div_mul x d (2 ^ sh)).symm
  have hpow : 2 ^ bitLen (x / d) ≤ 2 ^ 53 * 2 ^ sh := by
    rw [← Nat.pow_add]
    exact Nat.pow_le_pow_right (by decide) (by omega)
  have hy : x / d / 2 ^ sh < 2 ^ 53 := by
    apply Nat.div_lt_of_lt_mul
    rw [Nat.mul_comm]
    omega
  have hq := roundHalfEven_le x (d * 2 ^ sh)
  rw [hdiv] at hq
  have hq53 : roundHalfEven x (d * 2 ^ sh) ≤ 2 ^ 53 := by omega
  have hkd : ∀ c : Nat, c * 2 ^ sh * d = c * (d * 2 ^ sh) := by
    intro c; rw [Nat.mul_assoc, Nat.mul_comm (2 ^ sh) d]
  refine ⟨onGrid_of_le _ sh hq53, ?_⟩
  rintro j ⟨m, e, hm, rfl⟩ hne
  by_cases hcase : sh ≤ e
  · -- the other point is a multiple of the spacing
    have he : m * 2 ^ e = m * 2 ^ (e - sh) * 2 ^ sh := by
      rw [Nat.mul_assoc, ← Nat.pow_add]
      congr 2; omega
    have hj : m * 2 ^ (e - sh) ≠ roundHalfEven x (d * 2 ^ sh) := by
      intro h; apply hne; rw [he, h]
    have hbest := roundHalfEven_best x (d * 2 ^ sh) hD _ hj
    rw [he, hkd, hkd]
    exact ⟨hbest.1, fun h => evenOnGrid_of_even _ sh hq53 (hbest.2 h)⟩
  · -- the other point lies below the binade of the value
    have hshpos : 1 ≤ sh := by omega
    have hbl : bitLen (x / d) = 53 + sh := by omega
    have hy0 : x / d ≠ 0 := by
      intro h0
      rw [h0] at hbl
      have : bitLen 0 = 0 := rfl
      omega
    have hb2 := bitLen_ge (x / d) hy0
    have h52 : 2 ^ (bitLen (x / d) - 1) = 2 ^ 52 * 2 ^ sh := by
      rw [← Nat.pow_add]; congr 1; omega
    rw [h52] at hb2
    have hxd : x / d * d ≤ x := Nat.div_mul_le_self x d
    have hlow : 2 ^ 52 * (d * 2 ^ sh) ≤ x := by
      have : 2 ^ 52 * 2 ^ sh * d ≤ x / d * d := Nat.mul_le_mul_right d hb2
      rw [hkd] at this
      omega
    have hjlt : m * 2 ^ e < 2 ^ 52 * 2 ^ sh := by
      have h1 : m * 2 ^ e < 2 ^ 53 * 2 ^ e := Nat.mul_lt_mul_of_pos_right hm (Nat.two_pow_pos e)
      have h2 : 2 ^ 53 * 2 ^ e ≤ 2 ^ 52 * 2 ^ sh := by
        rw [← Nat.pow_add, ← Nat.pow_add]
        exact Nat.pow_le_pow_right (by decide) (by omega)
      omega
    have hjd : m * 2 ^ e * d < 2 ^ 52 * (d * 2 ^ sh) := by
      have := Nat.mul_lt_mul_of_pos_right hjlt hd
      rw [hkd] at this
      exact this
    rw [hkd]
    by_cases hq52 : roundHalfEven x (d * 2 ^ sh) = 2 ^ 52
    · rw [hq52]
      unfold absDiff
      constructor
      · omega
      · intro h; omega
    · have hbest := roundHalfEven_best x (d * 2 ^ sh) hD (2 ^ 52) (fun h => hq52 h.symm)
      unfold absDiff at hbest ⊢
      constructor
      · omega
      · intro h; omega

theorem roundMag_nearest (n d : Nat) (hd : 0 < d) :
    NearestEven (n * 2 ^ 1074) d (roundMag n d) :=
  round53_nearest (n * 2 ^ 1074) d hd

/-- A grid point is its own rounding. -/
theorem nearestEven_exact (x d k : Nat) (hd : 0 < d) (j : Nat) (hj : OnGrid j)
    (hx : x = j * d) (h : NearestEven x d k) : k = j := by
  by_contra hne
  have := (h.2 j hj (fun e => hne e.symm)).1
  unfold absDiff at this
  rw [hx] at this
  have h0 : k * d = j * d := by omega
  exact hne (Nat.eq_of_mul_eq_mul_right hd h0)

theorem nearestEven_unique_aux (x d k k2 : Nat) (hd : 0 < d) (h : NearestEven x d k)
    (h2 : NearestEven x d k2) (hlt : k < k2) : False := by
  have a1 := h.2 k2 h2.1 (Nat.ne_of_gt hlt)
  have a2 := h2.2 k h.1 (Nat.ne_of_lt hlt)
  have heq : absDiff x (k * d) = absDiff x (k2 * d) := Nat.le_antisymm a1.1 a2.1
  obtain ⟨a, p, _, hk⟩ := a1.2 heq
  obtain ⟨b, q, hb, hk2⟩ := a2.2 heq.symm
  have hkd : k * d < k2 * d := Nat.mul_lt_mul_of_pos_right hlt hd
  have hmid : 2 * x = k * d + k2 * d := by
    unfold absDiff at heq
    omega
  have hbetween : ∀ j, OnGrid j → k < j → j < k2 → False := by
    intro j hj hkj hjk2
    have b1 := (h.2 j hj (Nat.ne_of_gt hkj)).1
    have c1 : k * d < j * d := Nat.mul_lt_mul_of_pos_right hkj hd
    have c2 : j * d < k2 * d := Nat.mul_lt_mul_of_pos_right hjk2 hd
    unfold absDiff at b1
    omega
  by_cases hpq : p ≤ q
  · -- the point half a step above `k`
    have hc : k2 = b * 2 ^ (q - p) * 2 ^ (p + 1) := by
      rw [hk2, Nat.mul_assoc, ← Nat.pow_add]
      congr 2; omega
    have hac : a < b * 2 ^ (q - p) := by
      rw [hk, hc] at hlt
      exact Nat.lt_of_mul_lt_mul_right hlt
    have hstep : k + 2 ^ (p + 1) ≤ k2 := by
      have : (a + 1) * 2 ^ (p + 1) ≤ b * 2 ^ (q - p) * 2 ^ (p + 1) :=
        Nat.mul_le_mul_right _ hac
      rw [Nat.add_mul, Nat.one_mul, ← hk, ← hc] at this
      exact this
    have hpp : 2 ^ (p + 1) = 2 * 2 ^ p := by rw [Nat.pow_succ, Nat.mul_comm]
    have hpos : 0 < 2 ^ p := Nat.two_pow_pos p
    have hj : (2 * a + 1) * 2 ^ p = k + 2 ^ p := by
      rw [hk, hpp, Nat.add_mul, Nat.one_mul, Nat.mul_assoc, Nat.mul_left_comm]
    refine hbetween ((2 * a + 1) * 2 ^ p) ⟨2 * a + 1, p, by omega, rfl⟩ ?_ ?_
    · omega
    · omega
  · -- the point half a step below `k2`
    have hc : k = a * 2 ^ (p - q) * 2 ^ (q + 1) := by
      rw [hk, Nat.mul_assoc, ← Nat.pow_add]
      congr 2; omega
    have hac : a * 2 ^ (p - q) < b := by
      rw [hc, hk2] at hlt
      exact Nat.lt_of_mul_lt_mul_right hlt
    have hstep : k + 2 ^ (q + 1) ≤ k2 := by
      have : (a * 2 ^ (p - q) + 1) * 2 ^ (q + 1) ≤ b * 2 ^ (q + 1) :=
        Nat.mul_le_mul_right _ hac
      rw [Nat.add_mul, Nat.one_mul, ← hk2, ← hc] at this
      exact this
    have hqq : 2 ^ (q + 1) = 2 * 2 ^ q := by rw [Nat.pow_succ, Nat.mul_comm]
    have hpos : 0 < 2 ^ q := Nat.two_pow_pos q
    have hb1 : 1 ≤ b := by omega
    have hj : (2 * b - 1) * 2 ^ q + 2 ^ q = k2 := by
      have : (2 * b - 1 + 1) * 2 ^ q = k2 := by
        rw [show 2 * b - 1 + 1 = 2 * b by omega, hk2, hqq, Nat.mul_assoc, Nat.mul_left_comm]
      rw [Nat.add_mul, Nat.one_mul] at this
      exact this
    refine hbetween ((2 * b - 1) * 2 ^ q) ⟨2 * b - 1, q, by omega, rfl⟩ ?_ ?_
    · omega
    · omega

/-- Rounding to nearest, ties to even, has one result. -/
theorem nearestEven_unique (x d k k2 : Nat) (hd : 0 < d) (h : NearestEven x d k)
    (h2 : NearestEven x d k2) : k = k2 := by
  by_contra hne
  rcases Nat.lt_or_gt_of_ne hne with hlt | hlt
  · exact nearestEven_unique_aux x d k k2 hd h h2 hlt
  · exact nearestEven_unique_aux x d k2 k hd h2 h hlt

/-- So the float64 that is a rational rounded to nearest, ties to even, is one. -/
theorem isNearest_unique (neg : Bool) (n d : Nat) (f g : Float64) (hd : 0 < d)
    (hf : Float64.IsNearest neg n d f) (hg : Float64.IsNearest neg n d g) : f = g := by
  obtain ⟨k, hk, hfk⟩ := hf
  obtain ⟨k2, hk2, hgk⟩ := hg
  have := nearestEven_unique _ d k k2 hd hk hk2
  subst this
  rw [hfk, hgk]

theorem ofRat_isNearest (neg : Bool) (n d : Nat) (hd : 0 < d) :
    Float64.IsNearest neg n d (Float64.ofRat neg n d) :=
  ⟨roundMag n d, roundMag_nearest n d hd, rfl⟩

theorem ofInt_isNearest (n : Int) (d : Nat) (hd : 0 < d) :
    Float64.IsNearest (decide (n < 0)) n.natAbs d (Float64.ofInt n d) :=
  ofRat_isNearest _ _ _ hd

set_option exponentiation.threshold 5000 in
/-- The product of two finite values is the exact product rounded. -/
theorem mul_isNearest (a b : Int) :
    Float64.IsNearest (decide (a * b < 0)) (a * b).natAbs (2 ^ 2148)
      ((Float64.fin a).mul (.fin b)) :=
  ofRat_isNearest _ _ _ (Nat.two_pow_pos 2148)

set_option exponentiation.threshold 5000 in
/-- The sum of two finite values is the exact sum rounded. -/
theorem add_isNearest (a b : Int) :
    Float64.IsNearest (decide (a + b < 0)) (a + b).natAbs (2 ^ 1074)
      ((Float64.fin a).add (.fin b)) :=
  ofRat_isNearest _ _ _ (Nat.two_pow_pos 1074)

set_option exponentiation.threshold 5000 in
/-- The fused product and sum of finite values is the exact result rounded once. -/
theorem fma_isNearest (a b c : Int) :
    Float64.IsNearest (decide (a * b + c * Int.ofNat (2 ^ 1074) < 0))
      (a * b + c * Int.ofNat (2 ^ 1074)).natAbs (2 ^ 2148)
      ((Float64.fin a).fma (.fin b) (.fin c)) :=
  ofRat_isNearest _ _ _ (Nat.two_pow_pos 2148)

theorem roundHalfEven_isHalfEven (n d : Nat) (hd : 0 < d) :
    IsHalfEven n d (roundHalfEven n d) := by
  obtain ⟨h1, h2, h3⟩ := roundHalfEven_nearest n d hd
  unfold IsHalfEven absDiff
  constructor
  · omega
  · intro h
    apply h3
    omega

/-! ## JSON: decoding into an `interface{}` and encoding again -/

theorem mapIndex_mapSet (m : List (String × GoValue)) (key key2 : String) (v : GoValue) :
    mapIndex key2 (mapSet m key v) = if key = key2 then some v else mapIndex key2 m := by
  induction m with
  | nil => simp [mapSet, mapIndex]
  | cons p rest ih =>
    obtain ⟨k, v2⟩ := p
    unfold mapSet
    by_cases hk : k = key
    · rw [if_pos hk]
      by_cases h2 : key = key2
      · simp [mapIndex, h2]
      · have : ¬ k = key2 := by rw [hk]; exact h2
        simp [mapIndex, h2, this]
    · rw [if_neg hk]
      by_cases h2 : key = key2
      · subst h2
        rw [mapIndex, if_neg hk, ih, if_pos rfl, if_pos rfl]
      · simp [mapIndex, ih, h2]

theorem mapIndex_unmarshalMembers (key : String) (ms : List (String × JSON)) :
    ∀ acc, mapIndex key (unmarshalMembers ms acc) =
      match JSON.member key ms with
      | some v => some (unmarshal v)
      | none => mapIndex key acc := by
  induction ms with
  | nil => intro acc; simp [unmarshalMembers, JSON.member]
  | cons p rest ih =>
    intro acc
    obtain ⟨k, v⟩ := p
    rw [unmarshalMembers, ih, JSON.member]
    cases hrest : JSON.member key rest with
    | some v2 => simp
    | none =>
      simp only [mapIndex_mapSet]
      by_cases hk : k = key
      · simp [hk]
      · simp [hk]

theorem first_marshalMembers (key : String) (m : List (String × GoValue)) :
    JSON.first key (marshalMembers m) = (mapIndex key m).map marshal := by
  induction m with
  | nil => simp [marshalMembers, JSON.first, mapIndex]
  | cons p rest ih =>
    obtain ⟨k, v⟩ := p
    rw [marshalMembers, JSON.first, mapIndex]
    by_cases hk : k = key
    · simp [hk]
    · simp [hk, ih]

theorem stringLess_irrefl (a : List Char) : stringLess a a = false := by
  induction a with
  | nil => rfl
  | cons x xs ih => simp [stringLess, ih]

theorem first_insertMember (key : String) (p : String × JSON) (l : List (String × JSON)) :
    JSON.first key (insertMember p l) = if p.1 = key then some p.2 else JSON.first key l := by
  induction l with
  | nil => obtain ⟨k, v⟩ := p; simp [insertMember, JSON.first]
  | cons q rest ih =>
    obtain ⟨k, v⟩ := p
    obtain ⟨k2, v2⟩ := q
    unfold insertMember
    by_cases hlt : stringLess k2.data k.data = true
    · have hne : k2 ≠ k := fun h => by
        rw [h, stringLess_irrefl] at hlt; exact Bool.false_ne_true hlt
      simp only [hlt, if_true, JSON.first]
      rw [ih]
      by_cases hk : k = key
      · have : ¬ k2 = key := by rw [← hk]; exact hne
        simp [hk, this]
      · simp [hk]
    · simp only [hlt, if_false, JSON.first]

theorem first_sortMembers (key : String) (l : List (String × JSON)) :
    JSON.first key (sortMembers l) = JSON.first key l := by
  induction l with
  | nil => rfl
  | cons p rest ih =>
    obtain ⟨k, v⟩ := p
    rw [sortMembers, first_insertMember, ih, JSON.first]

theorem names_mapSet (m : List (String × GoValue)) (key : String) (v : GoValue) (k : String) :
    k ∈ names (mapSet m key v) ↔ k = key ∨ k ∈ names m := by
  induction m with
  | nil => simp [mapSet, names]
  | cons p rest ih =>
    obtain ⟨k2, v2⟩ := p
    unfold mapSet
    by_cases hk : k2 = key
    · rw [if_pos hk]; simp [names, hk]
    · rw [if_neg hk]
      simp only [names, List.map_cons, List.mem_cons] at ih ⊢
      rw [ih]
      constructor
      · rintro (h | h | h)
        · exact Or.inr (Or.inl h)
        · exact Or.inl h
        · exact Or.inr (Or.inr h)
      · rintro (h | h | h)
        · exact Or.inr (Or.inl h)
        · exact Or.inl h
        · exact Or.inr (Or.inr h)

theorem nodup_mapSet (m : List (String × GoValue)) (key : String) (v : GoValue)
    (h : (names m).Nodup) : (names (mapSet m key v)).Nodup := by
  induction m with
  | nil => simp [mapSet, names]
  | cons p rest ih =>
    obtain ⟨k2, v2⟩ := p
    have h1 : k2 ∉ names rest := (List.nodup_cons.mp h).1
    have h2 : (names rest).Nodup := (List.nodup_cons.mp h).2
    unfold mapSet
    by_cases hk : k2 = key
    · rw [if_pos hk]
      show (key :: names rest).Nodup
      rw [← hk]
      exact h
    · rw [if_neg hk]
      show (k2 :: names (mapSet rest key v)).Nodup
      refine List.nodup_cons.mpr ⟨?_, ih h2⟩
      intro hmem
      rcases (names_mapSet rest key v k2).mp hmem with h3 | h3
      · exact hk h3
      · exact h1 h3

theorem nodup_unmarshalMembers (ms : List (String × JSON)) :
    ∀ acc, (names acc).Nodup → (names (unmarshalMembers ms acc)).Nodup := by
  induction ms with
  | nil => intro acc h; simpa [unmarshalMembers] using h
  | cons p rest ih =>
    intro acc h
    obtain ⟨k, v⟩ := p
    rw [unmarshalMembers]
    exact ih _ (nodup_mapSet acc k _ h)

theorem names_marshalMembers (m : List (String × GoValue)) :
    names (marshalMembers m) = names m := by
  induction m with
  | nil => rfl
  | cons p rest ih =>
    obtain ⟨k, v⟩ := p
    rw [marshalMembers]
    show k :: names (marshalMembers rest) = k :: names rest
    rw [ih]

theorem names_insertMember (p : String × JSON) (l : List (String × JSON)) (k : String) :
    k ∈ names (insertMember p l) ↔ k = p.1 ∨ k ∈ names l := by
  induction l with
  | nil => simp [insertMember, names]
  | cons q rest ih =>
    unfold insertMember
    by_cases hlt : stringLess q.1.data p.1.data = true
    · rw [if_pos hlt]
      simp only [names, List.map_cons, List.mem_cons] at ih ⊢
      rw [ih]
      constructor
      · rintro (h | h | h)
        · exact Or.inr (Or.inl h)
        · exact Or.inl h
        · exact Or.inr (Or.inr h)
      · rintro (h | h | h)
        · exact Or.inr (Or.inl h)
        · exact Or.inl h
        · exact Or.inr (Or.inr h)
    · rw [if_neg hlt]
      simp [names]

theorem nodup_insertMember (p : String × JSON) (l : List (String × JSON))
    (hp : p.1 ∉ names l) (h : (names l).Nodup) : (names (insertMember p l)).Nodup := by
  induction l with
  | nil => simp [insertMember, names]
  | cons q rest ih =>
    have h1 : q.1 ∉ names rest := (List.nodup_cons.mp h).1
    have h2 : (names rest).Nodup := (List.nodup_cons.mp h).2
    have hpq : p.1 ≠ q.1 := fun e => hp (by simp [names, e])
    have hprest : p.1 ∉ names rest := fun e => hp (by
      simp only [names, List.map_cons, List.mem_cons]; exact Or.inr e)
    unfold insertMember
    by_cases hlt : stringLess q.1.data p.1.data = true
    · rw [if_pos hlt]
      show (q.1 :: names (insertMember p rest)).Nodup
      refine List.nodup_cons.mpr ⟨?_, ih hprest h2⟩
      intro hmem
      rcases (names_insertMember p rest q.1).mp hmem with h3 | h3
      · exact hpq h3.symm
      · exact h1 h3
    · rw [if_neg hlt]
      show (p.1 :: names (q :: rest)).Nodup
      exact List.nodup_cons.mpr ⟨hp, h⟩

theorem names_sortMembers (l : List (String × JSON)) (k : String) :
    k ∈ names (sortMembers l) ↔ k ∈ names l := by
  induction l with
  | nil => simp [sortMembers]
  | cons p rest ih =>
    rw [sortMembers, names_insertMember, ih]
    simp [names]

theorem nodup_sortMembers (l : List (String × JSON)) (h : (names l).Nodup) :
    (names (sortMembers l)).Nodup := by
  induction l with
  | nil => simp [sortMembers, names]
  | cons p rest ih =>
    have h1 : p.1 ∉ names rest := (List.nodup_cons.mp h).1
    have h2 : (names rest).Nodup := (List.nodup_cons.mp h).2
    rw [sortMembers]
    exact nodup_insertMember p _ (fun e => h1 ((names_sortMembers rest p.1).mp e)) (ih h2)

theorem first_eq_none (key : String) (l : List (String × JSON)) (h : key ∉ names l) :
    JSON.first key l = none := by
  induction l with
  | nil => rfl
  | cons p rest ih =>
    obtain ⟨k, v⟩ := p
    have hk : ¬ k = key := fun e => h (by simp [names, e])
    have hr : key ∉ names rest := fun e => h (by
      simp only [names, List.map_cons, List.mem_cons]; exact Or.inr e)
    rw [JSON.first, if_neg hk, ih hr]

theorem member_eq_first (key : String) (l : List (String × JSON)) (h : (names l).Nodup) :
    JSON.member key l = JSON.first key l := by
  induction l with
  | nil => rfl
  | cons p rest ih =>
    obtain ⟨k, v⟩ := p
    have h1 : k ∉ names rest := (List.nodup_cons.mp h).1
    have h2 : (names rest).Nodup := (List.nodup_cons.mp h).2
    rw [JSON.member, JSON.first, ih h2]
    by_cases hk : k = key
    · rw [if_pos hk, first_eq_none key rest (by rw [← hk]; exact h1)]
      simp [hk]
    · rw [if_neg hk]
      cases JSON.first key rest <;> simp [hk]

/-- The members of a re-encoded object: one per name, with the re-encoding of
the last value of that name. -/
theorem member_reencode (key : String) (ms : List (String × JSON)) :
    JSON.member key (sortMembers (marshalMembers (unmarshalMembers ms []))) =
      (JSON.member key ms).map reencode := by
  rw [member_eq_first, first_sortMembers, first_marshalMembers, mapIndex_unmarshalMembers]
  · cases JSON.member key ms <;> simp [mapIndex, reencode]
  · apply nodup_sortMembers
    rw [names_marshalMembers]
    exact nodup_unmarshalMembers ms [] (by simp [names])

theorem convertNumber_fin (x : Decimal) (k : Int) (h : x.toFloat64 = .fin k) :
    convertNumber x = .float64 k := by
  unfold convertNumber
  rw [h]

theorem marshalList_unmarshalList (xs : List JSON) :
    marshalList (unmarshalList xs) = xs.map reencode := by
  induction xs with
  | nil => rfl
  | cons x rest ih => rw [unmarshalList, marshalList, ih]; rfl

theorem member_mem (key : String) (ms : List (String × JSON)) (v : JSON)
    (h : JSON.member key ms = some v) : (key, v) ∈ ms := by
  induction ms with
  | nil => simp [JSON.member] at h
  | cons p rest ih =>
    obtain ⟨k, v2⟩ := p
    rw [JSON.member] at h
    cases hr : JSON.member key rest with
    | some v3 =>
      rw [hr] at h
      simp only [Option.some.injEq] at h
      subst h
      exact List.mem_cons_of_mem _ (ih hr)
    | none =>
      rw [hr] at h
      by_cases hk : k = key
      · simp only [hk, if_true, Option.some.injEq] at h
        subst h; subst hk
        exact List.mem_cons_self _ _
      · simp [hk] at h

theorem ofRat_fin (neg : Bool) (n d : Nat) (k : Int) (hd : 0 < d)
    (h : Float64.ofRat neg n d = .fin k) :
    k.natAbs = roundMag n d ∧ OnGrid k.natAbs ∧ k.natAbs < 2 ^ 2098 := by
  unfold Float64.ofRat at h
  simp only [] at h
  split at h
  · cases h
  · rename_i hlt
    have hk : k.natAbs = roundMag n d := by
      cases neg
      · simp only [Bool.false_eq_true, if_false, Float64.fin.injEq] at h
        rw [← h]; rfl
      · simp only [if_true, Float64.fin.injEq] at h
        rw [← h]; simp
    rw [hk]
    exact ⟨rfl, (roundMag_nearest n d hd).1, Nat.lt_of_not_le hlt⟩

theorem Decimal.num_of_neg (neg : Bool) (m : Nat) (e : Int) (h : ¬ 0 ≤ e) :
    Decimal.num { neg := neg, mant := m, exp := e } = m := if_neg h

theorem Decimal.den_of_neg (neg : Bool) (m : Nat) (e : Int) (h : ¬ 0 ≤ e) :
    Decimal.den { neg := neg, mant := m, exp := e } = 10 ^ (- e).toNat := if_neg h

set_option exponentiation.threshold 5000 in
theorem readsAs_exact (k : Nat) (hk : OnGrid k) : readsAs k (k * 5 ^ 1074) (-1074) = true := by
  have hpos : 0 < 10 ^ 1074 := Nat.pos_of_ne_zero (pow_ne_zero _ (by decide))
  have hx : k * 5 ^ 1074 * 2 ^ 1074 = k * 10 ^ 1074 := by
    rw [Nat.mul_assoc, ← Nat.mul_pow]
  have h := nearestEven_exact _ _ _ hpos k hk hx (roundMag_nearest (k * 5 ^ 1074) (10 ^ 1074) hpos)
  have he : (- (-1074 : Int)).toNat = 1074 := by decide
  unfold readsAs
  rw [Decimal.num_of_neg _ _ _ (by decide), Decimal.den_of_neg _ _ _ (by decide), he, h]
  exact beq_self_eq_true k

theorem find_getD {α : Type} (p : α → Bool) (l : List α) (d : α) (h : p d = true) :
    p ((l.find? p).getD d) = true := by
  cases hf : l.find? p with
  | none => exact h
  | some c => exact List.find?_some hf

theorem shortest_readsAs (k : Nat) (hk : OnGrid k) :
    readsAs k (shortest k).1 (shortest k).2 = true :=
  find_getD (fun c => readsAs k c.1 c.2) (candidates k (topScale k 700 308) 17)
    (k * 5 ^ 1074, -1074) (readsAs_exact k hk)

set_option maxRecDepth 100000 in
set_option exponentiation.threshold 5000 in
theorem toFloat64_zero :
    Decimal.toFloat64 { neg := false, mant := 0, exp := 0 } = .fin 0 := by
  decide

theorem Float64.ofRat_eq (neg : Bool) (n d : Nat) :
    Float64.ofRat neg n d =
      if 2 ^ 2098 ≤ roundMag n d then .inf neg
      else .fin (if neg then - (roundMag n d : Int) else roundMag n d) := rfl

theorem Decimal.toFloat64_eq (neg : Bool) (m : Nat) (e : Int) :
    Decimal.toFloat64 { neg := neg, mant := m, exp := e } =
      Float64.ofRat neg (Decimal.num { neg := false, mant := m, exp := e })
        (Decimal.den { neg := false, mant := m, exp := e }) := rfl

theorem formatFloat_toFloat64 (k : Int) (hk : OnGrid k.natAbs) (hlt : k.natAbs < 2 ^ 2098) :
    (formatFloat k).toFloat64 = .fin k := by
  unfold formatFloat
  by_cases h0 : k = 0
  · rw [if_pos h0, h0]
    exact toFloat64_zero
  · rw [if_neg h0]
    have h := shortest_readsAs k.natAbs hk
    unfold readsAs at h
    rw [Decimal.toFloat64_eq, Float64.ofRat_eq, beq_iff_eq.mp h, if_neg (Nat.not_le.mpr hlt)]
    congr 1
    by_cases hneg : k < 0
    · simp only [hneg, decide_True, if_true]; omega
    · simp only [hneg, decide_False, Bool.false_eq_true, if_false]; omega

mutual
/-- Decoding then re-encoding keeps a value up to `R` when it keeps up to `R`
every number that satisfies `Q`, and the numbers of the value satisfy `Q`. -/
theorem reencode_rel (R : Decimal → Decimal → Prop) (Q : Decimal → Prop)
    (hR : ∀ x, Q x → ∃ k, x.toFloat64 = .fin k ∧ R x (formatFloat k)) :
    ∀ v : JSON, v.AllNum Q → JSON.Rel R v (reencode v)
  | .null, _ => JSON.Rel.null
  | .bool b, _ => JSON.Rel.bool b
  | .str s, _ => JSON.Rel.str s
  | .num x, h => by
    obtain ⟨k, hk, hr⟩ := hR x h
    have he : reencode (.num x) = .num (formatFloat k) := by
      rw [reencode, unmarshal, convertNumber_fin x k hk, marshal]
    rw [he]
    exact JSON.Rel.num _ _ hr
  | .arr xs, h => by
    have he : reencode (.arr xs) = .arr (xs.map reencode) := by
      simp only [reencode, unmarshal, marshal, marshalList_unmarshalList]
    rw [he]
    refine JSON.Rel.arr _ _ (by simp) ?_
    intro i x y hx hy
    rw [List.getElem?_map, hx] at hy
    simp only [Option.map_some', Option.some.injEq] at hy
    subst hy
    exact reencode_rel_list R Q hR xs h x (List.getElem?_mem hx)
  | .obj ms, h => by
    have he : reencode (.obj ms) =
        .obj (sortMembers (marshalMembers (unmarshalMembers ms []))) := by
      simp only [reencode, unmarshal, marshal]
    rw [he]
    refine JSON.Rel.obj _ _ ?_ ?_
    · intro key
      rw [member_reencode]
      cases JSON.member key ms <;> rfl
    · intro key v v2 hv hv2
      rw [member_reencode, hv] at hv2
      simp only [Option.map_some', Option.some.injEq] at hv2
      subst hv2
      exact reencode_rel_members R Q hR ms h key v (member_mem key ms v hv)
/-- The same for the elements of an array. -/
theorem reencode_rel_list (R : Decimal → Decimal → Prop) (Q : Decimal → Prop)
    (hR : ∀ x, Q x → ∃ k, x.toFloat64 = .fin k ∧ R x (formatFloat k)) :
    ∀ xs : List JSON, JSON.AllNumList Q xs → ∀ x ∈ xs, JSON.Rel R x (reencode x)
  | [], _ => fun x hx => by cases hx
  | y :: ys, h => fun x hx => by
    rcases List.mem_cons.mp hx with e | e
    · subst e
      exact reencode_rel R Q hR x h.1
    · exact reencode_rel_list R Q hR ys h.2 x e
/-- The same for the members of an object. -/
theorem reencode_rel_members (R : Decimal → Decimal → Prop) (Q : Decimal → Prop)
    (hR : ∀ x, Q x → ∃ k, x.toFloat64 = .fin k ∧ R x (formatFloat k)) :
    ∀ ms : List (String × JSON), JSON.AllNumMembers Q ms →
      ∀ key v, (key, v) ∈ ms → JSON.Rel R v (reencode v)
  | [], _ => fun key v hx => by cases hx
  | (k, y) :: ys, h => fun key v hx => by
    rcases List.mem_cons.mp hx with e | e
    · have : v = y := by cases e; rfl
      subst this
      exact reencode_rel R Q hR v h.1
    · exact reencode_rel_members R Q hR ys h.2 key v e
end

namespace ServiceB

theorem fetchCEPData_toOption (w : World) (ctx : Context) (cep : String) (st : St) :
    (fetchCEPData w ctx cep st).1.toOption = directoryRecord w cep := by
  unfold fetchCEPData directoryRecord viaCEPURL
  by_cases hreq : newRequestFails w ("https://viacep.com.br/ws/" ++ cep ++ "/json/") = true
  · simp [hreq, Except.toOption]
  · cases hv : w.viaCEP ("https://viacep.com.br/ws/" ++ cep ++ "/json/") with
    | doError => simp [hreq, hv, Except.toOption]
    | decodeError => simp [hreq, hv, Except.toOption]
    | decoded d =>
      by_cases he : d.Erro = true
      · simp [hreq, hv, he, Except.toOption]
      · simp [hreq, hv, he, Except.toOption]

theorem fetchWeatherData_toOption (w : World) (ctx : Context) (city : String) (st : St) :
    (fetchWeatherData w ctx city st).1.toOption = weatherReading w city := by
  unfold fetchWeatherData weatherReading weatherURL
  by_cases hkey : (osGetenv w "WEATHER_API_KEY" == "") = true
  · simp [hkey, Except.toOption]
  · by_cases hreq : newRequestFails w
        ("http://api.weatherapi.com/v1/current.json?key=" ++ osGetenv w "WEATHER_API_KEY" ++
          "&q=" ++ w.queryEscape city) = true
    · simp [hkey, hreq, Except.toOption]
    · cases hv : w.weatherAPI
          ("http://api.weatherapi.com/v1/current.json?key=" ++ osGetenv w "WEATHER_API_KEY" ++
            "&q=" ++ w.queryEscape city) with
      | doError => simp [hkey, hreq, hv, Except.toOption]
      | decodeError => simp [hkey, hreq, hv, Except.toOption]
      | decoded d => simp [hkey, hreq, hv, Except.toOption]

theorem toOption_error {ε α : Type} {x : Except ε α} {e : ε} {o : Option α}
    (hx : x = .error e) (h : x.toOption = o) : o = none := by
  subst hx
  exact h.symm

theorem toOption_ok {ε α : Type} {x : Except ε α} {a : α} {o : Option α}
    (hx : x = .ok a) (h : x.toOption = o) : o = some a := by
  subst hx
  exact h.symm

theorem handleWeather_outcome (w : World) (r : Request) (st : St) :
    ((handleWeather w r st).1.status, (handleWeather w r st).1.body.message) =
      specWeatherOutcome w r := by
  unfold handleWeather specWeatherOutcome
  by_cases hm : (r.method != "POST") = true
  · simp [hm, httpError, Body.message]
  · cases hb : r.body with
    | none => simp [hm, jsonError, Body.message]
    | some req =>
      by_cases hv : validateCEP req.CEP = true
      · simp only [hm, hv, Bool.not_true, Bool.false_eq_true, if_false]
        split
        · rename_i err herr
          rw [toOption_error herr (fetchCEPData_toOption _ _ _ _)]
          simp [jsonError, Body.message]
        · rename_i cepData hok
          rw [toOption_ok hok (fetchCEPData_toOption _ _ _ _)]
          simp only []
          split
          · rename_i err herr
            rw [toOption_error herr (fetchWeatherData_toOption _ _ _ _)]
            simp [jsonError, Body.message]
          · rename_i wd hwd
            rw [toOption_ok hwd (fetchWeatherData_toOption _ _ _ _)]
            simp [Body.message]
      · simp [hm, hv, jsonError, Body.message]

theorem specWeatherOutcome_200 (w : World) (r : Request) :
    (specWeatherOutcome w r).1 = 200 ↔
      r.method = "POST" ∧ ∃ req, r.body = some req ∧ validateCEP req.CEP = true ∧
        ∃ d, directoryRecord w req.CEP = some d ∧ ∃ t, weatherReading w d.Localidade = some t := by
  unfold specWeatherOutcome
  by_cases hm : r.method = "POST"
  · cases hb : r.body with
    | none => simp [hm]
    | some req =>
      by_cases hv : validateCEP req.CEP = true
      · cases hd : directoryRecord w req.CEP with
        | none => simp [hm, hv, hd]
        | some d =>
          cases ht : weatherReading w d.Localidade with
          | none => simp [hm, hv, hd, ht]
          | some t => simp [hm, hv, hd, ht]
      · simp [hm, hv]
  · simp [hm]

theorem directoryRecord_none (w : World) (cep : String) :
    directoryRecord w cep = none ↔
      newRequestFails w (viaCEPURL cep) = true ∨ w.viaCEP (viaCEPURL cep) = .doError ∨
        w.viaCEP (viaCEPURL cep) = .decodeError ∨
        ∃ d, w.viaCEP (viaCEPURL cep) = .decoded d ∧ d.Erro = true := by
  unfold directoryRecord
  by_cases hreq : newRequestFails w (viaCEPURL cep) = true
  · simp [hreq]
  · cases hv : w.viaCEP (viaCEPURL cep) with
    | doError => simp [hreq]
    | decodeError => simp [hreq]
    | decoded d =>
      by_cases he : d.Erro = true
      · simp [hreq, he]
      · simp [hreq, he]

theorem handleWeather_status_200 (w : World) (r : Request) (st : St) :
    (handleWeather w r st).1.status = 200 ↔
      r.method = "POST" ∧ ∃ req, r.body = some req ∧ validateCEP req.CEP = true ∧
        ∃ d, directoryRecord w req.CEP = some d ∧
          ∃ t, weatherReading w d.Localidade = some t := by
  rw [← specWeatherOutcome_200]
  rw [← handleWeather_outcome w r st]

/-- C2: the response of `handleWeather` is fixed by the first step that fails, in
the order: method other than POST (405), body not decodable (400, "invalid
request body"), code failing `validateCEP` (422, "invalid zipcode"), directory
lookup failing (404, "can not find zipcode"), weather lookup failing (500,
"failed to fetch weather data"); the status is 200 exactly when no step fails;
and the directory lookup fails exactly on a request or transport error, a
decode error, or a payload whose `erro` flag is true. -/
theorem handleWeather_first_failure (w : World) (r : Request) (st : St) :
    ((handleWeather w r st).1.status, (handleWeather w r st).1.body.message) =
        specWeatherOutcome w r ∧
    ((handleWeather w r st).1.status = 200 ↔
      r.method = "POST" ∧ ∃ req, r.body = some req ∧ validateCEP req.CEP = true ∧
        ∃ d, directoryRecord w req.CEP = some d ∧
          ∃ t, weatherReading w d.Localidade = some t) ∧
    (∀ cep, directoryRecord w cep = none ↔
      newRequestFails w (viaCEPURL cep) = true ∨ w.viaCEP (viaCEPURL cep) = .doError ∨
        w.viaCEP (viaCEPURL cep) = .decodeError ∨
        ∃ d, w.viaCEP (viaCEPURL cep) = .decoded d ∧ d.Erro = true) := by
  exact ⟨handleWeather_outcome w r st, handleWeather_status_200 w r st, directoryRecord_none w⟩

end ServiceB

/-! ## The Gateway stage: status, message and outbound call -/

theorem outboundCalls_append (l₁ l₂ : List Event) :
    outboundCalls (l₁ ++ l₂) = outboundCalls l₁ ++ outboundCalls l₂ := by
  simp [outboundCalls, List.filterMap_append]

theorem outboundCalls_emit (st : St) (e : Event) :
    outboundCalls (st.emit e).events =
      outboundCalls st.events ++ outboundCalls [e] := by
  simp [St.emit, outboundCalls_append]

theorem outboundCalls_recordError (w : World) (sc : SpanContext) (err : GoError) (st : St) :
    outboundCalls (recordError w sc err st).events = outboundCalls st.events := by
  unfold recordError
  split
  · rw [outboundCalls_emit]
    simp [outboundCalls]
  · rfl

theorem outboundCalls_tracerStart (ctx : Context) (name : String) (st : St) :
    outboundCalls (tracerStart ctx name st).2.2.events = outboundCalls st.events := by
  unfold tracerStart
  simp only [outboundCalls_emit]
  split <;> simp [outboundCalls, St.bump]

theorem outboundCalls_otelRoundTrip (w : World) (ctx : Context) (req : HttpRequest) (st : St) :
    outboundCalls (otelRoundTrip w ctx req st).2.events =
      outboundCalls st.events ++ [(otelRoundTrip w ctx req st).1] := by
  unfold otelRoundTrip
  simp only [outboundCalls_emit, outboundCalls_tracerStart]
  simp [outboundCalls]

theorem outboundCalls_respond (status : Nat) : outboundCalls [Event.respond status] = [] := rfl

theorem outboundCalls_spanEnd (sc : SpanContext) : outboundCalls [Event.spanEnd sc] = [] := rfl

theorem outboundCalls_init (n : Nat) : outboundCalls (St.init n).events = [] := rfl

namespace ServiceA

theorem outboundCalls_logRelayed (response : Response) (st : St) :
    outboundCalls (logRelayed response st).events = outboundCalls st.events := by
  unfold logRelayed
  split
  · rfl
  · rw [outboundCalls_emit, outboundCalls_respond, List.append_nil]

/-- The six ways through `handleCEP`, each with its response and the requests
it put on the wire. -/
theorem handleCEP_cases (w : World) (r : Request) (n : Nat) :
    (r.method ≠ "POST" ∧
      (handleCEP w r (St.init n)).1 = httpError "Method not allowed" 405 ∧
      outboundCalls (handleCEP w r (St.init n)).2.events = []) ∨
    (r.method = "POST" ∧ r.body = none ∧
      (handleCEP w r (St.init n)).1 = jsonError 400 "invalid request body" ∧
      outboundCalls (handleCEP w r (St.init n)).2.events = []) ∨
    (∃ req, r.method = "POST" ∧ r.body = some req ∧ validateCEP req.CEP = false ∧
      (handleCEP w r (St.init n)).1 = jsonError 422 "invalid zipcode" ∧
      outboundCalls (handleCEP w r (St.init n)).2.events = []) ∨
    (∃ req, r.method = "POST" ∧ r.body = some req ∧ validateCEP req.CEP = true ∧
      newRequestFails w (gatewayURL w) = true ∧
      (handleCEP w r (St.init n)).1 = httpError "Internal server error" 500 ∧
      outboundCalls (handleCEP w r (St.init n)).2.events = []) ∨
    (∃ req wire, r.method = "POST" ∧ r.body = some req ∧ validateCEP req.CEP = true ∧
      newRequestFails w (gatewayURL w) = false ∧
      outboundCalls (handleCEP w r (St.init n)).2.events = [wire] ∧
      w.serviceB wire = none ∧
      (handleCEP w r (St.init n)).1 = httpError "Failed to call service B" 500) ∨
    (∃ req wire resp, r.method = "POST" ∧ r.body = some req ∧ validateCEP req.CEP = true ∧
      newRequestFails w (gatewayURL w) = false ∧
      outboundCalls (handleCEP w r (St.init n)).2.events = [wire] ∧
      w.serviceB wire = some resp ∧
      (handleCEP w r (St.init n)).1 = relayResponse resp) := by
  have hu : gatewayURL w =
      (if osGetenv w "SERVICE_B_URL" == "" then "http://localhost:8081"
        else osGetenv w "SERVICE_B_URL") ++ "/weather" := rfl
  unfold handleCEP
  simp only []
  rw [← hu]
  by_cases hm : r.method = "POST"
  · have hm2 : (r.method != "POST") = false := by simp [hm]
    cases hb : r.body with
    | none =>
      refine Or.inr (Or.inl ⟨hm, rfl, ?_, ?_⟩)
      · simp only [hm2, Bool.false_eq_true, if_false]
      · simp only [hm2, Bool.false_eq_true, if_false, outboundCalls_emit, outboundCalls_recordError,
          outboundCalls_tracerStart, outboundCalls_respond, outboundCalls_spanEnd,
          outboundCalls_init, List.append_nil]
    | some req =>
      by_cases hv : validateCEP req.CEP = true
      · by_cases hreq : newRequestFails w (gatewayURL w) = true
        · refine Or.inr (Or.inr (Or.inr (Or.inl ⟨req, hm, rfl, hv, hreq, ?_, ?_⟩)))
          · simp only [hm2, hv, hreq, Bool.false_eq_true, if_false, if_true, Bool.not_true]
          · simp only [hm2, hv, hreq, Bool.false_eq_true, if_false, if_true, Bool.not_true,
              outboundCalls_emit, outboundCalls_recordError, outboundCalls_tracerStart,
              outboundCalls_respond, outboundCalls_spanEnd, outboundCalls_init, List.append_nil]
        · have hreq2 : newRequestFails w (gatewayURL w) = false := by simpa using hreq
          simp only [hm2, hv, hreq2, Bool.false_eq_true, if_false, Bool.not_true]
          split
          · rename_i hdo
            refine Or.inr (Or.inr (Or.inr (Or.inr (Or.inl
              ⟨req, _, hm, rfl, hv, trivial, ?_, hdo, rfl⟩))))
            simp only [outboundCalls_emit, outboundCalls_recordError, outboundCalls_tracerStart,
                outboundCalls_otelRoundTrip, outboundCalls_respond, outboundCalls_spanEnd,
                outboundCalls_init, List.append_nil, List.nil_append]
          · rename_i resp hdo
            refine Or.inr (Or.inr (Or.inr (Or.inr (Or.inr
              ⟨req, _, resp, hm, rfl, hv, trivial, ?_, hdo, rfl⟩))))
            simp only [outboundCalls_emit, outboundCalls_recordError, outboundCalls_tracerStart,
                outboundCalls_otelRoundTrip, outboundCalls_respond, outboundCalls_spanEnd,
                outboundCalls_init, outboundCalls_logRelayed, List.append_nil, List.nil_append]
      · have hv2 : validateCEP req.CEP = false := by simpa using hv
        refine Or.inr (Or.inr (Or.inl ⟨req, hm, rfl, hv2, ?_, ?_⟩))
        · simp only [hm2, hv2, Bool.false_eq_true, if_false, Bool.not_false, if_true]
        · simp only [hm2, hv2, Bool.false_eq_true, if_false, Bool.not_false, if_true,
            outboundCalls_emit, outboundCalls_recordError, outboundCalls_tracerStart,
            outboundCalls_respond, outboundCalls_spanEnd, outboundCalls_init, List.append_nil]
  · have hm2 : (r.method != "POST") = true := by simp [hm]
    refine Or.inl ⟨hm, ?_, ?_⟩
    · simp only [hm2, if_true]
    · simp only [hm2, if_true, outboundCalls_emit, outboundCalls_tracerStart, outboundCalls_respond,
        outboundCalls_spanEnd, outboundCalls_init, List.append_nil]

/-- C3, as stated, fails: with `SERVICE_B_URL` ending in a line feed, a POST
whose body decodes to the valid code "01310100" makes no outbound call (the
request cannot be built), so "a call is made exactly when the method is POST,
the body decodes and the code is valid" is false. -/
theorem handleCEP_valid_post_without_call :
    ¬ (outboundCalls (handleCEP badURLWorld postRequest (St.init 0)).2.events ≠ [] ↔
        postRequest.method = "POST" ∧
          ∃ req, postRequest.body = some req ∧ validateCEP req.CEP = true) := by
  intro h
  exact h.mpr ⟨rfl, { CEP := "01310100" }, rfl, by decide⟩ (by decide)

/-- C3, amended: a method other than POST gives 405; an undecodable body gives
400 "invalid request body"; a code failing `validateCEP` gives 422 "invalid
zipcode"; a valid request for which the outbound request cannot be built gives
500; in each of these cases no outbound call is made.  An outbound call is made
exactly when the method is POST, the body decodes, the code is valid and the
outbound request can be built; if that call fails at transport level the
status is 500. -/
theorem handleCEP_outcome (w : World) (r : Request) (n : Nat) :
    (r.method ≠ "POST" →
      (handleCEP w r (St.init n)).1.status = 405 ∧
        outboundCalls (handleCEP w r (St.init n)).2.events = []) ∧
    (r.method = "POST" → r.body = none →
      (handleCEP w r (St.init n)).1.status = 400 ∧
        (handleCEP w r (St.init n)).1.body.message = some "invalid request body" ∧
        outboundCalls (handleCEP w r (St.init n)).2.events = []) ∧
    (∀ req, r.method = "POST" → r.body = some req → validateCEP req.CEP = false →
      (handleCEP w r (St.init n)).1.status = 422 ∧
        (handleCEP w r (St.init n)).1.body.message = some "invalid zipcode" ∧
        outboundCalls (handleCEP w r (St.init n)).2.events = []) ∧
    (∀ req, r.method = "POST" → r.body = some req → validateCEP req.CEP = true →
      newRequestFails w (gatewayURL w) = true →
      (handleCEP w r (St.init n)).1.status = 500 ∧
        outboundCalls (handleCEP w r (St.init n)).2.events = []) ∧
    (outboundCalls (handleCEP w r (St.init n)).2.events ≠ [] ↔
      r.method = "POST" ∧ ∃ req, r.body = some req ∧ validateCEP req.CEP = true ∧
        newRequestFails w (gatewayURL w) = false) ∧
    (∀ q, q ∈ outboundCalls (handleCEP w r (St.init n)).2.events → w.serviceB q = none →
      (handleCEP w r (St.init n)).1.status = 500) := by
  rcases handleCEP_cases w r n with ⟨hm, hr, hc⟩ | ⟨hm, hb, hr, hc⟩ | ⟨req, hm, hb, hv, hr, hc⟩ |
    ⟨req, hm, hb, hv, hf, hr, hc⟩ | ⟨req, wire, hm, hb, hv, hf, hc, hdo, hr⟩ |
    ⟨req, wire, resp, hm, hb, hv, hf, hc, hdo, hr⟩
  · simp [hm, hr, hc, httpError]
  · simp [hm, hb, hr, hc, jsonError, Body.message]
  · simp [hm, hb, hv, hr, hc, jsonError, Body.message]
  · simp [hm, hb, hv, hf, hr, hc, httpError]
  · simp [hm, hb, hv, hf, hr, hc, httpError]
  · simp [hm, hb, hv, hf, hr, hc, hdo]

/-- Witness for C3: a GET request gets 405, the code "123" gets 422, a base URL
ending in a line feed gets 500, each without an outbound call; and the call
made for "01310100" fails at transport level in `emptyWorld`, which gives 500. -/
theorem handleCEP_outcome_witness :
    ((handleCEP emptyWorld getRequest (St.init 0)).1.status = 405 ∧
      outboundCalls (handleCEP emptyWorld getRequest (St.init 0)).2.events = []) ∧
    ((handleCEP emptyWorld shortCodeRequest (St.init 0)).1.status = 422 ∧
      (handleCEP emptyWorld shortCodeRequest (St.init 0)).1.body.message =
        some "invalid zipcode" ∧
      outboundCalls (handleCEP emptyWorld shortCodeRequest (St.init 0)).2.events = []) ∧
    ((handleCEP badURLWorld postRequest (St.init 0)).1.status = 500 ∧
      outboundCalls (handleCEP badURLWorld postRequest (St.init 0)).2.events = []) ∧
    (handleCEP emptyWorld postRequest (St.init 0)).1.status = 500 :=
  ⟨(handleCEP_outcome emptyWorld getRequest 0).1 (by decide),
    (handleCEP_outcome emptyWorld shortCodeRequest 0).2.2.1 { CEP := "123" } rfl rfl
      (by decide),
    (handleCEP_outcome badURLWorld postRequest 0).2.2.2.1 { CEP := "01310100" } rfl rfl
      (by decide) (by decide),
    (handleCEP_outcome emptyWorld postRequest 0).2.2.2.2.2 postWire (by decide) rfl⟩

end ServiceA

/-! ## The simulated reading -/

namespace ServiceB

set_option maxRecDepth 100000 in
set_option exponentiation.threshold 5000 in
theorem ofInt_25 : Float64.ofInt 25 1 = .fin (Int.ofNat (25 * 2 ^ 1074)) := by
  decide

theorem osGetenv_eq_empty (w : World) (key : String)
    (h : w.env key = none ∨ w.env key = some "") : osGetenv w key = "" := by
  rcases h with h | h <;> simp [osGetenv, h]

theorem fetchWeatherData_no_key (w : World) (ctx : Context) (city : String) (st : St)
    (hkey : osGetenv w "WEATHER_API_KEY" = "") :
    (fetchWeatherData w ctx city st).1 = .ok { Current := { TempC := Float64.ofInt 25 1 } } ∧
      outboundCalls (fetchWeatherData w ctx city st).2.events = outboundCalls st.events := by
  unfold fetchWeatherData
  simp only [hkey, beq_self_eq_true, if_true, outboundCalls_emit,
      outboundCalls_tracerStart]
  simp [outboundCalls]

/-- C7: when `WEATHER_API_KEY` is empty or unset, `fetchWeatherData` performs no
outbound call and returns, without error, a reading of exactly 25.0 degrees
Celsius, for every locality; two such runs return the same reading whatever
their localities. -/
theorem fetchWeatherData_simulated (w : World) (ctx : Context) (city : String) (n : Nat)
    (hkey : w.env "WEATHER_API_KEY" = none ∨ w.env "WEATHER_API_KEY" = some "") :
    (fetchWeatherData w ctx city (St.init n)).1 =
        .ok { Current := { TempC := .fin (Int.ofNat (25 * 2 ^ 1074)) } } ∧
      outboundCalls (fetchWeatherData w ctx city (St.init n)).2.events = [] ∧
      ∀ (w2 : World) (ctx2 : Context) (city2 : String) (n2 : Nat),
        (w2.env "WEATHER_API_KEY" = none ∨ w2.env "WEATHER_API_KEY" = some "") →
        (fetchWeatherData w2 ctx2 city2 (St.init n2)).1 =
          (fetchWeatherData w ctx city (St.init n)).1 := by
  have h1 := fetchWeatherData_no_key w ctx city (St.init n)
    (osGetenv_eq_empty w _ hkey)
  refine ⟨?_, ?_, ?_⟩
  · rw [h1.1, ofInt_25]
  · rw [h1.2]; rfl
  · intro w2 ctx2 city2 n2 hkey2
    rw [h1.1, (fetchWeatherData_no_key w2 ctx2 city2 (St.init n2)
      (osGetenv_eq_empty w2 _ hkey2)).1]

/-- Witness for C7: a world with no `WEATHER_API_KEY`. -/
theorem fetchWeatherData_simulated_witness :
    (fetchWeatherData emptyWorld postRequest.ctx "São Paulo" (St.init 0)).1 =
        .ok { Current := { TempC := .fin (Int.ofNat (25 * 2 ^ 1074)) } } ∧
      outboundCalls (fetchWeatherData emptyWorld postRequest.ctx "São Paulo"
        (St.init 0)).2.events = [] :=
  ⟨(fetchWeatherData_simulated emptyWorld postRequest.ctx "São Paulo" 0 (Or.inl rfl)).1,
    (fetchWeatherData_simulated emptyWorld postRequest.ctx "São Paulo" 0 (Or.inl rfl)).2.1⟩

end ServiceB

/-! ## The event log of a run -/

theorem events_emit (st : St) (e : Event) : (st.emit e).events = st.events ++ [e] := rfl

theorem events_init (n : Nat) : (St.init n).events = [] := rfl

theorem events_tracerStart (ctx : Context) (name : String) (st : St) :
    (tracerStart ctx name st).2.2.events =
      st.events ++ [.spanStart name (tracerStart ctx name st).2.1 ctx.spanContext] := by
  unfold tracerStart
  by_cases h : ctx.spanContext.IsValid = true <;> simp [h, St.emit, St.bump]

theorem events_recordError (w : World) (sc : SpanContext) (err : GoError) (st : St) :
    (recordError w sc err st).events = st.events ++ recorded w sc err := by
  unfold recordError recorded
  split <;> simp [St.emit]

theorem events_logRelayed (response : Response) (st : St) :
    (ServiceA.logRelayed response st).events = st.events ++ relayedEvents response := by
  unfold ServiceA.logRelayed relayedEvents
  split <;> simp [St.emit]

theorem events_otelRoundTrip (w : World) (ctx : Context) (req : HttpRequest) (st : St) :
    (otelRoundTrip w ctx req st).2.events =
      st.events ++ [.spanStart ("HTTP " ++ req.method)
        (tracerStart ctx ("HTTP " ++ req.method) st).2.1 ctx.spanContext,
        .httpDo (otelRoundTrip w ctx req st).1] := by
  unfold otelRoundTrip
  simp only [events_emit, events_tracerStart, List.append_assoc]
  rfl

theorem all_not_respond_recorded (w : World) (sc : SpanContext) (err : GoError) :
    (recorded w sc err).all (fun e => !e.isRespond) = true := by
  unfold recorded
  split <;> rfl

theorem invocations_recorded (w : World) (sc : SpanContext) (err : GoError) :
    invocations (recorded w sc err) = [] := by
  unfold recorded
  split <;> rfl

theorem outboundCalls_recorded (w : World) (sc : SpanContext) (err : GoError) :
    outboundCalls (recorded w sc err) = [] := by
  unfold recorded
  split <;> rfl

theorem invocations_append (l₁ l₂ : List Event) :
    invocations (l₁ ++ l₂) = invocations l₁ ++ invocations l₂ := by
  simp [invocations, List.filterMap_append]

theorem invocations_call (fn arg : String) (l : List Event) :
    invocations (.call fn arg :: l) = (fn, arg) :: invocations l := rfl

theorem invocations_spanStart (name : String) (sc parent : SpanContext) (l : List Event) :
    invocations (.spanStart name sc parent :: l) = invocations l := rfl

theorem invocations_spanEnd (sc : SpanContext) (l : List Event) :
    invocations (.spanEnd sc :: l) = invocations l := rfl

theorem invocations_httpDo (q : HttpRequest) (l : List Event) :
    invocations (.httpDo q :: l) = invocations l := rfl

theorem invocations_respond (status : Nat) (l : List Event) :
    invocations (.respond status :: l) = invocations l := rfl

theorem invocations_nil : invocations [] = [] := rfl

theorem outboundCalls_call (fn arg : String) (l : List Event) :
    outboundCalls (.call fn arg :: l) = outboundCalls l := rfl

theorem outboundCalls_spanStart (name : String) (sc parent : SpanContext) (l : List Event) :
    outboundCalls (.spanStart name sc parent :: l) = outboundCalls l := rfl

theorem outboundCalls_cons_spanEnd (sc : SpanContext) (l : List Event) :
    outboundCalls (.spanEnd sc :: l) = outboundCalls l := rfl

theorem outboundCalls_httpDo (q : HttpRequest) (l : List Event) :
    outboundCalls (.httpDo q :: l) = q :: outboundCalls l := rfl

theorem outboundCalls_cons_respond (status : Nat) (l : List Event) :
    outboundCalls (.respond status :: l) = outboundCalls l := rfl

theorem outboundCalls_nil : outboundCalls [] = [] := rfl

theorem url_otelRoundTrip (w : World) (ctx : Context) (req : HttpRequest) (st : St) :
    (otelRoundTrip w ctx req st).1.url = req.url := rfl

theorem isRespond_call (fn arg : String) : (Event.call fn arg).isRespond = false := rfl

theorem isRespond_spanStart (name : String) (sc parent : SpanContext) :
    (Event.spanStart name sc parent).isRespond = false := rfl

theorem isRespond_spanEnd (sc : SpanContext) : (Event.spanEnd sc).isRespond = false := rfl

theorem isRespond_httpDo (q : HttpRequest) : (Event.httpDo q).isRespond = false := rfl

theorem isRespond_recordError (sc : SpanContext) (err : GoError) :
    (Event.recordError sc err).isRespond = false := rfl

namespace ServiceB

/-- The events of one `fetchCEPData`: it is entered once with its argument,
writes no response, and only requests the URL built from its argument. -/
theorem fetchCEPData_events (w : World) (ctx : Context) (cep : String) (st : St) :
    (fetchCEPData w ctx cep st).2.events =
        st.events ++ newEvents st (fetchCEPData w ctx cep st).2 ∧
      invocations (newEvents st (fetchCEPData w ctx cep st).2) = [("fetchCEPData", cep)] ∧
      (newEvents st (fetchCEPData w ctx cep st).2).all (fun e => !e.isRespond) = true ∧
      (outboundCalls (newEvents st (fetchCEPData w ctx cep st).2)).all
        (fun q => q.url == viaCEPURL cep) = true := by
  unfold newEvents fetchCEPData viaCEPURL
  by_cases hreq : newRequestFails w ("https://viacep.com.br/ws/" ++ cep ++ "/json/") = true
  · simp only [hreq, events_emit, events_recordError, events_tracerStart, events_otelRoundTrip,
      List.append_assoc, List.drop_left, invocations_append, invocations_recorded, invocations_call,
      invocations_spanStart, invocations_spanEnd, invocations_nil, invocations_httpDo,
      invocations_respond, outboundCalls_httpDo, url_otelRoundTrip, beq_self_eq_true,
      List.cons_append, List.nil_append, List.all_append, List.all_cons, List.all_nil,
      all_not_respond_recorded, isRespond_call, isRespond_spanStart, isRespond_spanEnd,
      isRespond_httpDo, isRespond_recordError, outboundCalls_append,
      outboundCalls_recorded, outboundCalls_call, outboundCalls_spanStart,
      outboundCalls_cons_spanEnd, outboundCalls_cons_respond, outboundCalls_nil, Bool.not_false,
      Bool.and_self, Bool.and_true, Bool.true_and, and_self, if_true, if_false, Bool.false_eq_true]
  · have hreq2 : newRequestFails w ("https://viacep.com.br/ws/" ++ cep ++ "/json/") = false := by
      simpa using hreq
    cases hv : w.viaCEP ("https://viacep.com.br/ws/" ++ cep ++ "/json/") with
    | doError => simp only [hreq2, hv, events_emit, events_recordError, events_tracerStart,
        events_otelRoundTrip, List.append_assoc, List.drop_left, invocations_append,
        invocations_recorded, invocations_call, invocations_spanStart, invocations_spanEnd,
        invocations_nil, invocations_httpDo, invocations_respond, outboundCalls_httpDo,
        url_otelRoundTrip, beq_self_eq_true, List.cons_append, List.nil_append, List.all_append,
        List.all_cons, List.all_nil, all_not_respond_recorded, isRespond_call, isRespond_spanStart,
        isRespond_spanEnd, isRespond_httpDo, isRespond_recordError, outboundCalls_append,
        outboundCalls_recorded, outboundCalls_call, outboundCalls_spanStart,
        outboundCalls_cons_spanEnd, outboundCalls_cons_respond, outboundCalls_nil, Bool.not_false,
        Bool.and_self, Bool.and_true, Bool.true_and, and_self, if_true, if_false,
        Bool.false_eq_true]
    | decodeError => simp only [hreq2, hv, events_emit, events_recordError, events_tracerStart,
        events_otelRoundTrip, List.append_assoc, List.drop_left, invocations_append,
        invocations_recorded, invocations_call, invocations_spanStart, invocations_spanEnd,
        invocations_nil, invocations_httpDo, invocations_respond, outboundCalls_httpDo,
        url_otelRoundTrip, beq_self_eq_true, List.cons_append, List.nil_append, List.all_append,
        List.all_cons, List.all_nil, all_not_respond_recorded, isRespond_call, isRespond_spanStart,
        isRespond_spanEnd, isRespond_httpDo, isRespond_recordError, outboundCalls_append,
        outboundCalls_recorded, outboundCalls_call, outboundCalls_spanStart,
        outboundCalls_cons_spanEnd, outboundCalls_cons_respond, outboundCalls_nil, Bool.not_false,
        Bool.and_self, Bool.and_true, Bool.true_and, and_self, if_true, if_false,
        Bool.false_eq_true]
    | decoded d =>
      by_cases he : d.Erro = true
      · simp only [hreq2, hv, he, events_emit, events_recordError, events_tracerStart,
          events_otelRoundTrip, List.append_assoc, List.drop_left, invocations_append,
          invocations_recorded, invocations_call, invocations_spanStart, invocations_spanEnd,
          invocations_nil, invocations_httpDo, invocations_respond, outboundCalls_httpDo,
          url_otelRoundTrip, beq_self_eq_true, List.cons_append, List.nil_append, List.all_append,
          List.all_cons, List.all_nil, all_not_respond_recorded, isRespond_call,
          isRespond_spanStart, isRespond_spanEnd, isRespond_httpDo, isRespond_recordError,
          outboundCalls_append, outboundCalls_recorded, outboundCalls_call,
          outboundCalls_spanStart, outboundCalls_cons_spanEnd, outboundCalls_cons_respond,
          outboundCalls_nil, Bool.not_false, Bool.and_self, Bool.and_true, Bool.true_and, and_self,
          if_true, if_false, Bool.false_eq_true]
      · have he2 : d.Erro = false := by simpa using he
        simp only [hreq2, hv, he2, events_emit, events_recordError, events_tracerStart,
            events_otelRoundTrip, List.append_assoc, List.drop_left, invocations_append,
            invocations_recorded, invocations_call, invocations_spanStart, invocations_spanEnd,
            invocations_nil, invocations_httpDo, invocations_respond, outboundCalls_httpDo,
            url_otelRoundTrip, beq_self_eq_true, List.cons_append, List.nil_append, List.all_append,
            List.all_cons, List.all_nil, all_not_respond_recorded, isRespond_call,
            isRespond_spanStart, isRespond_spanEnd, isRespond_httpDo, isRespond_recordError,
            outboundCalls_append, outboundCalls_recorded, outboundCalls_call,
            outboundCalls_spanStart, outboundCalls_cons_spanEnd, outboundCalls_cons_respond,
            outboundCalls_nil, Bool.not_false, Bool.and_self, Bool.and_true, Bool.true_and,
            and_self, if_true, if_false, Bool.false_eq_true]

/-- The events of one `fetchWeatherData`: it is entered once with its argument,
writes no response, only requests the URL built from its argument, and requests
nothing without a credential. -/
theorem fetchWeatherData_events (w : World) (ctx : Context) (city : String) (st : St) :
    (fetchWeatherData w ctx city st).2.events =
        st.events ++ newEvents st (fetchWeatherData w ctx city st).2 ∧
      invocations (newEvents st (fetchWeatherData w ctx city st).2) =
        [("fetchWeatherData", city)] ∧
      (newEvents st (fetchWeatherData w ctx city st).2).all (fun e => !e.isRespond) = true ∧
      (outboundCalls (newEvents st (fetchWeatherData w ctx city st).2)).all
        (fun q => q.url == weatherURL w city) = true := by
  unfold newEvents fetchWeatherData weatherURL
  by_cases hkey : (osGetenv w "WEATHER_API_KEY" == "") = true
  · simp only [hkey, events_emit, events_recordError, events_tracerStart, events_otelRoundTrip,
      List.append_assoc, List.drop_left, invocations_append, invocations_recorded, invocations_call,
      invocations_spanStart, invocations_spanEnd, invocations_nil, invocations_httpDo,
      invocations_respond, outboundCalls_httpDo, url_otelRoundTrip, beq_self_eq_true,
      List.cons_append, List.nil_append, List.all_append, List.all_cons, List.all_nil,
      all_not_respond_recorded, isRespond_call, isRespond_spanStart, isRespond_spanEnd,
      isRespond_httpDo, isRespond_recordError, outboundCalls_append,
      outboundCalls_recorded, outboundCalls_call, outboundCalls_spanStart,
      outboundCalls_cons_spanEnd, outboundCalls_cons_respond, outboundCalls_nil, Bool.not_false,
      Bool.and_self, Bool.and_true, Bool.true_and, and_self, if_true, if_false, Bool.false_eq_true]
  · have hkey2 : (osGetenv w "WEATHER_API_KEY" == "") = false := by simpa using hkey
    by_cases hreq : newRequestFails w
        ("http://api.weatherapi.com/v1/current.json?key=" ++ osGetenv w "WEATHER_API_KEY" ++
          "&q=" ++ w.queryEscape city) = true
    · simp only [hkey2, hreq, events_emit, events_recordError, events_tracerStart,
        events_otelRoundTrip, List.append_assoc, List.drop_left, invocations_append,
        invocations_recorded, invocations_call, invocations_spanStart, invocations_spanEnd,
        invocations_nil, invocations_httpDo, invocations_respond, outboundCalls_httpDo,
        url_otelRoundTrip, beq_self_eq_true, List.cons_append, List.nil_append, List.all_append,
        List.all_cons, List.all_nil, all_not_respond_recorded, isRespond_call, isRespond_spanStart,
        isRespond_spanEnd, isRespond_httpDo, isRespond_recordError, outboundCalls_append,
        outboundCalls_recorded, outboundCalls_call, outboundCalls_spanStart,
        outboundCalls_cons_spanEnd, outboundCalls_cons_respond, outboundCalls_nil, Bool.not_false,
        Bool.and_self, Bool.and_true, Bool.true_and, and_self, if_true, if_false,
        Bool.false_eq_true]
    · have hreq2 : newRequestFails w
          ("http://api.weatherapi.com/v1/current.json?key=" ++ osGetenv w "WEATHER_API_KEY" ++
            "&q=" ++ w.queryEscape city) = false := by simpa using hreq
      cases hv : w.weatherAPI
          ("http://api.weatherapi.com/v1/current.json?key=" ++ osGetenv w "WEATHER_API_KEY" ++
            "&q=" ++ w.queryEscape city) with
      | doError => simp only [hkey2, hreq2, hv, events_emit, events_recordError, events_tracerStart,
          events_otelRoundTrip, List.append_assoc, List.drop_left, invocations_append,
          invocations_recorded, invocations_call, invocations_spanStart, invocations_spanEnd,
          invocations_nil, invocations_httpDo, invocations_respond, outboundCalls_httpDo,
          url_otelRoundTrip, beq_self_eq_true, List.cons_append, List.nil_append, List.all_append,
          List.all_cons, List.all_nil, all_not_respond_recorded, isRespond_call,
          isRespond_spanStart, isRespond_spanEnd, isRespond_httpDo, isRespond_recordError,
          outboundCalls_append, outboundCalls_recorded, outboundCalls_call,
          outboundCalls_spanStart, outboundCalls_cons_spanEnd, outboundCalls_cons_respond,
          outboundCalls_nil, Bool.not_false, Bool.and_self, Bool.and_true, Bool.true_and, and_self,
          if_true, if_false, Bool.false_eq_true]
      | decodeError => simp only [hkey2, hreq2, hv, events_emit, events_recordError,
          events_tracerStart, events_otelRoundTrip, List.append_assoc, List.drop_left,
          invocations_append, invocations_recorded, invocations_call, invocations_spanStart,
          invocations_spanEnd, invocations_nil, invocations_httpDo, invocations_respond,
          outboundCalls_httpDo, url_otelRoundTrip, beq_self_eq_true, List.cons_append,
          List.nil_append, List.all_append, List.all_cons, List.all_nil, all_not_respond_recorded,
          isRespond_call, isRespond_spanStart, isRespond_spanEnd, isRespond_httpDo,
          isRespond_recordError, outboundCalls_append, outboundCalls_recorded,
          outboundCalls_call, outboundCalls_spanStart, outboundCalls_cons_spanEnd,
          outboundCalls_cons_respond, outboundCalls_nil, Bool.not_false, Bool.and_self,
          Bool.and_true, Bool.true_and, and_self, if_true, if_false, Bool.false_eq_true]
      | decoded d => simp only [hkey2, hreq2, hv, events_emit, events_recordError,
          events_tracerStart, events_otelRoundTrip, List.append_assoc, List.drop_left,
          invocations_append, invocations_recorded, invocations_call, invocations_spanStart,
          invocations_spanEnd, invocations_nil, invocations_httpDo, invocations_respond,
          outboundCalls_httpDo, url_otelRoundTrip, beq_self_eq_true, List.cons_append,
          List.nil_append, List.all_append, List.all_cons, List.all_nil, all_not_respond_recorded,
          isRespond_call, isRespond_spanStart, isRespond_spanEnd, isRespond_httpDo,
          isRespond_recordError, outboundCalls_append, outboundCalls_recorded,
          outboundCalls_call, outboundCalls_spanStart, outboundCalls_cons_spanEnd,
          outboundCalls_cons_respond, outboundCalls_nil, Bool.not_false, Bool.and_self,
          Bool.and_true, Bool.true_and, and_self, if_true, if_false, Bool.false_eq_true]

theorem fetchCEPData_events_eq (w : World) (ctx : Context) (cep : String) (st : St) :
    (fetchCEPData w ctx cep st).2.events =
      st.events ++ newEvents st (fetchCEPData w ctx cep st).2 :=
  (fetchCEPData_events w ctx cep st).1

theorem fetchCEPData_invocations (w : World) (ctx : Context) (cep : String) (st : St) :
    invocations (newEvents st (fetchCEPData w ctx cep st).2) = [("fetchCEPData", cep)] :=
  (fetchCEPData_events w ctx cep st).2.1

theorem fetchCEPData_no_respond (w : World) (ctx : Context) (cep : String) (st : St) :
    (newEvents st (fetchCEPData w ctx cep st).2).all (fun e => !e.isRespond) = true :=
  (fetchCEPData_events w ctx cep st).2.2.1

theorem fetchWeatherData_events_eq (w : World) (ctx : Context) (city : String) (st : St) :
    (fetchWeatherData w ctx city st).2.events =
      st.events ++ newEvents st (fetchWeatherData w ctx city st).2 :=
  (fetchWeatherData_events w ctx city st).1

theorem fetchWeatherData_invocations (w : World) (ctx : Context) (city : String) (st : St) :
    invocations (newEvents st (fetchWeatherData w ctx city st).2) =
      [("fetchWeatherData", city)] :=
  (fetchWeatherData_events w ctx city st).2.1

theorem fetchWeatherData_no_respond (w : World) (ctx : Context) (city : String) (st : St) :
    (newEvents st (fetchWeatherData w ctx city st).2).all (fun e => !e.isRespond) = true :=
  (fetchWeatherData_events w ctx city st).2.2.1

theorem handleWeather_invocations (w : World) (r : Request) (n : Nat) :
    invocations (handleWeather w r (St.init n)).2.events = specInvocations w r := by
  unfold handleWeather specInvocations
  by_cases hm : (r.method != "POST") = true
  · simp only [hm, events_init, events_emit, events_recordError, events_tracerStart,
      events_otelRoundTrip, List.append_assoc, List.drop_left, invocations_append,
      invocations_recorded, invocations_call, invocations_spanStart, invocations_spanEnd,
      invocations_nil, invocations_httpDo, invocations_respond, outboundCalls_httpDo,
      url_otelRoundTrip, beq_self_eq_true, List.cons_append, List.nil_append, List.all_append,
      List.all_cons, List.all_nil, all_not_respond_recorded, isRespond_call, isRespond_spanStart,
      isRespond_spanEnd, isRespond_httpDo, isRespond_recordError, outboundCalls_append,
      outboundCalls_recorded, outboundCalls_call, outboundCalls_spanStart,
      outboundCalls_cons_spanEnd, outboundCalls_cons_respond, outboundCalls_nil, Bool.not_false,
      Bool.and_self, Bool.and_true, Bool.true_and, and_self, if_true, if_false, Bool.false_eq_true]
  · have hm2 : (r.method != "POST") = false := by simpa using hm
    cases hb : r.body with
    | none => simp only [hm2, events_init, events_emit, events_recordError, events_tracerStart,
        events_otelRoundTrip, List.append_assoc, List.drop_left, invocations_append,
        invocations_recorded, invocations_call, invocations_spanStart, invocations_spanEnd,
        invocations_nil, invocations_httpDo, invocations_respond, outboundCalls_httpDo,
        url_otelRoundTrip, beq_self_eq_true, List.cons_append, List.nil_append, List.all_append,
        List.all_cons, List.all_nil, all_not_respond_recorded, isRespond_call, isRespond_spanStart,
        isRespond_spanEnd, isRespond_httpDo, isRespond_recordError, outboundCalls_append,
        outboundCalls_recorded, outboundCalls_call, outboundCalls_spanStart,
        outboundCalls_cons_spanEnd, outboundCalls_cons_respond, outboundCalls_nil, Bool.not_false,
        Bool.and_self, Bool.and_true, Bool.true_and, and_self, if_true, if_false,
        Bool.false_eq_true]
    | some req =>
      by_cases hv : validateCEP req.CEP = true
      · simp only [hm2, hv, Bool.not_true, Bool.false_eq_true, if_false]
        split
        · rename_i err herr
          rw [toOption_error herr (fetchCEPData_toOption _ _ _ _)]
          simp only [events_init, fetchCEPData_events_eq, fetchCEPData_invocations, events_emit,
              events_recordError, events_tracerStart, events_otelRoundTrip, List.append_assoc,
              List.drop_left, invocations_append, invocations_recorded, invocations_call,
              invocations_spanStart, invocations_spanEnd, invocations_nil, invocations_httpDo,
              invocations_respond, outboundCalls_httpDo, url_otelRoundTrip, beq_self_eq_true,
              List.cons_append, List.nil_append, List.all_append, List.all_cons, List.all_nil,
              all_not_respond_recorded, isRespond_call, isRespond_spanStart, isRespond_spanEnd,
              isRespond_httpDo, isRespond_recordError, outboundCalls_append,
              outboundCalls_recorded, outboundCalls_call, outboundCalls_spanStart,
              outboundCalls_cons_spanEnd, outboundCalls_cons_respond, outboundCalls_nil,
              Bool.not_false, Bool.and_self, Bool.and_true, Bool.true_and, and_self, if_true,
              if_false, Bool.false_eq_true]
        · rename_i cepData hok
          rw [toOption_ok hok (fetchCEPData_toOption _ _ _ _)]
          simp only []
          split
          · simp only [events_init, fetchCEPData_events_eq, fetchCEPData_invocations,
              fetchWeatherData_events_eq, fetchWeatherData_invocations, events_emit,
              events_recordError, events_tracerStart, events_otelRoundTrip, List.append_assoc,
              List.drop_left, invocations_append, invocations_recorded, invocations_call,
              invocations_spanStart, invocations_spanEnd, invocations_nil, invocations_httpDo,
              invocations_respond, outboundCalls_httpDo, url_otelRoundTrip, beq_self_eq_true,
              List.cons_append, List.nil_append, List.all_append, List.all_cons, List.all_nil,
              all_not_respond_recorded, isRespond_call, isRespond_spanStart, isRespond_spanEnd,
              isRespond_httpDo, isRespond_recordError, outboundCalls_append,
              outboundCalls_recorded, outboundCalls_call, outboundCalls_spanStart,
              outboundCalls_cons_spanEnd, outboundCalls_cons_respond, outboundCalls_nil,
              Bool.not_false, Bool.and_self, Bool.and_true, Bool.true_and, and_self, if_true,
              if_false, Bool.false_eq_true]
          · simp only [events_init, fetchCEPData_events_eq, fetchCEPData_invocations,
              fetchWeatherData_events_eq, fetchWeatherData_invocations, events_emit,
              events_recordError, events_tracerStart, events_otelRoundTrip, List.append_assoc,
              List.drop_left, invocations_append, invocations_recorded, invocations_call,
              invocations_spanStart, invocations_spanEnd, invocations_nil, invocations_httpDo,
              invocations_respond, outboundCalls_httpDo, url_otelRoundTrip, beq_self_eq_true,
              List.cons_append, List.nil_append, List.all_append, List.all_cons, List.all_nil,
              all_not_respond_recorded, isRespond_call, isRespond_spanStart, isRespond_spanEnd,
              isRespond_httpDo, isRespond_recordError, outboundCalls_append,
              outboundCalls_recorded, outboundCalls_call, outboundCalls_spanStart,
              outboundCalls_cons_spanEnd, outboundCalls_cons_respond, outboundCalls_nil,
              Bool.not_false, Bool.and_self, Bool.and_true, Bool.true_and, and_self, if_true,
              if_false, Bool.false_eq_true]
      · have hv2 : validateCEP req.CEP = false := by simpa using hv
        simp only [hm2, hv2, events_init, events_emit, events_recordError, events_tracerStart,
            events_otelRoundTrip, List.append_assoc, List.drop_left, invocations_append,
            invocations_recorded, invocations_call, invocations_spanStart, invocations_spanEnd,
            invocations_nil, invocations_httpDo, invocations_respond, outboundCalls_httpDo,
            url_otelRoundTrip, beq_self_eq_true, List.cons_append, List.nil_append, List.all_append,
            List.all_cons, List.all_nil, all_not_respond_recorded, isRespond_call,
            isRespond_spanStart, isRespond_spanEnd, isRespond_httpDo, isRespond_recordError,
            outboundCalls_append, outboundCalls_recorded, outboundCalls_call,
            outboundCalls_spanStart, outboundCalls_cons_spanEnd, outboundCalls_cons_respond,
            outboundCalls_nil, Bool.not_false, Bool.and_self, Bool.and_true, Bool.true_and,
            and_self, if_true, if_false, Bool.false_eq_true]

theorem fetchCEPData_url (w : World) (ctx : Context) (cep : String) (st : St) (q : HttpRequest)
    (hq : q ∈ outboundCalls (newEvents st (fetchCEPData w ctx cep st).2)) :
    q.url = viaCEPURL cep := by
  have h := List.all_eq_true.mp (fetchCEPData_events w ctx cep st).2.2.2 q hq
  simpa using h

theorem fetchWeatherData_url (w : World) (ctx : Context) (city : String) (st : St)
    (q : HttpRequest)
    (hq : q ∈ outboundCalls (newEvents st (fetchWeatherData w ctx city st).2)) :
    q.url = weatherURL w city := by
  have h := List.all_eq_true.mp (fetchWeatherData_events w ctx city st).2.2.2 q hq
  simpa using h

/-- Every request that `handleWeather` puts on the wire goes to the directory
URL of the validated code, or to the weather URL of the locality of the
record found for it. -/
theorem handleWeather_outbound (w : World) (r : Request) (n : Nat) (q : HttpRequest)
    (hq : q ∈ outboundCalls (handleWeather w r (St.init n)).2.events) :
    ∃ req, r.body = some req ∧ validateCEP req.CEP = true ∧
      (q.url = viaCEPURL req.CEP ∨
        ∃ d, directoryRecord w req.CEP = some d ∧ q.url = weatherURL w d.Localidade) := by
  unfold handleWeather at hq
  by_cases hm : (r.method != "POST") = true
  · simp only [hm, events_init, events_emit, events_recordError, events_tracerStart,
      events_otelRoundTrip, List.append_assoc, List.drop_left, invocations_append,
      invocations_recorded, invocations_call, invocations_spanStart, invocations_spanEnd,
      invocations_nil, invocations_httpDo, invocations_respond, outboundCalls_httpDo,
      url_otelRoundTrip, beq_self_eq_true, List.cons_append, List.nil_append, List.all_append,
      List.all_cons, List.all_nil, all_not_respond_recorded, isRespond_call, isRespond_spanStart,
      isRespond_spanEnd, isRespond_httpDo, isRespond_recordError, outboundCalls_append,
      outboundCalls_recorded, outboundCalls_call, outboundCalls_spanStart,
      outboundCalls_cons_spanEnd, outboundCalls_cons_respond, outboundCalls_nil, Bool.not_false,
      Bool.and_self, Bool.and_true, Bool.true_and, and_self, if_true, if_false,
      Bool.false_eq_true] at hq
    cases hq
  · have hm2 : (r.method != "POST") = false := by simpa using hm
    cases hb : r.body with
    | none =>
      simp only [hm2, hb, events_init, events_emit, events_recordError, events_tracerStart,
          events_otelRoundTrip, List.append_assoc, List.drop_left, invocations_append,
          invocations_recorded, invocations_call, invocations_spanStart, invocations_spanEnd,
          invocations_nil, invocations_httpDo, invocations_respond, outboundCalls_httpDo,
          url_otelRoundTrip, beq_self_eq_true, List.cons_append, List.nil_append, List.all_append,
          List.all_cons, List.all_nil, all_not_respond_recorded, isRespond_call,
          isRespond_spanStart, isRespond_spanEnd, isRespond_httpDo, isRespond_recordError,
          outboundCalls_append, outboundCalls_recorded, outboundCalls_call,
          outboundCalls_spanStart, outboundCalls_cons_spanEnd, outboundCalls_cons_respond,
          outboundCalls_nil, Bool.not_false, Bool.and_self, Bool.and_true, Bool.true_and, and_self,
          if_true, if_false, Bool.false_eq_true] at hq
      cases hq
    | some req =>
      by_cases hv : validateCEP req.CEP = true
      · simp only [hm2, hb, hv, Bool.not_true, Bool.false_eq_true, if_false] at hq
        refine ⟨req, rfl, hv, ?_⟩
        split at hq
        · simp only [events_init, fetchCEPData_events_eq, List.append_nil, events_emit,
            events_recordError, events_tracerStart, events_otelRoundTrip, List.append_assoc,
            List.drop_left, invocations_append, invocations_recorded, invocations_call,
            invocations_spanStart, invocations_spanEnd, invocations_nil, invocations_httpDo,
            invocations_respond, outboundCalls_httpDo, url_otelRoundTrip, beq_self_eq_true,
            List.cons_append, List.nil_append, List.all_append, List.all_cons, List.all_nil,
            all_not_respond_recorded, isRespond_call, isRespond_spanStart, isRespond_spanEnd,
            isRespond_httpDo, isRespond_recordError, outboundCalls_append,
            outboundCalls_recorded, outboundCalls_call, outboundCalls_spanStart,
            outboundCalls_cons_spanEnd, outboundCalls_cons_respond, outboundCalls_nil,
            Bool.not_false, Bool.and_self, Bool.and_true, Bool.true_and, and_self, if_true,
            if_false, Bool.false_eq_true] at hq
          exact Or.inl (fetchCEPData_url _ _ _ _ q hq)
        · rename_i cepData hok
          have hd := toOption_ok hok (fetchCEPData_toOption _ _ _ _)
          split at hq
          · simp only [events_init, fetchCEPData_events_eq, fetchWeatherData_events_eq,
              List.mem_append, List.append_nil, events_emit, events_recordError, events_tracerStart,
              events_otelRoundTrip, List.append_assoc, List.drop_left, invocations_append,
              invocations_recorded, invocations_call, invocations_spanStart, invocations_spanEnd,
              invocations_nil, invocations_httpDo, invocations_respond, outboundCalls_httpDo,
              url_otelRoundTrip, beq_self_eq_true, List.cons_append, List.nil_append,
              List.all_append, List.all_cons, List.all_nil, all_not_respond_recorded,
              isRespond_call, isRespond_spanStart, isRespond_spanEnd, isRespond_httpDo,
              isRespond_recordError, outboundCalls_append, outboundCalls_recorded,
              outboundCalls_call, outboundCalls_spanStart, outboundCalls_cons_spanEnd,
              outboundCalls_cons_respond, outboundCalls_nil, Bool.not_false, Bool.and_self,
              Bool.and_true, Bool.true_and, and_self, if_true, if_false, Bool.false_eq_true] at hq
            rcases hq with hq | hq
            · exact Or.inl (fetchCEPData_url _ _ _ _ q hq)
            · exact Or.inr ⟨cepData, hd, fetchWeatherData_url _ _ _ _ q hq⟩
          · simp only [events_init, fetchCEPData_events_eq, fetchWeatherData_events_eq,
              List.mem_append, List.append_nil, events_emit, events_recordError, events_tracerStart,
              events_otelRoundTrip, List.append_assoc, List.drop_left, invocations_append,
              invocations_recorded, invocations_call, invocations_spanStart, invocations_spanEnd,
              invocations_nil, invocations_httpDo, invocations_respond, outboundCalls_httpDo,
              url_otelRoundTrip, beq_self_eq_true, List.cons_append, List.nil_append,
              List.all_append, List.all_cons, List.all_nil, all_not_respond_recorded,
              isRespond_call, isRespond_spanStart, isRespond_spanEnd, isRespond_httpDo,
              isRespond_recordError, outboundCalls_append, outboundCalls_recorded,
              outboundCalls_call, outboundCalls_spanStart, outboundCalls_cons_spanEnd,
              outboundCalls_cons_respond, outboundCalls_nil, Bool.not_false, Bool.and_self,
              Bool.and_true, Bool.true_and, and_self, if_true, if_false, Bool.false_eq_true] at hq
            rcases hq with hq | hq
            · exact Or.inl (fetchCEPData_url _ _ _ _ q hq)
            · exact Or.inr ⟨cepData, hd, fetchWeatherData_url _ _ _ _ q hq⟩
      · have hv2 : validateCEP req.CEP = false := by simpa using hv
        simp only [hm2, hb, hv2, events_init, events_emit, events_recordError, events_tracerStart,
            events_otelRoundTrip, List.append_assoc, List.drop_left, invocations_append,
            invocations_recorded, invocations_call, invocations_spanStart, invocations_spanEnd,
            invocations_nil, invocations_httpDo, invocations_respond, outboundCalls_httpDo,
            url_otelRoundTrip, beq_self_eq_true, List.cons_append, List.nil_append, List.all_append,
            List.all_cons, List.all_nil, all_not_respond_recorded, isRespond_call,
            isRespond_spanStart, isRespond_spanEnd, isRespond_httpDo, isRespond_recordError,
            outboundCalls_append, outboundCalls_recorded, outboundCalls_call,
            outboundCalls_spanStart, outboundCalls_cons_spanEnd, outboundCalls_cons_respond,
            outboundCalls_nil, Bool.not_false, Bool.and_self, Bool.and_true, Bool.true_and,
            and_self, if_true, if_false, Bool.false_eq_true] at hq
        cases hq

/-- The response of a run in which every step succeeds. -/
theorem handleWeather_success (w : World) (r : Request) (st : St) (req : CEPRequest)
    (d : ViaCEPResponse) (t : WeatherAPIResponse)
    (hm : r.method = "POST") (hb : r.body = some req) (hv : validateCEP req.CEP = true)
    (hd : directoryRecord w req.CEP = some d) (ht : weatherReading w d.Localidade = some t) :
    (handleWeather w r st).1 =
      { status := 200, contentType := "application/json",
        body := .weather
          { City := d.Localidade
            TempC := parseFloat t.Current.TempC 1
            TempF := parseFloat (celsiusToFahrenheit w t.Current.TempC) 1
            TempK := parseFloat (celsiusToKelvin t.Current.TempC) 1 },
        written :=
          if WeatherResponse.encodable
              { City := d.Localidade
                TempC := parseFloat t.Current.TempC 1
                TempF := parseFloat (celsiusToFahrenheit w t.Current.TempC) 1
                TempK := parseFloat (celsiusToKelvin t.Current.TempC) 1 }
          then .full else .headOnly } := by
  have hm2 : (r.method != "POST") = false := by simp [hm]
  unfold handleWeather
  simp only [hm2, hb, hv, Bool.not_true, Bool.false_eq_true, if_false]
  split
  · rename_i err herr
    have h := toOption_error herr (fetchCEPData_toOption _ _ _ _)
    rw [hd] at h
    cases h
  · rename_i cepData hok
    have h := toOption_ok hok (fetchCEPData_toOption _ _ _ _)
    rw [hd] at h
    cases h
    split
    · rename_i err herr
      have h := toOption_error herr (fetchWeatherData_toOption _ _ _ _)
      rw [ht] at h
      cases h
    · rename_i wd hwd
      have h := toOption_ok hwd (fetchWeatherData_toOption _ _ _ _)
      rw [ht] at h
      cases h
      rfl

/-- C10: in `handleWeather` the directory lookup is only entered with a code that
passes `validateCEP`, so with exactly 8 ASCII digits, and every outbound request
carries such a code or the locality of the record found for it; the weather
lookup is only entered once the directory lookup has succeeded, and then with
exactly the locality of the returned record, which is also the city of the 200
response. -/
theorem handleWeather_collaborators (w : World) (r : Request) (n : Nat) :
    (∀ cep, ("fetchCEPData", cep) ∈ invocations (handleWeather w r (St.init n)).2.events →
      validateCEP cep = true ∧ cep.length = 8 ∧ ∀ c ∈ cep.data, '0' ≤ c ∧ c ≤ '9') ∧
    (∀ q, q ∈ outboundCalls (handleWeather w r (St.init n)).2.events →
      ∃ req, r.body = some req ∧ validateCEP req.CEP = true ∧
        (q.url = viaCEPURL req.CEP ∨
          ∃ d, directoryRecord w req.CEP = some d ∧ q.url = weatherURL w d.Localidade)) ∧
    (∀ city, ("fetchWeatherData", city) ∈ invocations (handleWeather w r (St.init n)).2.events →
      ∃ req d, r.body = some req ∧ directoryRecord w req.CEP = some d ∧
        city = d.Localidade) ∧
    (∀ req d, r.method = "POST" → r.body = some req → validateCEP req.CEP = true →
      directoryRecord w req.CEP = some d →
      invocations (handleWeather w r (St.init n)).2.events =
        [("fetchCEPData", req.CEP), ("fetchWeatherData", d.Localidade)]) ∧
    ((handleWeather w r (St.init n)).1.status = 200 →
      ∃ req d wr, r.body = some req ∧ directoryRecord w req.CEP = some d ∧
        ("fetchWeatherData", d.Localidade) ∈
          invocations (handleWeather w r (St.init n)).2.events ∧
        (handleWeather w r (St.init n)).1.body = .weather wr ∧ wr.City = d.Localidade) := by
  have hinv := handleWeather_invocations w r n
  refine ⟨?_, handleWeather_outbound w r n, ?_, ?_, ?_⟩
  · intro cep hcep
    rw [hinv] at hcep
    unfold specInvocations at hcep
    have key : validateCEP cep = true := by
      by_cases hm : (r.method != "POST") = true
      · simp [hm] at hcep
      · cases hb : r.body with
        | none => simp [hm, hb] at hcep
        | some req =>
          by_cases hv : validateCEP req.CEP = true
          · cases hd : directoryRecord w req.CEP with
            | none =>
              simp [hm, hb, hv, hd] at hcep
              rw [hcep]; exact hv
            | some d =>
              simp [hm, hb, hv, hd] at hcep
              rw [hcep]; exact hv
          · simp [hm, hb, hv] at hcep
    exact ⟨key, (validate_iff_aux cep).mp key⟩
  · intro city hcity
    rw [hinv] at hcity
    unfold specInvocations at hcity
    by_cases hm : (r.method != "POST") = true
    · simp [hm] at hcity
    · cases hb : r.body with
      | none => simp [hm, hb] at hcity
      | some req =>
        by_cases hv : validateCEP req.CEP = true
        · cases hd : directoryRecord w req.CEP with
          | none => simp [hm, hb, hv, hd] at hcity
          | some d =>
            simp [hm, hb, hv, hd] at hcity
            exact ⟨req, d, rfl, hd, hcity⟩
        · simp [hm, hb, hv] at hcity
  · intro req d hm hb hv hd
    rw [hinv]
    simp [specInvocations, hm, hb, hv, hd]
  · intro h200
    rw [handleWeather_status_200 w r (St.init n)] at h200
    obtain ⟨hm, req, hb, hv, d, hd, t, ht⟩ := h200
    refine ⟨req, d,
      { City := d.Localidade
        TempC := parseFloat t.Current.TempC 1
        TempF := parseFloat (celsiusToFahrenheit w t.Current.TempC) 1
        TempK := parseFloat (celsiusToKelvin t.Current.TempC) 1 }, hb, hd, ?_, ?_, rfl⟩
    · rw [hinv]
      simp [specInvocations, hm, hb, hv, hd]
    · rw [handleWeather_success w r (St.init n) req d t hm hb hv hd ht]

/-- Witness for C10: the run of `postRequest` in `okWorld` enters the directory
lookup with "01310100" and the weather lookup with the locality of the record,
and answers 200 with that locality as city. -/
theorem handleWeather_collaborators_witness :
    (validateCEP "01310100" = true ∧ "01310100".length = 8 ∧
      ∀ c ∈ "01310100".data, '0' ≤ c ∧ c ≤ '9') ∧
    invocations (handleWeather okWorld postRequest (St.init 0)).2.events =
      [("fetchCEPData", "01310100"), ("fetchWeatherData", paulista.Localidade)] ∧
    ∃ req d wr, postRequest.body = some req ∧ directoryRecord okWorld req.CEP = some d ∧
      ("fetchWeatherData", d.Localidade) ∈
        invocations (handleWeather okWorld postRequest (St.init 0)).2.events ∧
      (handleWeather okWorld postRequest (St.init 0)).1.body = .weather wr ∧
      wr.City = d.Localidade :=
  ⟨(handleWeather_collaborators okWorld postRequest 0).1 "01310100" (by decide),
    (handleWeather_collaborators okWorld postRequest 0).2.2.2.1 { CEP := "01310100" } paulista
      rfl rfl (by decide) (by decide),
    (handleWeather_collaborators okWorld postRequest 0).2.2.2.2 (by decide)⟩

end ServiceB

/-! ## Temperatures -/

namespace ServiceB

theorem parseFloat_eq (value : Float64) (precision : Nat) :
    parseFloat value precision = strconvParseFloat (sprintf1f value) := rfl

/-- The temperatures of a 200 response, from the reading of the weather
lookup. -/
theorem handleWeather_temperatures (w : World) (r : Request) (st : St)
    (h200 : (handleWeather w r st).1.status = 200) :
    ∃ c, celsiusReading w r = some c ∧
      (handleWeather w r st).1.tempC = some (parseFloat c 1) ∧
      (handleWeather w r st).1.tempF = some (parseFloat (celsiusToFahrenheit w c) 1) ∧
      (handleWeather w r st).1.tempK = some (parseFloat (celsiusToKelvin c) 1) := by
  rw [handleWeather_status_200 w r st] at h200
  obtain ⟨hm, req, hb, hv, d, hd, t, ht⟩ := h200
  refine ⟨t.Current.TempC, ?_, ?_, ?_, ?_⟩
  · simp [celsiusReading, hb, hd, ht]
  · rw [handleWeather_success w r st req d t hm hb hv hd ht]; rfl
  · rw [handleWeather_success w r st req d t hm hb hv hd ht]; rfl
  · rw [handleWeather_success w r st req d t hm hb hv hd ht]; rfl

set_option maxRecDepth 100000 in
set_option exponentiation.threshold 5000 in
/-- The constants of the conversions, as float64 values. -/
theorem conversion_constants :
    Float64.ofInt 18 10 = .fin (Int.ofNat (8106479329266893 * 2 ^ 1022)) ∧
      Float64.ofInt 32 1 = .fin (Int.ofNat (32 * 2 ^ 1074)) ∧
      Float64.ofInt 27315 100 = .fin (Int.ofNat (2402652809016115 * 2 ^ 1031)) := by
  decide

set_option maxRecDepth 100000 in
set_option exponentiation.threshold 5000 in
/-- The three temperatures for the reading 25.0, fused or not. -/
theorem temperatures_at_25 :
    parseFloat (.fin (Int.ofNat (25 * 2 ^ 1074))) 1 = .fin (Int.ofNat (25 * 2 ^ 1074)) ∧
      parseFloat ((Float64.fin (Int.ofNat (25 * 2 ^ 1074))).fma (Float64.ofInt 18 10)
        (Float64.ofInt 32 1)) 1 = .fin (Int.ofNat (77 * 2 ^ 1074)) ∧
      parseFloat (((Float64.fin (Int.ofNat (25 * 2 ^ 1074))).mul (Float64.ofInt 18 10)).add
        (Float64.ofInt 32 1)) 1 = .fin (Int.ofNat (77 * 2 ^ 1074)) ∧
      (Float64.fin (Int.ofNat (25 * 2 ^ 1074))).add (Float64.ofInt 27315 100) =
        .fin (Int.ofNat (2622555134571315 * 2 ^ 1031)) ∧
      Float64.ofInt 29815 100 = .fin (Int.ofNat (2622555134571315 * 2 ^ 1031)) ∧
      parseFloat (.fin (Int.ofNat (2622555134571315 * 2 ^ 1031))) 1 =
        .fin (Int.ofNat (2622115329920205 * 2 ^ 1031)) ∧
      Float64.ofRat false 2981 10 = .fin (Int.ofNat (2622115329920205 * 2 ^ 1031)) ∧
      formatFloat (Int.ofNat (25 * 2 ^ 1074)) = { neg := false, mant := 25, exp := 0 } ∧
      formatFloat (Int.ofNat (77 * 2 ^ 1074)) = { neg := false, mant := 77, exp := 0 } ∧
      formatFloat (Int.ofNat (2622115329920205 * 2 ^ 1031)) =
        { neg := false, mant := 2981, exp := -1 } := by
  decide

set_option maxRecDepth 100000 in
set_option exponentiation.threshold 5000 in
/-- C4, as stated, fails: the reading 1e308, a finite float64 that the weather
lookup can return, gets a 200 response that carries no temperature at all:
`C*1.8 + 32` overflows to `+Inf`, which the encoder cannot write, and the body
of the response is empty. -/
theorem overflowing_reading_empty_body :
    Float64.ofInt (10 ^ 308) 1 = .fin (Int.ofNat (156575653125701 * 2 ^ 2050)) ∧
    (handleWeather (weatherWorld false (Float64.ofInt (10 ^ 308) 1)) postRequest
      (St.init 0)).1.status = 200 ∧
    celsiusToFahrenheit (weatherWorld false (Float64.ofInt (10 ^ 308) 1))
      (Float64.ofInt (10 ^ 308) 1) = .inf false ∧
    (handleWeather (weatherWorld false (Float64.ofInt (10 ^ 308) 1)) postRequest
      (St.init 0)).1.written = .headOnly ∧
    (handleWeather (weatherWorld false (Float64.ofInt (10 ^ 308) 1)) postRequest
      (St.init 0)).1.json = none ∧
    (handleWeather (weatherWorld true (Float64.ofInt (10 ^ 308) 1)) postRequest
      (St.init 0)).1.written = .headOnly ∧
    (handleWeather (weatherWorld true (Float64.ofInt (10 ^ 308) 1)) postRequest
      (St.init 0)).1.json = none := by
  refine ⟨by decide, by decide, by decide, by decide, by rfl, by decide, by rfl⟩

/-- The body of a 200 response is written exactly when its three temperatures
are finite. -/
theorem written_iff_finite (x : WeatherResponse) :
    (if x.encodable then Written.full else Written.headOnly) = Written.full ↔
      x.TempC.isFinite = true ∧ x.TempF.isFinite = true ∧ x.TempK.isFinite = true := by
  unfold WeatherResponse.encodable
  cases x.TempC.isFinite <;> cases x.TempF.isFinite <;> cases x.TempK.isFinite <;> decide

/-- A finite value of `parseFloat` is a float64. -/
theorem parseFloat_fin (x : Float64) (c : Int) (h : parseFloat x 1 = .fin c) :
    OnGrid c.natAbs ∧ c.natAbs < 2 ^ 2098 := by
  cases x with
  | fin k =>
    have h2 : Float64.ofRat (decide (k < 0)) (roundHalfEven (k.natAbs * 10) (2 ^ 1074)) 10 =
        .fin c := h
    exact (ofRat_fin _ _ _ c (by decide) h2).2
  | inf s => cases h
  | nan => cases h

/-- A 200 response whose body was not written has no JSON text. -/
theorem json_unwritten (x : WeatherResponse)
    (h : (if x.encodable then Written.full else Written.headOnly) ≠ Written.full) :
    (if x.encodable then Written.full else Written.headOnly) = Written.headOnly ∧
      Response.json
        { status := 200, contentType := "application/json", body := .weather x,
          written := if x.encodable then .full else .headOnly } = none := by
  cases he : x.encodable with
  | true => rw [he] at h; exact absurd rfl h
  | false => exact ⟨rfl, rfl⟩

/-- The JSON text of a 200 response with finite temperatures. -/
theorem json_finite (city : String) (c f k : Int) :
    Response.json
      { status := 200, contentType := "application/json",
        body := .weather { City := city, TempC := .fin c, TempF := .fin f, TempK := .fin k },
        written :=
          if WeatherResponse.encodable
              { City := city, TempC := .fin c, TempF := .fin f, TempK := .fin k }
          then .full else .headOnly } =
      some (.obj [("city", .str city), ("temp_C", .num (formatFloat c)),
        ("temp_F", .num (formatFloat f)), ("temp_K", .num (formatFloat k))]) := rfl

/-- The struct that a 200 response is built from, and when its body is written:
exactly when the three temperatures are finite; otherwise the response has no
body. -/
theorem handleWeather_written (w : World) (r : Request) (st : St) (req : CEPRequest)
    (d : ViaCEPResponse) (t : WeatherAPIResponse)
    (hm : r.method = "POST") (hb : r.body = some req) (hv : validateCEP req.CEP = true)
    (hd : directoryRecord w req.CEP = some d) (ht : weatherReading w d.Localidade = some t) :
    (handleWeather w r st).1.body = .weather
        { City := d.Localidade
          TempC := parseFloat t.Current.TempC 1
          TempF := parseFloat (celsiusToFahrenheit w t.Current.TempC) 1
          TempK := parseFloat (celsiusToKelvin t.Current.TempC) 1 } ∧
      ((handleWeather w r st).1.written = .full ↔
        (parseFloat t.Current.TempC 1).isFinite = true ∧
        (parseFloat (celsiusToFahrenheit w t.Current.TempC) 1).isFinite = true ∧
        (parseFloat (celsiusToKelvin t.Current.TempC) 1).isFinite = true) ∧
      ((handleWeather w r st).1.written ≠ .full →
        (handleWeather w r st).1.written = .headOnly ∧
          (handleWeather w r st).1.json = none) := by
  have hresp := handleWeather_success w r st req d t hm hb hv hd ht
  refine ⟨?_, ?_, ?_⟩
  · rw [hresp]
  · rw [hresp]
    exact written_iff_finite _
  · rw [hresp]
    exact json_unwritten _

set_option exponentiation.threshold 5000 in
/-- C4, amended: for every Celsius reading `C` that the weather lookup returns
and for which `round(C)`, `round(C*1.8 + 32)` and `round(C + 273.15)` are finite
float64s (`C*1.8 + 32` does not overflow), the 200 response carries
`tempC = round(C)`, `tempF = round(C*1.8 + 32)` and `tempK = round(C + 273.15)`:
its body is written, and is the JSON text of `city` and of three decimals that
read back as exactly these float64s.  The arithmetic is that of `float64`: the
constants 1.8, 32 and 273.15 are the float64s nearest to them, each product and
sum is the exact one rounded to nearest, ties to even (`C*1.8 + 32` rounded once
where the target fuses it), which determines it, and `round` is the one
function `parseFloat`: the value is rounded to the nearest number of tenths,
half way to the even one, and the float64 nearest to that decimal is returned.
For `C = 25.0` the body is `city`, `temp_C` 25, `temp_F` 77 and `temp_K` 298.1,
which is the float64 298.15 rounded to one decimal. -/
theorem handleWeather_conversion (w : World) (r : Request) (st : St) (req : CEPRequest)
    (d : ViaCEPResponse) (t : WeatherAPIResponse)
    (hm : r.method = "POST") (hb : r.body = some req) (hv : validateCEP req.CEP = true)
    (hd : directoryRecord w req.CEP = some d) (ht : weatherReading w d.Localidade = some t) :
    (handleWeather w r st).1.status = 200 ∧
    (∀ c f k : Int,
      parseFloat t.Current.TempC 1 = .fin c →
      parseFloat
            (if w.fusedMulAdd then
              t.Current.TempC.fma (Float64.ofInt 18 10) (Float64.ofInt 32 1)
            else (t.Current.TempC.mul (Float64.ofInt 18 10)).add (Float64.ofInt 32 1)) 1 = .fin f →
      parseFloat (t.Current.TempC.add (Float64.ofInt 27315 100)) 1 = .fin k →
      (handleWeather w r st).1.body = .weather
          { City := d.Localidade, TempC := .fin c, TempF := .fin f, TempK := .fin k } ∧
        (handleWeather w r st).1.written = .full ∧
        (handleWeather w r st).1.json =
          some (.obj [("city", .str d.Localidade), ("temp_C", .num (formatFloat c)),
            ("temp_F", .num (formatFloat f)), ("temp_K", .num (formatFloat k))]) ∧
        (formatFloat c).toFloat64 = .fin c ∧ (formatFloat f).toFloat64 = .fin f ∧
        (formatFloat k).toFloat64 = .fin k) ∧
    (Float64.ofInt 18 10 = .fin (Int.ofNat (8106479329266893 * 2 ^ 1022)) ∧
      Float64.IsNearest false 18 10 (Float64.ofInt 18 10) ∧
      Float64.ofInt 32 1 = .fin (Int.ofNat (32 * 2 ^ 1074)) ∧
      Float64.ofInt 27315 100 = .fin (Int.ofNat (2402652809016115 * 2 ^ 1031)) ∧
      Float64.IsNearest false 27315 100 (Float64.ofInt 27315 100)) ∧
    ((∀ a b : Int,
        Float64.IsNearest (decide (a * b < 0)) (a * b).natAbs (2 ^ 2148)
          ((Float64.fin a).mul (.fin b))) ∧
      (∀ a b : Int,
        Float64.IsNearest (decide (a + b < 0)) (a + b).natAbs (2 ^ 1074)
          ((Float64.fin a).add (.fin b))) ∧
      (∀ a b c : Int,
        Float64.IsNearest (decide (a * b + c * Int.ofNat (2 ^ 1074) < 0))
          (a * b + c * Int.ofNat (2 ^ 1074)).natAbs (2 ^ 2148)
          ((Float64.fin a).fma (.fin b) (.fin c))) ∧
      (∀ (neg : Bool) (n d : Nat) (f g : Float64), 0 < d →
        Float64.IsNearest neg n d f → Float64.IsNearest neg n d g → f = g)) ∧
    (∀ k : Int, ∃ tenths,
      IsHalfEven (k.natAbs * 10) (2 ^ 1074) tenths ∧
        Float64.IsNearest (decide (k < 0)) tenths 10 (parseFloat (.fin k) 1)) ∧
    (t.Current.TempC = .fin (Int.ofNat (25 * 2 ^ 1074)) →
      (handleWeather w r st).1.body = .weather
          { City := d.Localidade
            TempC := .fin (Int.ofNat (25 * 2 ^ 1074))
            TempF := .fin (Int.ofNat (77 * 2 ^ 1074))
            TempK := .fin (Int.ofNat (2622115329920205 * 2 ^ 1031)) } ∧
        Float64.IsNearest false 2981 10 (.fin (Int.ofNat (2622115329920205 * 2 ^ 1031))) ∧
        Float64.IsNearest false 29815 100 (.fin (Int.ofNat (2622555134571315 * 2 ^ 1031))) ∧
        (Float64.fin (Int.ofNat (25 * 2 ^ 1074))).add (Float64.ofInt 27315 100) =
          .fin (Int.ofNat (2622555134571315 * 2 ^ 1031)) ∧
        parseFloat (.fin (Int.ofNat (2622555134571315 * 2 ^ 1031))) 1 =
          .fin (Int.ofNat (2622115329920205 * 2 ^ 1031)) ∧
        (handleWeather w r st).1.written = .full ∧
        (handleWeather w r st).1.json =
          some (.obj [("city", .str d.Localidade),
            ("temp_C", .num { neg := false, mant := 25, exp := 0 }),
            ("temp_F", .num { neg := false, mant := 77, exp := 0 }),
            ("temp_K", .num { neg := false, mant := 2981, exp := -1 })])) := by
  have hresp := handleWeather_success w r st req d t hm hb hv hd ht
  have hpos : 0 < 2 ^ 1074 := Nat.two_pow_pos 1074
  have hconst := conversion_constants
  have h25 := temperatures_at_25
  refine ⟨?_, ?_, ⟨hconst.1, ofInt_isNearest 18 10 (by decide), hconst.2.1,
    hconst.2.2, ofInt_isNearest 27315 100 (by decide)⟩,
    ⟨mul_isNearest, add_isNearest, fma_isNearest,
      fun neg n d f g hd hf hg => isNearest_unique neg n d f g hd hf hg⟩, ?_, ?_⟩
  · rw [hresp]
  · intro c f k hc hf hk
    have hf2 : parseFloat (celsiusToFahrenheit w t.Current.TempC) 1 = .fin f := hf
    have hk2 : parseFloat (celsiusToKelvin t.Current.TempC) 1 = .fin k := hk
    rw [hresp, hc, hf2, hk2, json_finite]
    exact ⟨rfl, rfl, rfl,
      formatFloat_toFloat64 c (parseFloat_fin _ c hc).1 (parseFloat_fin _ c hc).2,
      formatFloat_toFloat64 f (parseFloat_fin _ f hf).1 (parseFloat_fin _ f hf).2,
      formatFloat_toFloat64 k (parseFloat_fin _ k hk).1 (parseFloat_fin _ k hk).2⟩
  · intro k
    exact ⟨roundHalfEven (k.natAbs * 10) (2 ^ 1074),
      roundHalfEven_isHalfEven (k.natAbs * 10) (2 ^ 1074) hpos,
      ofRat_isNearest _ _ _ (by decide)⟩
  · intro hc
    have hK : Float64.IsNearest false 2981 10
        (.fin (Int.ofNat (2622115329920205 * 2 ^ 1031))) := by
      rw [← h25.2.2.2.2.2.2.1]
      exact ofRat_isNearest _ _ _ (by decide)
    have hS : Float64.IsNearest false 29815 100
        (.fin (Int.ofNat (2622555134571315 * 2 ^ 1031))) := by
      rw [← h25.2.2.2.2.1]
      exact ofInt_isNearest 29815 100 (by decide)
    have hF : parseFloat (celsiusToFahrenheit w (.fin (Int.ofNat (25 * 2 ^ 1074)))) 1 =
        .fin (Int.ofNat (77 * 2 ^ 1074)) := by
      unfold celsiusToFahrenheit
      cases w.fusedMulAdd
      · simp only [Bool.false_eq_true, if_false]; exact h25.2.2.1
      · simp only [if_true]; exact h25.2.1
    have hKv : parseFloat (celsiusToKelvin (.fin (Int.ofNat (25 * 2 ^ 1074)))) 1 =
        .fin (Int.ofNat (2622115329920205 * 2 ^ 1031)) := by
      unfold celsiusToKelvin
      rw [h25.2.2.2.1, h25.2.2.2.2.2.1]
    rw [hresp, hc, h25.1, hF, hKv]
    refine ⟨rfl, hK, hS, h25.2.2.2.1, h25.2.2.2.2.2.1, rfl, ?_⟩
    rw [json_finite, h25.2.2.2.2.2.2.2.1, h25.2.2.2.2.2.2.2.2.1, h25.2.2.2.2.2.2.2.2.2]

/-- Witness for C4: the run of `postRequest` in `okWorld`, whose weather lookup
returns the simulated 25.0: the response carries 25, 77 and 298.1. -/
theorem handleWeather_conversion_witness :
    (handleWeather okWorld postRequest (St.init 0)).1.status = 200 ∧
      (handleWeather okWorld postRequest (St.init 0)).1.body = .weather
        { City := "São Paulo"
          TempC := .fin (Int.ofNat (25 * 2 ^ 1074))
          TempF := .fin (Int.ofNat (77 * 2 ^ 1074))
          TempK := .fin (Int.ofNat (2622115329920205 * 2 ^ 1031)) } ∧
      (handleWeather okWorld postRequest (St.init 0)).1.written = .full ∧
      (handleWeather okWorld postRequest (St.init 0)).1.json = some enrichedBody :=
by
  have h := handleWeather_conversion okWorld postRequest (St.init 0) { CEP := "01310100" }
    paulista { Current := { TempC := .fin (Int.ofNat (25 * 2 ^ 1074)) } } rfl rfl (by decide)
    (by decide)
    (by rw [← ofInt_25]; simp [weatherReading, osGetenv, okWorld, emptyWorld])
  have h25 := h.2.2.2.2.2 rfl
  exact ⟨h.1, h25.1, h25.2.2.2.2.2.1, h25.2.2.2.2.2.2⟩

set_option maxRecDepth 100000 in
set_option exponentiation.threshold 5000 in
/-- C5, as stated, fails: the readings 25.0 and 25.04 both give a 200 response
with `tempC = 25.0`, but `tempF` is 77.0 for the first and 77.1 for the second,
and `tempK` is 298.1 and 298.2. -/
theorem equal_tempC_different_tempF_tempK :
    (handleWeather (weatherWorld false (Float64.ofInt 25 1)) postRequest (St.init 0)).1.status
        = 200 ∧
    (handleWeather (weatherWorld false (Float64.ofInt 2504 100)) postRequest
        (St.init 0)).1.status = 200 ∧
    (handleWeather (weatherWorld false (Float64.ofInt 25 1)) postRequest (St.init 0)).1.tempC =
      (handleWeather (weatherWorld false (Float64.ofInt 2504 100)) postRequest
        (St.init 0)).1.tempC ∧
    (handleWeather (weatherWorld false (Float64.ofInt 25 1)) postRequest (St.init 0)).1.tempF =
      some (Float64.ofInt 77 1) ∧
    (handleWeather (weatherWorld false (Float64.ofInt 2504 100)) postRequest
        (St.init 0)).1.tempF = some (Float64.ofInt 771 10) ∧
    (handleWeather (weatherWorld false (Float64.ofInt 25 1)) postRequest (St.init 0)).1.tempF ≠
      (handleWeather (weatherWorld false (Float64.ofInt 2504 100)) postRequest
        (St.init 0)).1.tempF ∧
    (handleWeather (weatherWorld false (Float64.ofInt 25 1)) postRequest (St.init 0)).1.tempK ≠
      (handleWeather (weatherWorld false (Float64.ofInt 2504 100)) postRequest
        (St.init 0)).1.tempK := by
  decide

set_option maxRecDepth 100000 in
set_option exponentiation.threshold 5000 in
/-- The same two readings on a target that fuses `C*1.8 + 32`. -/
theorem equal_tempC_different_tempF_fused :
    (handleWeather (weatherWorld true (Float64.ofInt 25 1)) postRequest (St.init 0)).1.tempC =
      (handleWeather (weatherWorld true (Float64.ofInt 2504 100)) postRequest
        (St.init 0)).1.tempC ∧
    (handleWeather (weatherWorld true (Float64.ofInt 25 1)) postRequest (St.init 0)).1.tempF ≠
      (handleWeather (weatherWorld true (Float64.ofInt 2504 100)) postRequest
        (St.init 0)).1.tempF := by
  decide

set_option maxRecDepth 100000 in
set_option exponentiation.threshold 5000 in
theorem celsiusReading_simulated :
    celsiusReading okWorld postRequest =
      celsiusReading (weatherWorld false (Float64.ofInt 25 1)) postRequest := by
  decide

/-- C5, amended: the temperature fields of a 200 response are functions of the
Celsius reading that the weather lookup returned for the request, each rounded
by `parseFloat`: `tempC = round(C)`, `tempF = round(C*1.8 + 32)` and
`tempK = round(C + 273.15)`; so two 200 responses obtained from equal readings
(on the same target) have equal `tempC`, `tempF` and `tempK`. -/
theorem handleWeather_temperatures_from_reading (w w2 : World) (r r2 : Request) (st st2 : St)
    (h200 : (handleWeather w r st).1.status = 200)
    (h200b : (handleWeather w2 r2 st2).1.status = 200)
    (hfma : w.fusedMulAdd = w2.fusedMulAdd)
    (hread : celsiusReading w r = celsiusReading w2 r2) :
    (∃ c, celsiusReading w r = some c ∧
      (handleWeather w r st).1.tempC = some (parseFloat c 1) ∧
      (handleWeather w r st).1.tempF = some (parseFloat (celsiusToFahrenheit w c) 1) ∧
      (handleWeather w r st).1.tempK = some (parseFloat (celsiusToKelvin c) 1)) ∧
    (handleWeather w r st).1.tempC = (handleWeather w2 r2 st2).1.tempC ∧
    (handleWeather w r st).1.tempF = (handleWeather w2 r2 st2).1.tempF ∧
    (handleWeather w r st).1.tempK = (handleWeather w2 r2 st2).1.tempK := by
  obtain ⟨c, hc, h1, h2, h3⟩ := handleWeather_temperatures w r st h200
  obtain ⟨c2, hc2, k1, k2, k3⟩ := handleWeather_temperatures w2 r2 st2 h200b
  have hcc : c = c2 := by
    rw [hc, hc2] at hread
    exact Option.some.inj hread
  subst hcc
  refine ⟨⟨c, hc, h1, h2, h3⟩, ?_, ?_, ?_⟩
  · rw [h1, k1]
  · rw [h2, k2]
    simp only [celsiusToFahrenheit, hfma]
  · rw [h3, k3]

/-- Witness for C5: the simulated reading 25.0 and a reported reading 25.0. -/
theorem handleWeather_temperatures_from_reading_witness :
    (handleWeather okWorld postRequest (St.init 0)).1.tempF =
      (handleWeather (weatherWorld false (Float64.ofInt 25 1)) postRequest (St.init 7)).1.tempF :=
  (handleWeather_temperatures_from_reading okWorld (weatherWorld false (Float64.ofInt 25 1))
    postRequest postRequest (St.init 0) (St.init 7) (by decide) (by decide) rfl
    celsiusReading_simulated).2.2.1

/-- The response of `handleWeather` does not depend on the log, nor on the
identifiers drawn. -/
theorem handleWeather_response (w : World) (r : Request) (st : St) :
    (handleWeather w r st).1 = weatherResponse w r := by
  unfold handleWeather weatherResponse
  by_cases hm : (r.method != "POST") = true
  · simp only [hm, if_true]
  · have hm2 : (r.method != "POST") = false := by simpa using hm
    cases hb : r.body with
    | none => simp only [hm2, Bool.false_eq_true, if_false]
    | some req =>
      by_cases hv : validateCEP req.CEP = true
      · simp only [hm2, hv, Bool.not_true, Bool.false_eq_true, if_false]
        split
        · rename_i err herr
          rw [toOption_error herr (fetchCEPData_toOption _ _ _ _)]
        · rename_i cepData hok
          rw [toOption_ok hok (fetchCEPData_toOption _ _ _ _)]
          simp only []
          split
          · rename_i err herr
            rw [toOption_error herr (fetchWeatherData_toOption _ _ _ _)]
          · rename_i wd hwd
            rw [toOption_ok hwd (fetchWeatherData_toOption _ _ _ _)]
      · have hv2 : validateCEP req.CEP = false := by simpa using hv
        simp only [hm2, hv2, Bool.false_eq_true, if_false, Bool.not_false, if_true]

theorem weatherResponse_recording (w : World) (b : Bool) (r : Request) :
    weatherResponse { w with recording := b } r = weatherResponse w r := rfl

end ServiceB

namespace ServiceA

/-- The response of `handleCEP` does not depend on the log. -/
theorem handleCEP_response (w : World) (r : Request) (st : St) :
    (handleCEP w r st).1 = gatewayResponse w r st := by
  have hu : gatewayURL w =
      (if osGetenv w "SERVICE_B_URL" == "" then "http://localhost:8081"
        else osGetenv w "SERVICE_B_URL") ++ "/weather" := rfl
  unfold handleCEP gatewayResponse
  simp only []
  rw [← hu]
  by_cases hm : (r.method != "POST") = true
  · simp only [hm, if_true]
  · have hm2 : (r.method != "POST") = false := by simpa using hm
    cases hb : r.body with
    | none => simp only [hm2, Bool.false_eq_true, if_false]
    | some req =>
      by_cases hv : validateCEP req.CEP = true
      · by_cases hreq : newRequestFails w (gatewayURL w) = true
        · simp only [hm2, hv, hreq, Bool.not_true, Bool.false_eq_true, if_false, if_true]
        · have hreq2 : newRequestFails w (gatewayURL w) = false := by simpa using hreq
          simp only [hm2, hv, hreq2, Bool.not_true, Bool.false_eq_true, if_false]
          have hw : (otelRoundTrip w
              (tracerStart
                (tracerStart (tracerStart r.ctx "handle-cep-request" st).1 "validate-cep"
                  (tracerStart r.ctx "handle-cep-request" st).2.2).1
                "call-service-b"
                ((tracerStart (tracerStart r.ctx "handle-cep-request" st).1 "validate-cep"
                  (tracerStart r.ctx "handle-cep-request" st).2.2).2.2.emit
                  (Event.spanEnd
                    (tracerStart (tracerStart r.ctx "handle-cep-request" st).1 "validate-cep"
                      (tracerStart r.ctx "handle-cep-request" st).2.2).2.1))).1
              { method := "POST", url := gatewayURL w,
                header := inject w
                  (tracerStart
                    (tracerStart (tracerStart r.ctx "handle-cep-request" st).1 "validate-cep"
                      (tracerStart r.ctx "handle-cep-request" st).2.2).1
                    "call-service-b"
                    ((tracerStart (tracerStart r.ctx "handle-cep-request" st).1 "validate-cep"
                      (tracerStart r.ctx "handle-cep-request" st).2.2).2.2.emit
                      (Event.spanEnd
                        (tracerStart (tracerStart r.ctx "handle-cep-request" st).1
                          "validate-cep"
                          (tracerStart r.ctx "handle-cep-request" st).2.2).2.1))).1
                  (Header.Set [] "Content-Type" "application/json"),
                body := some req }
              (tracerStart
                (tracerStart (tracerStart r.ctx "handle-cep-request" st).1 "validate-cep"
                  (tracerStart r.ctx "handle-cep-request" st).2.2).1
                "call-service-b"
                ((tracerStart (tracerStart r.ctx "handle-cep-request" st).1 "validate-cep"
                  (tracerStart r.ctx "handle-cep-request" st).2.2).2.2.emit
                  (Event.spanEnd
                    (tracerStart (tracerStart r.ctx "handle-cep-request" st).1 "validate-cep"
                      (tracerStart r.ctx "handle-cep-request" st).2.2).2.1))).2.2).1 =
              gatewayWire w r req st := rfl
          rw [hw]
          split <;> rfl
      · have hv2 : validateCEP req.CEP = false := by simpa using hv
        simp only [hm2, hv2, Bool.false_eq_true, if_false, Bool.not_false, if_true]

theorem gatewayResponse_recording (w : World) (b : Bool) (r : Request) (st : St) :
    gatewayResponse { w with recording := b } r st = gatewayResponse w r st := rfl

theorem depth_nested (n : Nat) : (nested n).depth = n := by
  induction n with
  | zero => rfl
  | succ n ih =>
    rw [nested, JSON.depth, JSON.depthList, JSON.depthList, ih]
    simp

/-- A body nested deeper than the decoder accepts is relayed as `null`. -/
theorem relayed_nested :
    (handleCEP (relayWorld 200 (.valid (nested 10001))) postRequest (St.init 0)).1.json =
      some .null := by
  have hg : gatewayResponse (relayWorld 200 (.valid (nested 10001))) postRequest (St.init 0) =
      relayResponse { StatusCode := 200, Body := .valid (nested 10001) } := rfl
  have hd : decodeInterface (.valid (nested 10001)) = .nil := by
    unfold decodeInterface
    simp only [depth_nested, maxNestingDepth]
    rfl
  rw [handleCEP_response, hg]
  unfold relayResponse
  rw [if_neg (by decide)]
  have hr : DownstreamResponse.read { StatusCode := 200, Body := .valid (nested 10001) } =
      .valid (nested 10001) := rfl
  simp only [hr, hd]
  rfl

set_option maxRecDepth 100000 in
set_option exponentiation.threshold 5000 in
/-- What the errors that `handleCEP` drops lead to: the valid JSON body `1e400`,
which is beyond the range of float64, is relayed as `null`, and so is a valid
body of 10001 nested arrays, which the decoder rejects; and for a downstream
response of status 99 `WriteHeader` panics, and the client gets no response. -/
theorem relay_beyond_limits :
    (handleCEP (relayWorld 200 (.valid hugeNumber)) postRequest (St.init 0)).1.json =
      some .null ∧
    ¬ JSON.Same hugeNumber .null ∧
    (handleCEP (relayWorld 200 (.valid (nested 10001))) postRequest (St.init 0)).1.json =
      some .null ∧
    ¬ JSON.Same (nested 10001) .null ∧
    (handleCEP (relayWorld 99 (.valid notFoundBody)) postRequest (St.init 0)).1.written =
      .nothing := by
  refine ⟨by rfl, ?_, relayed_nested, ?_, by decide⟩
  · intro h
    cases h
  · intro h
    cases h

end ServiceA

/-! ## Errors recorded on spans -/

theorem records_nil : recordsErrorBeforeResponding [] = false := rfl

theorem records_respond (status : Nat) (l : List Event) :
    recordsErrorBeforeResponding (.respond status :: l) = false := rfl

theorem records_recordError (sc : SpanContext) (err : GoError) (l : List Event) :
    recordsErrorBeforeResponding (.recordError sc err :: l) = true := by
  simp [recordsErrorBeforeResponding, beforeResponse, List.takeWhile, Event.isRespond,
    Event.isRecordError]

theorem records_spanStart (name : String) (sc parent : SpanContext) (l : List Event) :
    recordsErrorBeforeResponding (.spanStart name sc parent :: l) =
      recordsErrorBeforeResponding l := by
  simp [recordsErrorBeforeResponding, beforeResponse, List.takeWhile, Event.isRespond,
    Event.isRecordError]

theorem records_spanEnd (sc : SpanContext) (l : List Event) :
    recordsErrorBeforeResponding (.spanEnd sc :: l) = recordsErrorBeforeResponding l := by
  simp [recordsErrorBeforeResponding, beforeResponse, List.takeWhile, Event.isRespond,
    Event.isRecordError]

theorem records_call (fn arg : String) (l : List Event) :
    recordsErrorBeforeResponding (.call fn arg :: l) = recordsErrorBeforeResponding l := by
  simp [recordsErrorBeforeResponding, beforeResponse, List.takeWhile, Event.isRespond,
    Event.isRecordError]

theorem records_httpDo (q : HttpRequest) (l : List Event) :
    recordsErrorBeforeResponding (.httpDo q :: l) = recordsErrorBeforeResponding l := by
  simp [recordsErrorBeforeResponding, beforeResponse, List.takeWhile, Event.isRespond,
    Event.isRecordError]

theorem records_append (E l : List Event) (hE : E.all (fun e => !e.isRespond) = true)
    (hl : recordsErrorBeforeResponding l = true) :
    recordsErrorBeforeResponding (E ++ l) = true := by
  induction E with
  | nil => exact hl
  | cons e E ih =>
    simp only [List.all_cons, Bool.and_eq_true] at hE
    have ih2 := ih hE.2
    cases e with
    | respond status => simp [Event.isRespond] at hE
    | recordError sc err => exact records_recordError sc err _
    | spanStart name sc parent => rw [List.cons_append, records_spanStart]; exact ih2
    | spanEnd sc => rw [List.cons_append, records_spanEnd]; exact ih2
    | call fn arg => rw [List.cons_append, records_call]; exact ih2
    | httpDo q => rw [List.cons_append, records_httpDo]; exact ih2

theorem recorded_of_recording (w : World) (sc : SpanContext) (err : GoError)
    (hrec : w.recording = true) : recorded w sc err = [.recordError sc err] := by
  simp [recorded, hrec]

namespace ServiceB

/-- In `handleWeather`, with recording spans, the branches 400, 404 and 500
record an error before the response is written. -/
theorem handleWeather_records (w : World) (r : Request) (n : Nat) (hrec : w.recording = true)
    (hstatus : (handleWeather w r (St.init n)).1.status = 400 ∨
        (handleWeather w r (St.init n)).1.status = 404 ∨
        (handleWeather w r (St.init n)).1.status = 500) :
    recordsErrorBeforeResponding (handleWeather w r (St.init n)).2.events = true := by
  unfold handleWeather at hstatus ⊢
  by_cases hm : (r.method != "POST") = true
  · simp [hm, httpError] at hstatus
  · have hm2 : (r.method != "POST") = false := by simpa using hm
    cases hb : r.body with
    | none =>
      simp only [hm2, recorded_of_recording w _ _ hrec, events_init, events_emit,
          events_recordError, events_tracerStart, events_otelRoundTrip, List.append_assoc,
          List.cons_append, List.nil_append, List.append_nil, records_nil, records_respond,
          records_recordError, records_spanStart, records_spanEnd, records_call, records_httpDo,
          if_false, Bool.false_eq_true]
    | some req =>
      by_cases hv : validateCEP req.CEP = true
      · simp only [hm2, hb, hv, Bool.not_true, Bool.false_eq_true, if_false] at hstatus ⊢
        split
        · simp only [recorded_of_recording w _ _ hrec, events_init, fetchCEPData_events_eq,
            events_emit, events_recordError, events_tracerStart, events_otelRoundTrip,
            List.append_assoc, List.cons_append, List.nil_append, List.append_nil, records_nil,
            records_respond, records_recordError, records_spanStart, records_spanEnd, records_call,
            records_httpDo]
          exact records_append _ _ (fetchCEPData_no_respond _ _ _ _)
            (records_recordError _ _ _)
        · rename_i cepData hok
          simp only [hok] at hstatus
          split
          · simp only [recorded_of_recording w _ _ hrec, events_init, fetchCEPData_events_eq,
              fetchWeatherData_events_eq, events_emit, events_recordError, events_tracerStart,
              events_otelRoundTrip, List.append_assoc, List.cons_append, List.nil_append,
              List.append_nil, records_nil, records_respond, records_recordError, records_spanStart,
              records_spanEnd, records_call, records_httpDo]
            exact records_append _ _ (fetchCEPData_no_respond _ _ _ _)
              (records_append _ _ (fetchWeatherData_no_respond _ _ _ _)
                (records_recordError _ _ _))
          · rename_i wd hwd
            simp only [hwd] at hstatus
            simp at hstatus
      · have hv2 : validateCEP req.CEP = false := by simpa using hv
        simp [hm2, hb, hv2, jsonError] at hstatus

/-- In `handleWeather` the branch 405 records no error. -/
theorem handleWeather_405_no_record (w : World) (r : Request) (n : Nat)
    (hm : r.method ≠ "POST") :
    recordsErrorBeforeResponding (handleWeather w r (St.init n)).2.events = false := by
  have hm2 : (r.method != "POST") = true := by simpa using hm
  unfold handleWeather
  simp only [hm2, if_true, events_init, events_emit, events_recordError, events_tracerStart,
      events_otelRoundTrip, List.append_assoc, List.cons_append, List.nil_append, List.append_nil,
      records_nil, records_respond, records_recordError, records_spanStart, records_spanEnd,
      records_call, records_httpDo]

end ServiceB

namespace ServiceA

/-- A relayed response whose body is not the relayed value is the one of the
panic of `WriteHeader`. -/
theorem relayResponse_own (resp : DownstreamResponse)
    (h : (relayResponse resp).body.isRelay = false) : (relayResponse resp).status = 0 := by
  unfold relayResponse at h ⊢
  split
  · rfl
  · rename_i hp
    rw [if_neg hp] at h
    simp [Body.isRelay] at h

/-- In `handleCEP`, with recording spans, the branches that answer 400, 422 or
500 themselves record an error before the response is written. -/
theorem handleCEP_records (w : World) (r : Request) (n : Nat) (hrec : w.recording = true)
    (hown : (handleCEP w r (St.init n)).1.body.isRelay = false)
    (hstatus : (handleCEP w r (St.init n)).1.status = 400 ∨
        (handleCEP w r (St.init n)).1.status = 422 ∨
        (handleCEP w r (St.init n)).1.status = 500) :
    recordsErrorBeforeResponding (handleCEP w r (St.init n)).2.events = true := by
  have hu : gatewayURL w =
      (if osGetenv w "SERVICE_B_URL" == "" then "http://localhost:8081"
        else osGetenv w "SERVICE_B_URL") ++ "/weather" := rfl
  unfold handleCEP at hstatus hown ⊢
  simp only [] at hstatus hown ⊢
  rw [← hu] at hstatus hown ⊢
  by_cases hm : (r.method != "POST") = true
  · simp [hm, httpError] at hstatus
  · have hm2 : (r.method != "POST") = false := by simpa using hm
    cases hb : r.body with
    | none =>
      simp only [hm2, recorded_of_recording w _ _ hrec, events_init, events_emit,
          events_recordError, events_tracerStart, events_otelRoundTrip, List.append_assoc,
          List.cons_append, List.nil_append, List.append_nil, records_nil, records_respond,
          records_recordError, records_spanStart, records_spanEnd, records_call, records_httpDo,
          if_false, Bool.false_eq_true]
    | some req =>
      by_cases hv : validateCEP req.CEP = true
      · by_cases hreq : newRequestFails w (gatewayURL w) = true
        · simp only [hm2, hv, hreq, recorded_of_recording w _ _ hrec, events_init,
            events_emit, events_recordError, events_tracerStart, events_otelRoundTrip,
            List.append_assoc, List.cons_append, List.nil_append, List.append_nil, records_nil,
            records_respond, records_recordError, records_spanStart, records_spanEnd, records_call,
            records_httpDo, if_false, if_true, Bool.not_true, Bool.false_eq_true]
        · have hreq2 : newRequestFails w (gatewayURL w) = false := by simpa using hreq
          simp only [hm2, hb, hv, hreq2, Bool.not_true, Bool.false_eq_true, if_false]
            at hown hstatus ⊢
          split
          · simp only [recorded_of_recording w _ _ hrec, events_init, events_emit,
              events_recordError, events_tracerStart, events_otelRoundTrip, List.append_assoc,
              List.cons_append, List.nil_append, List.append_nil, records_nil, records_respond,
              records_recordError, records_spanStart, records_spanEnd, records_call, records_httpDo]
          · rename_i resp hdo
            simp only [hdo] at hown hstatus
            have h0 := relayResponse_own resp hown
            rw [h0] at hstatus
            omega
      · have hv2 : validateCEP req.CEP = false := by simpa using hv
        simp only [hm2, hv2, recorded_of_recording w _ _ hrec, events_init, events_emit,
            events_recordError, events_tracerStart, events_otelRoundTrip, List.append_assoc,
            List.cons_append, List.nil_append, List.append_nil, records_nil, records_respond,
            records_recordError, records_spanStart, records_spanEnd, records_call, records_httpDo,
            if_false, if_true, Bool.not_false, Bool.false_eq_true]

/-- In `handleCEP` the branch 405 records no error. -/
theorem handleCEP_405_no_record (w : World) (r : Request) (n : Nat) (hm : r.method ≠ "POST") :
    recordsErrorBeforeResponding (handleCEP w r (St.init n)).2.events = false := by
  have hm2 : (r.method != "POST") = true := by simpa using hm
  unfold handleCEP
  simp only [hm2, if_true, events_init, events_emit, events_recordError,
      events_tracerStart, events_otelRoundTrip, List.append_assoc, List.cons_append,
      List.nil_append, List.append_nil, records_nil, records_respond, records_recordError,
      records_spanStart, records_spanEnd, records_call, records_httpDo]

end ServiceA

/-- C8, as stated, fails: a GET request ends in both handlers with the error
response 405 although no error is recorded on any span, in a world whose spans
are recording. -/
theorem error_response_405_without_record :
    emptyWorld.recording = true ∧
    (ServiceB.handleWeather emptyWorld getRequest (St.init 0)).1.status = 405 ∧
    recordsErrorBeforeResponding
      (ServiceB.handleWeather emptyWorld getRequest (St.init 0)).2.events = false ∧
    (ServiceA.handleCEP emptyWorld getRequest (St.init 0)).1.status = 405 ∧
    recordsErrorBeforeResponding
      (ServiceA.handleCEP emptyWorld getRequest (St.init 0)).2.events = false := by
  decide

/-- The branch 422 of `handleWeather` records no error either, unlike the branch
422 of `handleCEP`. -/
theorem handleWeather_422_without_record :
    (ServiceB.handleWeather emptyWorld shortCodeRequest (St.init 0)).1.status = 422 ∧
    recordsErrorBeforeResponding
      (ServiceB.handleWeather emptyWorld shortCodeRequest (St.init 0)).2.events = false ∧
    (ServiceA.handleCEP emptyWorld shortCodeRequest (St.init 0)).1.status = 422 ∧
    recordsErrorBeforeResponding
      (ServiceA.handleCEP emptyWorld shortCodeRequest (St.init 0)).2.events = true := by
  decide

/-- C8, amended: with recording spans, `handleWeather` records an error on a span
before responding in its branches 400, 404 and 500, and `handleCEP` in the
branches in which it answers 400, 422 or 500 itself; the 405 branches record
nothing; and the response of either handler is the same whether or not spans
are recording. -/
theorem errors_recorded_before_responding (w : World) (r : Request) (n : Nat)
    (hrec : w.recording = true) :
    (((ServiceB.handleWeather w r (St.init n)).1.status = 400 ∨
        (ServiceB.handleWeather w r (St.init n)).1.status = 404 ∨
        (ServiceB.handleWeather w r (St.init n)).1.status = 500) →
      recordsErrorBeforeResponding (ServiceB.handleWeather w r (St.init n)).2.events = true) ∧
    ((ServiceA.handleCEP w r (St.init n)).1.body.isRelay = false →
      ((ServiceA.handleCEP w r (St.init n)).1.status = 400 ∨
        (ServiceA.handleCEP w r (St.init n)).1.status = 422 ∨
        (ServiceA.handleCEP w r (St.init n)).1.status = 500) →
      recordsErrorBeforeResponding (ServiceA.handleCEP w r (St.init n)).2.events = true) ∧
    (r.method ≠ "POST" →
      recordsErrorBeforeResponding (ServiceB.handleWeather w r (St.init n)).2.events = false ∧
      recordsErrorBeforeResponding (ServiceA.handleCEP w r (St.init n)).2.events = false) ∧
    (∀ (b : Bool) (st st2 : St),
      (ServiceB.handleWeather { w with recording := b } r st).1 =
        (ServiceB.handleWeather w r st2).1) ∧
    (∀ (b : Bool) (st : St),
      (ServiceA.handleCEP { w with recording := b } r st).1 =
        (ServiceA.handleCEP w r st).1) := by
  refine ⟨ServiceB.handleWeather_records w r n hrec, ServiceA.handleCEP_records w r n hrec,
    fun hm => ⟨ServiceB.handleWeather_405_no_record w r n hm,
      ServiceA.handleCEP_405_no_record w r n hm⟩, ?_, ?_⟩
  · intro b st st2
    rw [ServiceB.handleWeather_response, ServiceB.handleWeather_response,
      ServiceB.weatherResponse_recording]
  · intro b st
    rw [ServiceA.handleCEP_response, ServiceA.handleCEP_response,
      ServiceA.gatewayResponse_recording]

/-- Witness for C8: an undecodable POST body and a GET request, in a world whose
spans record. -/
theorem errors_recorded_before_responding_witness :
    recordsErrorBeforeResponding
        (ServiceB.handleWeather emptyWorld undecodableRequest (St.init 0)).2.events = true ∧
      recordsErrorBeforeResponding
        (ServiceA.handleCEP emptyWorld undecodableRequest (St.init 0)).2.events = true ∧
      (recordsErrorBeforeResponding
          (ServiceB.handleWeather emptyWorld getRequest (St.init 0)).2.events = false ∧
        recordsErrorBeforeResponding
          (ServiceA.handleCEP emptyWorld getRequest (St.init 0)).2.events = false) :=
  ⟨(errors_recorded_before_responding emptyWorld undecodableRequest 0 rfl).1
      (Or.inl (by decide)),
    (errors_recorded_before_responding emptyWorld undecodableRequest 0 rfl).2.1
      (by decide) (Or.inl (by decide)),
    (errors_recorded_before_responding emptyWorld getRequest 0 rfl).2.2.1 (by decide)⟩

/-! ## Trace propagation -/

theorem tracerStart_ctx (ctx : Context) (name : String) (st : St) :
    (tracerStart ctx name st).1.spanContext = (tracerStart ctx name st).2.1 := rfl

theorem tracerStart_valid (ctx : Context) (name : String) (st : St) :
    (tracerStart ctx name st).2.1.IsValid = true := by
  by_cases h : ctx.spanContext.IsValid = true
  · have h1 : (tracerStart ctx name st).2.1 =
        { traceID := ctx.spanContext.traceID, spanID := st.nextID + 1 } := by
      simp [tracerStart, h]
    have h2 : ctx.spanContext.traceID ≠ 0 := by
      simp only [SpanContext.IsValid, Bool.and_eq_true, bne_iff_ne, ne_eq] at h
      exact h.1
    rw [h1]
    simp [SpanContext.IsValid, h2]
  · have h1 : (tracerStart ctx name st).2.1 =
        { traceID := st.nextID + 1, spanID := st.nextID + 1 + 1 } := by
      simp [tracerStart, h, St.bump]
    rw [h1]
    simp [SpanContext.IsValid]

theorem tracerStart_traceID (ctx : Context) (name : String) (st : St)
    (h : ctx.spanContext.IsValid = true) :
    (tracerStart ctx name st).2.1.traceID = ctx.spanContext.traceID := by
  simp [tracerStart, h]

theorem tracerStart_spanID (ctx : Context) (name : String) (st : St) :
    (tracerStart ctx name st).2.1.spanID = (tracerStart ctx name st).2.2.nextID := by
  unfold tracerStart
  by_cases h : ctx.spanContext.IsValid = true <;> simp [h, St.bump, St.emit]

theorem tracerStart_spanID_of_valid (ctx : Context) (name : String) (st : St)
    (h : ctx.spanContext.IsValid = true) :
    (tracerStart ctx name st).2.1.spanID = st.nextID + 1 := by
  simp [tracerStart, h]

theorem header_get_set (h : Header) (key value : String) :
    (h.Set key value).Get key = some value := by
  simp [Header.Set, Header.Get, List.find?]

theorem inject_get (w : World) (ctx : Context) (h : Header)
    (hv : ctx.spanContext.IsValid = true) :
    (inject w ctx h).Get "traceparent" = some (w.encodeTraceparent ctx.spanContext) := by
  simp [inject, hv, header_get_set]

theorem findSpan_spanStart (name n : String) (sc parent : SpanContext) (l : List Event) :
    findSpan name (.spanStart n sc parent :: l) =
      if n == name then some (sc, parent) else findSpan name l := by
  unfold findSpan
  by_cases h : (n == name) = true <;> simp [List.findSome?, h]

theorem findSpan_spanEnd (name : String) (sc : SpanContext) (l : List Event) :
    findSpan name (.spanEnd sc :: l) = findSpan name l := rfl

theorem findSpan_relayedEvents (name : String) (response : Response) (l : List Event) :
    findSpan name (relayedEvents response ++ l) = findSpan name l := by
  unfold relayedEvents
  split <;> rfl

theorem name_ne_1 : ("handle-cep-request" == "call-service-b") = false := by decide

theorem name_ne_2 : ("validate-cep" == "call-service-b") = false := by decide

theorem name_ne_3 : ("handle-cep-request" == "HTTP POST") = false := by decide

theorem name_ne_4 : ("validate-cep" == "HTTP POST") = false := by decide

theorem name_ne_5 : ("call-service-b" == "HTTP POST") = false := by decide

theorem name_eq_1 : "HTTP " ++ "POST" = "HTTP POST" := by decide

namespace ServiceB

/-- The log of `handleWeather` starts with its request span, whose parent is the
span context extracted from the inbound headers. -/
theorem handleWeather_request_span (w : World) (r : Request) (n : Nat) :
    findSpan "handle-weather-request" (handleWeather w r (St.init n)).2.events =
      some ((tracerStart (extract w r.ctx r.header) "handle-weather-request" (St.init n)).2.1,
        (extract w r.ctx r.header).spanContext) := by
  unfold handleWeather
  simp only []
  split
  · simp only [events_init, events_emit, events_recordError, events_tracerStart,
      events_otelRoundTrip, List.append_assoc, List.cons_append, List.nil_append, List.append_nil,
      findSpan_spanStart, beq_self_eq_true, if_true]
  · split
    · simp only [events_init, events_emit, events_recordError, events_tracerStart,
        events_otelRoundTrip, List.append_assoc, List.cons_append, List.nil_append, List.append_nil,
        findSpan_spanStart, beq_self_eq_true, if_true]
    · split
      · simp only [events_init, events_emit, events_recordError, events_tracerStart,
          events_otelRoundTrip, List.append_assoc, List.cons_append, List.nil_append,
          List.append_nil, findSpan_spanStart, beq_self_eq_true, if_true]
      · split
        · simp only [events_init, fetchCEPData_events_eq, events_emit, events_recordError,
            events_tracerStart, events_otelRoundTrip, List.append_assoc, List.cons_append,
            List.nil_append, List.append_nil, findSpan_spanStart, beq_self_eq_true, if_true]
        · split
          · simp only [events_init, fetchCEPData_events_eq, fetchWeatherData_events_eq, events_emit,
              events_recordError, events_tracerStart, events_otelRoundTrip, List.append_assoc,
              List.cons_append, List.nil_append, List.append_nil, findSpan_spanStart,
              beq_self_eq_true, if_true]
          · simp only [events_init, fetchCEPData_events_eq, fetchWeatherData_events_eq, events_emit,
              events_recordError, events_tracerStart, events_otelRoundTrip, List.append_assoc,
              List.cons_append, List.nil_append, List.append_nil, findSpan_spanStart,
              beq_self_eq_true, if_true]

end ServiceB

namespace ServiceA

/-- The spans and the wire request of a run of `handleCEP` that forwards. -/
theorem handleCEP_forward (w : World) (r : Request) (n : Nat) (req : CEPRequest)
    (hm : r.method = "POST") (hb : r.body = some req) (hv : validateCEP req.CEP = true)
    (hreq : newRequestFails w (gatewayURL w) = false) :
    outboundCalls (handleCEP w r (St.init n)).2.events = [gatewayWire w r req (St.init n)] ∧
    (∃ p, findSpan "call-service-b" (handleCEP w r (St.init n)).2.events =
      some ((callServiceBStarted r (St.init n)).2.1, p)) ∧
    findSpan "HTTP POST" (handleCEP w r (St.init n)).2.events =
      some ((transportStarted r (St.init n)).2.1, (callServiceBStarted r (St.init n)).2.1) := by
  have hu : gatewayURL w =
      (if osGetenv w "SERVICE_B_URL" == "" then "http://localhost:8081"
        else osGetenv w "SERVICE_B_URL") ++ "/weather" := rfl
  have hm2 : (r.method != "POST") = false := by simp [hm]
  unfold handleCEP
  simp only []
  rw [← hu]
  simp only [hm2, hb, hv, hreq, Bool.not_true, Bool.false_eq_true, if_false]
  split
  · refine ⟨?_, ⟨(tracerStart (tracerStart r.ctx "handle-cep-request" (St.init n)).1
        "validate-cep" (tracerStart r.ctx "handle-cep-request" (St.init n)).2.2).1.spanContext,
      ?_⟩, ?_⟩
    · simp only [outboundCalls_emit, outboundCalls_recordError, outboundCalls_tracerStart,
        outboundCalls_otelRoundTrip, outboundCalls_respond, outboundCalls_spanEnd,
        outboundCalls_init, List.append_nil, List.nil_append]
      rfl
    · simp only [events_init, events_emit, events_recordError, events_tracerStart,
        events_otelRoundTrip, List.append_assoc, List.cons_append, List.nil_append, List.append_nil,
        findSpan_spanStart, findSpan_spanEnd, name_ne_1, name_ne_2, beq_self_eq_true, if_true,
        if_false, Bool.false_eq_true]
      rfl
    · simp only [events_init, events_emit, events_recordError, events_tracerStart,
        events_otelRoundTrip, List.append_assoc, List.cons_append, List.nil_append, List.append_nil,
        findSpan_spanStart, findSpan_spanEnd, name_ne_3, name_ne_4, name_ne_5, name_eq_1,
        beq_self_eq_true, if_true, if_false, Bool.false_eq_true]
      rfl
  · refine ⟨?_, ⟨(tracerStart (tracerStart r.ctx "handle-cep-request" (St.init n)).1
        "validate-cep" (tracerStart r.ctx "handle-cep-request" (St.init n)).2.2).1.spanContext,
      ?_⟩, ?_⟩
    · simp only [outboundCalls_emit, outboundCalls_recordError, outboundCalls_tracerStart,
        outboundCalls_otelRoundTrip, outboundCalls_respond, outboundCalls_spanEnd,
        outboundCalls_init, ServiceA.outboundCalls_logRelayed, List.append_nil, List.nil_append]
      rfl
    · simp only [events_init, events_emit, events_recordError, events_tracerStart,
        events_otelRoundTrip, events_logRelayed, findSpan_relayedEvents, List.append_assoc,
        List.cons_append, List.nil_append, List.append_nil,
        findSpan_spanStart, findSpan_spanEnd, name_ne_1, name_ne_2, beq_self_eq_true, if_true,
        if_false, Bool.false_eq_true]
      rfl
    · simp only [events_init, events_emit, events_recordError, events_tracerStart,
        events_otelRoundTrip, events_logRelayed, findSpan_relayedEvents, List.append_assoc,
        List.cons_append, List.nil_append, List.append_nil,
        findSpan_spanStart, findSpan_spanEnd, name_ne_3, name_ne_4, name_ne_5, name_eq_1,
        beq_self_eq_true, if_true, if_false, Bool.false_eq_true]
      rfl

end ServiceA

theorem emptyWorld_carrier (sc : SpanContext) :
    emptyWorld.decodeTraceparent (emptyWorld.encodeTraceparent sc) = sc := by
  cases sc with
  | mk t s =>
    simp [emptyWorld, List.count_append, List.count_replicate]

theorem extract_of_traceparent (w : World) (ctx : Context) (h : Header) (v : String)
    (sc : SpanContext) (hget : h.Get "traceparent" = some v)
    (hdec : w.decodeTraceparent v = sc) (hvalid : sc.IsValid = true) :
    extract w ctx h = { spanContext := sc } := by
  unfold extract
  rw [hget]
  simp only [hdec, hvalid, if_true]

theorem transport_valid (r : Request) (st : St) :
    (transportStarted r st).1.spanContext.IsValid = true := by
  rw [transportStarted, tracerStart_ctx]
  exact tracerStart_valid _ _ _

theorem callServiceB_valid (r : Request) (st : St) :
    (callServiceBStarted r st).1.spanContext.IsValid = true := by
  rw [callServiceBStarted, tracerStart_ctx]
  exact tracerStart_valid _ _ _

theorem gatewayWire_traceparent (w : World) (r : Request) (req : CEPRequest) (st : St) :
    (gatewayWire w r req st).header.Get "traceparent" =
      some (w.encodeTraceparent (transportStarted r st).2.1) := by
  have h := inject_get w (transportStarted r st).1 (gatewayRequest w r req st).header
    (transport_valid r st)
  exact h

theorem gatewayRequest_traceparent (w : World) (r : Request) (req : CEPRequest) (st : St) :
    (gatewayRequest w r req st).header.Get "traceparent" =
      some (w.encodeTraceparent (callServiceBStarted r st).2.1) :=
  inject_get w (callServiceBStarted r st).1 _ (callServiceB_valid r st)

theorem transport_traceID (r : Request) (st : St) :
    (transportStarted r st).2.1.traceID = (callServiceBStarted r st).2.1.traceID := by
  rw [transportStarted, tracerStart_traceID _ _ _ (callServiceB_valid r st)]
  rfl

theorem transport_spanID (r : Request) (st : St) :
    (transportStarted r st).2.1.spanID = (callServiceBStarted r st).2.1.spanID + 1 := by
  rw [transportStarted, tracerStart_spanID_of_valid _ _ _ (callServiceB_valid r st)]
  rw [callServiceBStarted, tracerStart_spanID]

/-- C9, as stated, fails, with a carrier for which extract undoes inject: the
header that reaches the Enrichment stage does not carry the context that
`handleCEP` injected (that of "call-service-b", span 4) but the one of the
client span of the instrumented transport (span 5), so the parent of the
request span of the Enrichment stage is not the span "call-service-b". -/
theorem enrichment_span_not_child_of_call_span :
    (∀ sc, emptyWorld.decodeTraceparent (emptyWorld.encodeTraceparent sc) = sc) ∧
    outboundCalls (ServiceA.handleCEP emptyWorld postRequest (St.init 0)).2.events
      = [postWire] ∧
    findSpan "call-service-b" (ServiceA.handleCEP emptyWorld postRequest (St.init 0)).2.events =
      some ({ traceID := 1, spanID := 4 }, { traceID := 1, spanID := 3 }) ∧
    (gatewayRequest emptyWorld postRequest { CEP := "01310100" } (St.init 0)).header.Get
        "traceparent" = some (emptyWorld.encodeTraceparent { traceID := 1, spanID := 4 }) ∧
    postWire.header.Get "traceparent" =
      some (emptyWorld.encodeTraceparent { traceID := 1, spanID := 5 }) ∧
    findSpan "handle-weather-request"
        (ServiceB.handleWeather emptyWorld (forwarded postWire) (St.init 0)).2.events =
      some ({ traceID := 1, spanID := 1 }, { traceID := 1, spanID := 5 }) ∧
    (findSpan "handle-weather-request"
        (ServiceB.handleWeather emptyWorld (forwarded postWire) (St.init 0)).2.events).map
        Prod.snd ≠
      (findSpan "call-service-b"
        (ServiceA.handleCEP emptyWorld postRequest (St.init 0)).2.events).map Prod.fst := by
  refine ⟨emptyWorld_carrier, ?_, ?_, ?_, ?_, ?_, ?_⟩ <;> decide

/-- C9, amended: for every request that the Gateway forwards, the header that
reaches the Enrichment stage carries the context of the client span that the
instrumented transport started under the Gateway's span "call-service-b" (it
replaces the context `handleCEP` injected itself); the Enrichment stage extracts
that context before starting its own span, so its request span has the same
trace identity as the span "call-service-b" and is a child of the transport's
client span, itself a child of "call-service-b" (given a carrier for which
extract undoes inject). -/
theorem trace_propagation (w wB : World) (r rB : Request) (n m : Nat) (wire : HttpRequest)
    (hwire : wire ∈ outboundCalls (ServiceA.handleCEP w r (St.init n)).2.events)
    (hheader : rB.header = wire.header)
    (hcarrier : ∀ sc, sc.IsValid = true →
      wB.decodeTraceparent (w.encodeTraceparent sc) = sc) :
    ∃ call callParent transport request,
      findSpan "call-service-b" (ServiceA.handleCEP w r (St.init n)).2.events =
        some (call, callParent) ∧
      findSpan "HTTP POST" (ServiceA.handleCEP w r (St.init n)).2.events =
        some (transport, call) ∧
      (∃ req, r.body = some req ∧
        (gatewayRequest w r req (St.init n)).header.Get "traceparent" =
          some (w.encodeTraceparent call)) ∧
      wire.header.Get "traceparent" = some (w.encodeTraceparent transport) ∧
      findSpan "handle-weather-request" (ServiceB.handleWeather wB rB (St.init m)).2.events =
        some (request, transport) ∧
      request.traceID = call.traceID ∧ transport.traceID = call.traceID ∧
      transport.spanID ≠ call.spanID := by
  have hcases := ServiceA.handleCEP_cases w r n
  have key : ∃ req, r.method = "POST" ∧ r.body = some req ∧
      ServiceA.validateCEP req.CEP = true ∧ newRequestFails w (gatewayURL w) = false := by
    rcases hcases with ⟨_, _, hc⟩ | ⟨_, _, _, hc⟩ | ⟨_, _, _, _, _, hc⟩ |
      ⟨_, _, _, _, _, _, hc⟩ | ⟨req, _, hm, hb, hv, hf, _, _, _⟩ |
      ⟨req, _, _, hm, hb, hv, hf, _, _, _⟩
    · rw [hc] at hwire; cases hwire
    · rw [hc] at hwire; cases hwire
    · rw [hc] at hwire; cases hwire
    · rw [hc] at hwire; cases hwire
    · exact ⟨req, hm, hb, hv, hf⟩
    · exact ⟨req, hm, hb, hv, hf⟩
  obtain ⟨req, hm, hb, hv, hf⟩ := key
  obtain ⟨hcalls, ⟨p, hcall⟩, htransport⟩ := ServiceA.handleCEP_forward w r n req hm hb hv hf
  rw [hcalls, List.mem_singleton] at hwire
  subst hwire
  have htp := gatewayWire_traceparent w r req (St.init n)
  have hvalid : (transportStarted r (St.init n)).2.1.IsValid = true := transport_valid r _
  have hext : extract wB rB.ctx rB.header =
        { spanContext := (transportStarted r (St.init n)).2.1 } := by
    rw [hheader]
    exact extract_of_traceparent wB _ _ _ _ htp (hcarrier _ hvalid) hvalid
  have hB := ServiceB.handleWeather_request_span wB rB m
  rw [hext] at hB
  refine ⟨_, p, _, _, hcall, htransport, ⟨req, hb, gatewayRequest_traceparent w r req _⟩, htp,
    hB, ?_, transport_traceID r _, ?_⟩
  · exact (tracerStart_traceID { spanContext := (transportStarted r (St.init n)).2.1 }
      "handle-weather-request" (St.init m) hvalid).trans (transport_traceID r _)
  · rw [transport_spanID]
    omega

/-- Witness for C9: the run of `postRequest`, with the carrier of `emptyWorld`. -/
theorem trace_propagation_witness :
    ∃ call callParent transport request,
      findSpan "call-service-b" (ServiceA.handleCEP emptyWorld postRequest (St.init 0)).2.events =
        some (call, callParent) ∧
      findSpan "HTTP POST" (ServiceA.handleCEP emptyWorld postRequest (St.init 0)).2.events =
        some (transport, call) ∧
      (∃ req, postRequest.body = some req ∧
        (gatewayRequest emptyWorld postRequest req (St.init 0)).header.Get "traceparent" =
          some (emptyWorld.encodeTraceparent call)) ∧
      postWire.header.Get "traceparent" = some (emptyWorld.encodeTraceparent transport) ∧
      findSpan "handle-weather-request"
          (ServiceB.handleWeather emptyWorld (forwarded postWire) (St.init 0)).2.events =
        some (request, transport) ∧
      request.traceID = call.traceID ∧ transport.traceID = call.traceID ∧
      transport.spanID ≠ call.spanID :=
  trace_propagation emptyWorld emptyWorld postRequest (forwarded postWire) 0 0 postWire
    (by decide) rfl (fun sc _ => emptyWorld_carrier sc)

end GetClima
